import Mathlib

/-!
# The vport registry of the Hyper-V datapath (`datapath-windows/ovsext/Vport.c`)

A shallow embedding of the port/NIC notification handlers of `Vport.c`, of the lookups
by identity, name and port number, of the query `OvsGetExtInfoIoctl`, of the initial
population of the registry and its undoing, and of the initialisation of tunnel vports,
together with the functions they call, followed by theorems about them.

## Memory model

* A `POVS_VPORT_ENTRY` is an address (`Nat`); `NULL` is `none`.
* `KernelState.mem` maps an address to the `OVS_VPORT_ENTRY` allocated there, or to
  `none` when nothing is allocated there (never allocated, or freed).
* The three intrusive lists an entry embeds (`ovsNameLink`, `portIdLink`, `portNoLink`)
  are represented on the side of the list heads: every bucket of a hash array is the
  list of the addresses linked into it, head first.
* A function that dereferences a pointer returns `none` when nothing is allocated at the
  address: the C program has no defined behaviour there.  `none` is also the result of
  `OvsWaitActivate` when neither activation flag is set, since a sequential run of the
  polling loop never leaves it.
* Calls that leave the registry (lock operations, posted events, adapter notifications,
  failed assertions) are appended to `KernelState.trace` in program order.
* `OvsAllocateMemory` is an oracle: every handler that allocates takes the result the
  allocator gives (`none` for `NULL`, `some a` for a block at address `a`).
* A loop whose number of iterations is not bounded by its input takes a `fuel` argument,
  and `none` is also the result when the loop has not ended within `fuel` iterations.
-/

namespace Vport

/-! ## Declarations taken from headers outside `Vport.c` / `Vport.h` -/

/-- The constants and hash functions that `Vport.c` uses but that are declared in
`Jhash.h`, `Switch.h` and the user-space interface headers.  They are parameters of the
embedding. `OvsJhashWords p` stands for `OvsJhashWords(&p, 1, OVS_HASH_BASIS)` and
`OvsJhashBytes bs` for `OvsJhashBytes(bs, len, OVS_HASH_BASIS)`. -/
structure Env where
  OvsJhashWords : Nat → Nat
  OvsJhashBytes : List Nat → Nat
  OVS_VPORT_MASK : Nat
  OVS_MAX_VPORT_ARRAY_SIZE : Nat
  OVS_MAX_PORT_NAME_LENGTH : Nat

/-- Values of `NDIS_SWITCH_PORT_TYPE` (ntddndis.h); `NdisSwitchPortTypeGeneric` is 0. -/
inductive NDIS_SWITCH_PORT_TYPE where
  | NdisSwitchPortTypeGeneric
  | NdisSwitchPortTypeExternal
  | NdisSwitchPortTypeSynthetic
  | NdisSwitchPortTypeEmulated
  | NdisSwitchPortTypeInternal
  deriving DecidableEq, Repr

/-- Values of `NDIS_SWITCH_PORT_STATE` (ntddndis.h); `NdisSwitchPortStateUnknown` is 0. -/
inductive NDIS_SWITCH_PORT_STATE where
  | NdisSwitchPortStateUnknown
  | NdisSwitchPortStateCreated
  | NdisSwitchPortStateTeardown
  | NdisSwitchPortStateDeleted
  deriving DecidableEq, Repr

/-- Values of `NDIS_SWITCH_NIC_TYPE` (ntddndis.h). -/
inductive NDIS_SWITCH_NIC_TYPE where
  | NdisSwitchNicTypeExternal
  | NdisSwitchNicTypeSynthetic
  | NdisSwitchNicTypeEmulated
  | NdisSwitchNicTypeInternal
  deriving DecidableEq, Repr

/-- Values of `NDIS_SWITCH_NIC_STATE` (ntddndis.h); `NdisSwitchNicStateUnknown` is 0. -/
inductive NDIS_SWITCH_NIC_STATE where
  | NdisSwitchNicStateUnknown
  | NdisSwitchNicStateCreated
  | NdisSwitchNicStateConnected
  | NdisSwitchNicStateDisconnected
  | NdisSwitchNicStateDeleted
  deriving DecidableEq, Repr

/-- Values of `OVS_VPORT_TYPE` that `Vport.c` names, and `OVS_VPORT_TYPE_UNSPEC` (0),
the value a zeroed entry holds. -/
inductive OVS_VPORT_TYPE where
  | OVS_VPORT_TYPE_UNSPEC
  | OVS_VPORT_TYPE_NETDEV
  | OVS_VPORT_TYPE_INTERNAL
  | OVS_VPORT_TYPE_GRE
  | OVS_VPORT_TYPE_VXLAN
  | OVS_VPORT_TYPE_GRE64
  deriving DecidableEq, Repr

/-- The status codes the handlers return. -/
inductive NDIS_STATUS where
  | NDIS_STATUS_SUCCESS
  | STATUS_DATA_NOT_ACCEPTED
  | NDIS_STATUS_RESOURCES
  | NDIS_STATUS_NOT_SUPPORTED
  | NDIS_STATUS_INVALID_PARAMETER
  deriving DecidableEq, Repr

/-- The structure `IF_COUNTED_STRING`: a byte length and the buffer of `IF_MAX_STRING_SIZE + 1` (257)
wide characters. -/
structure IF_COUNTED_STRING where
  Length : Nat
  String : List Nat
  deriving DecidableEq, Repr

/-- The fields of `NDIS_SWITCH_PORT_PARAMETERS` that `Vport.c` reads. -/
structure NDIS_SWITCH_PORT_PARAMETERS where
  PortId : Nat
  PortName : IF_COUNTED_STRING
  PortFriendlyName : IF_COUNTED_STRING
  PortType : NDIS_SWITCH_PORT_TYPE
  IsValidationPort : Bool
  PortState : NDIS_SWITCH_PORT_STATE
  deriving DecidableEq, Repr

/-- The fields of `NDIS_SWITCH_NIC_PARAMETERS` that `Vport.c` reads. -/
structure NDIS_SWITCH_NIC_PARAMETERS where
  NicName : IF_COUNTED_STRING
  PortId : Nat
  NicIndex : Nat
  NicType : NDIS_SWITCH_NIC_TYPE
  NicState : NDIS_SWITCH_NIC_STATE
  VmName : IF_COUNTED_STRING
  NetCfgInstanceId : List Nat
  MTU : Nat
  NumaNodeId : Nat
  PermanentMacAddress : List Nat
  VMMacAddress : List Nat
  CurrentMacAddress : List Nat
  deriving DecidableEq, Repr

/-- Modelled from the spec: the event mask bits of `Event.h`, which is absent; the spec
gives the mask as a bitwise combination of Connect, Disconnect, LinkUp, LinkDown,
MacChange and MtuChange, so each is a distinct single bit. -/
def OVS_EVENT_CONNECT : Nat := 1

/-- Modelled from the spec: the Disconnect bit of the event mask (see `OVS_EVENT_CONNECT`). -/
def OVS_EVENT_DISCONNECT : Nat := 2

/-- Modelled from the spec: the LinkUp bit of the event mask (see `OVS_EVENT_CONNECT`). -/
def OVS_EVENT_LINK_UP : Nat := 4

/-- Modelled from the spec: the LinkDown bit of the event mask (see `OVS_EVENT_CONNECT`). -/
def OVS_EVENT_LINK_DOWN : Nat := 8

/-- Modelled from the spec: the MacChange bit of the event mask (see `OVS_EVENT_CONNECT`). -/
def OVS_EVENT_MAC_CHANGE : Nat := 16

/-- Modelled from the spec: the MtuChange bit of the event mask (see `OVS_EVENT_CONNECT`). -/
def OVS_EVENT_MTU_CHANGE : Nat := 32

/-- Modelled from the spec: the macro `MAC_ADDRESS_LEN`, the size of the three address
fields of an entry, whose header is absent; the spec gives each MAC address of an entry
as a fixed 6-byte address. -/
def MAC_ADDRESS_LEN : Nat := 6

/-! ## `Vport.h` -/

/-- The constant `OVS_MAX_DPPORTS` is `MAXUINT16`. -/
def OVS_MAX_DPPORTS : Nat := 65535

/-- The constant `OVS_DPPORT_NUMBER_INVALID` is `OVS_MAX_DPPORTS`. -/
def OVS_DPPORT_NUMBER_INVALID : Nat := OVS_MAX_DPPORTS

/-- The enumeration `OVS_VPORT_STATE`. -/
inductive OVS_VPORT_STATE where
  | OVS_STATE_UNKNOWN
  | OVS_STATE_PORT_CREATED
  | OVS_STATE_NIC_CREATED
  | OVS_STATE_CONNECTED
  | OVS_STATE_PORT_TEAR_DOWN
  | OVS_STATE_PORT_DELETED
  deriving DecidableEq, Repr

/-- The structure `OVS_VPORT_STATS`. -/
structure OVS_VPORT_STATS where
  rxPackets : Nat
  txPackets : Nat
  rxBytes : Nat
  txBytes : Nat
  deriving DecidableEq, Repr

/-- The structure `OVS_VPORT_ERR_STATS`. -/
structure OVS_VPORT_ERR_STATS where
  rxErrors : Nat
  txErrors : Nat
  rxDropped : Nat
  txDropped : Nat
  deriving DecidableEq, Repr

/-- The structure `OVS_VPORT_ENTRY` without its three `LIST_ENTRY` links, which are
represented by the bucket lists of the switch context. -/
structure OVS_VPORT_ENTRY where
  ovsState : OVS_VPORT_STATE
  ovsType : OVS_VPORT_TYPE
  stats : OVS_VPORT_STATS
  errStats : OVS_VPORT_ERR_STATS
  portNo : Nat
  mtu : Nat
  ovsName : List Nat
  ovsNameLen : Nat
  priv : Option Nat
  portId : Nat
  nicIndex : Nat
  numaNodeId : Nat
  portState : NDIS_SWITCH_PORT_STATE
  nicState : NDIS_SWITCH_NIC_STATE
  portType : NDIS_SWITCH_PORT_TYPE
  permMacAddress : List Nat
  currMacAddress : List Nat
  vmMacAddress : List Nat
  hvPortName : IF_COUNTED_STRING
  portFriendlyName : IF_COUNTED_STRING
  nicName : IF_COUNTED_STRING
  vmName : IF_COUNTED_STRING
  netCfgInstanceId : List Nat
  isExternal : Bool
  upcallPid : Nat
  deriving DecidableEq, Repr

/-! ## The switch context and the state of the embedding -/

/-- The fields of `OVS_SWITCH_CONTEXT` (`Switch.h`) that `Vport.c` uses.  A hash array
maps a bucket number to the addresses linked into that bucket, head first.  The integer
type of the two counters is declared in `Switch.h`, which is absent: they are integers
here, `++` and `--` are exact, and a decrement of 0 shows as `-1`. -/
structure OVS_SWITCH_CONTEXT where
  externalPortId : Nat
  externalVport : Option Nat
  internalPortId : Nat
  internalVport : Option Nat
  portIdHashArray : Nat → List Nat
  portNoHashArray : Nat → List Nat
  ovsPortNameHashArray : Nat → List Nat
  numPhysicalNics : Int
  numVports : Int
  isActivated : Bool
  isActivateFailed : Bool

/-- What a handler does outside the registry, in program order. -/
inductive Effect where
  | NdisAcquireRWLockWrite
  | NdisAcquireRWLockRead
  | NdisReleaseRWLock
  | NdisReleaseSpinLock
  | OvsPostEvent (portNo : Nat) (event : Nat)
  | OvsInternalAdapterUp (portNo : Nat) (netCfgInstanceId : List Nat)
  | OvsInternalAdapterDown
  | OvsCleanupVxlanTunnel (vport : Nat)
  | AssertFailed
  deriving DecidableEq, Repr

/-- The switch context, the pool memory holding vport entries, and the trace of calls
leaving the registry. -/
structure KernelState where
  switchContext : OVS_SWITCH_CONTEXT
  mem : Nat → Option OVS_VPORT_ENTRY
  trace : List Effect

/-- Append one call to the trace. -/
def KernelState.emit (s : KernelState) (e : Effect) : KernelState :=
  { s with trace := s.trace ++ [e] }

/-- Write the entry `v` at address `a`. -/
def KernelState.store (s : KernelState) (a : Nat) (v : OVS_VPORT_ENTRY) : KernelState :=
  { s with mem := fun b => if b = a then some v else s.mem b }

/-- The call `OvsFreeMemory(a)`: nothing is allocated at `a` afterwards. -/
def OvsFreeMemory (s : KernelState) (a : Nat) : KernelState :=
  { s with mem := fun b => if b = a then none else s.mem b }

/-- Replace the switch context. -/
def KernelState.setCtx (s : KernelState) (c : OVS_SWITCH_CONTEXT) : KernelState :=
  { s with switchContext := c }

/-- The macro `ASSERT(c)`: a failed assertion is recorded and execution goes on, as in a
free build. -/
def ASSERT (s : KernelState) (c : Bool) : KernelState :=
  if c then s else s.emit Effect.AssertFailed

/-- The call `InsertHeadList(&array[b], &vport->link)` for the entry at address `a`. -/
def InsertHeadList (array : Nat → List Nat) (b a : Nat) : Nat → List Nat :=
  fun i => if i = b then a :: array i else array i

/-- The call `RemoveEntryList(&vport->link)` for the entry at address `a`: the entry leaves the
list it is linked into; an entry whose link is self-linked is in no list and nothing
changes. -/
def RemoveEntryList (array : Nat → List Nat) (a : Nat) : Nat → List Nat :=
  fun i => (array i).filter (fun b => b != a)

/-- The call `RtlStringCbPrintfA(dest, cbDest, text)` where `text` is the formatted string: at
most `cbDest - 1` characters are written, followed by a NUL; the rest of the buffer is
left as it was. -/
def RtlStringCbPrintfA (dest : List Nat) (cbDest : Nat) (text : List Nat) : List Nat :=
  if cbDest = 0 then dest
  else (text.take (cbDest - 1) ++ [0]) ++ dest.drop ((text.take (cbDest - 1)).length + 1)

/-- The characters of a string literal. -/
def chars (s : String) : List Nat := s.data.map Char.toNat

/-- The `%lu` conversion. -/
def fmtLu (n : Nat) : List Nat := (Nat.toDigits 10 n).map Char.toNat

/-! ## Lookup by hypervisor identity -/

/-- The `LIST_FORALL` loop of `OvsFindVportByPortIdAndNicIndex` over one bucket: the
first linked entry whose `portId` and `nicIndex` match, or `NULL`. -/
def findPortIdLink (mem : Nat → Option OVS_VPORT_ENTRY) (portId index : Nat) :
    List Nat → Option (Option Nat)
  | [] => some none
  | a :: rest =>
    match mem a with
    | none => none
    | some vport =>
      if portId = vport.portId ∧ index = vport.nicIndex then some (some a)
      else findPortIdLink mem portId index rest

/-- The function `OvsFindVportByPortIdAndNicIndex`. -/
def OvsFindVportByPortIdAndNicIndex (env : Env) (s : KernelState) (portId index : Nat) :
    Option (Option Nat) :=
  if portId = s.switchContext.externalPortId then
    some s.switchContext.externalVport
  else if s.switchContext.internalPortId = portId then
    some s.switchContext.internalVport
  else
    findPortIdLink s.mem portId index
      (s.switchContext.portIdHashArray (env.OvsJhashWords portId &&& env.OVS_VPORT_MASK))

/-! ## Allocation and initialisation of entries -/

/-- The contents of an entry after `RtlZeroMemory`. -/
def zeroVport (env : Env) : OVS_VPORT_ENTRY :=
  { ovsState := OVS_VPORT_STATE.OVS_STATE_UNKNOWN
    ovsType := OVS_VPORT_TYPE.OVS_VPORT_TYPE_UNSPEC
    stats := ⟨0, 0, 0, 0⟩
    errStats := ⟨0, 0, 0, 0⟩
    portNo := 0
    mtu := 0
    ovsName := List.replicate env.OVS_MAX_PORT_NAME_LENGTH 0
    ovsNameLen := 0
    priv := none
    portId := 0
    nicIndex := 0
    numaNodeId := 0
    portState := NDIS_SWITCH_PORT_STATE.NdisSwitchPortStateUnknown
    nicState := NDIS_SWITCH_NIC_STATE.NdisSwitchNicStateUnknown
    portType := NDIS_SWITCH_PORT_TYPE.NdisSwitchPortTypeGeneric
    permMacAddress := List.replicate 6 0
    currMacAddress := List.replicate 6 0
    vmMacAddress := List.replicate 6 0
    hvPortName := ⟨0, List.replicate 257 0⟩
    portFriendlyName := ⟨0, List.replicate 257 0⟩
    nicName := ⟨0, List.replicate 257 0⟩
    vmName := ⟨0, List.replicate 257 0⟩
    netCfgInstanceId := List.replicate 16 0
    isExternal := false
    upcallPid := 0 }

/-- The contents `OvsAllocateVport` gives a new entry: zeroed, then `ovsState` and
`portNo` set. -/
def freshVport (env : Env) : OVS_VPORT_ENTRY :=
  { zeroVport env with
    ovsState := OVS_VPORT_STATE.OVS_STATE_UNKNOWN
    portNo := OVS_DPPORT_NUMBER_INVALID }

/-- The function `OvsAllocateVport`; `alloc` is what `OvsAllocateMemory` returns.  The
three links of the new entry are self-linked: it is in no bucket. -/
def OvsAllocateVport (env : Env) (s : KernelState) (alloc : Option Nat) :
    Option Nat × KernelState :=
  match alloc with
  | none => (none, s)
  | some a => (some a, s.store a (freshVport env))

/-- The function `OvsInitVportWithPortParam`, as the new contents of `*vport`. -/
def OvsInitVportWithPortParam (vport : OVS_VPORT_ENTRY)
    (portParam : NDIS_SWITCH_PORT_PARAMETERS) : OVS_VPORT_ENTRY :=
  let vport := { vport with
    portType := portParam.PortType
    portState := portParam.PortState
    portId := portParam.PortId
    nicState := NDIS_SWITCH_NIC_STATE.NdisSwitchNicStateUnknown
    isExternal := false }
  let vport :=
    match vport.portType with
    | NDIS_SWITCH_PORT_TYPE.NdisSwitchPortTypeExternal =>
      { vport with isExternal := true, ovsType := OVS_VPORT_TYPE.OVS_VPORT_TYPE_NETDEV }
    | NDIS_SWITCH_PORT_TYPE.NdisSwitchPortTypeInternal =>
      { vport with ovsType := OVS_VPORT_TYPE.OVS_VPORT_TYPE_INTERNAL }
    | NDIS_SWITCH_PORT_TYPE.NdisSwitchPortTypeSynthetic =>
      { vport with ovsType := OVS_VPORT_TYPE.OVS_VPORT_TYPE_NETDEV }
    | NDIS_SWITCH_PORT_TYPE.NdisSwitchPortTypeEmulated =>
      { vport with ovsType := OVS_VPORT_TYPE.OVS_VPORT_TYPE_NETDEV }
    | NDIS_SWITCH_PORT_TYPE.NdisSwitchPortTypeGeneric => vport
  let vport := { vport with
    hvPortName := portParam.PortName
    portFriendlyName := portParam.PortFriendlyName }
  match vport.portState with
  | NDIS_SWITCH_PORT_STATE.NdisSwitchPortStateCreated =>
    { vport with ovsState := OVS_VPORT_STATE.OVS_STATE_PORT_CREATED }
  | NDIS_SWITCH_PORT_STATE.NdisSwitchPortStateTeardown =>
    { vport with ovsState := OVS_VPORT_STATE.OVS_STATE_PORT_TEAR_DOWN }
  | NDIS_SWITCH_PORT_STATE.NdisSwitchPortStateDeleted =>
    { vport with ovsState := OVS_VPORT_STATE.OVS_STATE_PORT_DELETED }
  | NDIS_SWITCH_PORT_STATE.NdisSwitchPortStateUnknown => vport

/-- The effect on an array field of a copy that starts at the field and whose length is
the size of the source array `src`, not that of the field: the field takes the first
bytes of `src`, as many as it holds (a source shorter than the field leaves the last
bytes of the field), and the bytes of `src` past the end of the field go to the memory
that follows the field.  The result is the new contents of the field and the bytes that
go past its end. -/
def copyPastEnd (field src : List Nat) : List Nat × List Nat :=
  (src.take field.length ++ field.drop src.length, src.drop field.length)

/-- The two bytes of a 16-bit value in memory, low byte first. -/
def u16Bytes (n : Nat) : List Nat := [n % 256, n / 256 % 256]

/-- The 16-bit values held by a sequence of bytes, low byte first. -/
def u16OfBytes : List Nat → List Nat
  | lo :: hi :: rest => (lo + 256 * hi) :: u16OfBytes rest
  | _ => []

/-- A counted string whose first bytes are overwritten by `src`: first the two bytes of
`Length`, then the wide characters of `String`, two bytes each.  The wide characters
past the last byte written are left as they are.  Bytes past the end of the string are
not followed further: the buffer is far longer than an address array of a parameter
block. -/
def IF_COUNTED_STRING.overwrite (c : IF_COUNTED_STRING) (src : List Nat) :
    IF_COUNTED_STRING :=
  if src = [] then c
  else
    let (len, over) := copyPastEnd (u16Bytes c.Length) src
    let n := (over.length + 1) / 2
    let (str, _) := copyPastEnd ((c.String.take n).map u16Bytes).flatten over
    { Length := (u16OfBytes len).headD 0
      String := u16OfBytes str ++ c.String.drop n }

/-- The call `RtlCopyMemory(vport->vmMacAddress, src, sizeof src)`: the bytes past the
end of `vmMacAddress` go to `hvPortName`, the field that follows it in
`OVS_VPORT_ENTRY` (the three address arrays take 18 bytes and start at an offset that
is a multiple of 4, so no padding lies between them and `hvPortName`). -/
def copyFromVmMacAddress (vport : OVS_VPORT_ENTRY) (src : List Nat) : OVS_VPORT_ENTRY :=
  let (vm, over) := copyPastEnd vport.vmMacAddress src
  { vport with vmMacAddress := vm, hvPortName := vport.hvPortName.overwrite over }

/-- The call `RtlCopyMemory(vport->currMacAddress, src, sizeof src)`: the bytes past the
end of `currMacAddress` go to `vmMacAddress` and on to `hvPortName`. -/
def copyFromCurrMacAddress (vport : OVS_VPORT_ENTRY) (src : List Nat) : OVS_VPORT_ENTRY :=
  let (curr, over) := copyPastEnd vport.currMacAddress src
  copyFromVmMacAddress { vport with currMacAddress := curr } over

/-- The call `RtlCopyMemory(vport->permMacAddress, src, sizeof src)`: the bytes past the
end of `permMacAddress` go to `currMacAddress`, `vmMacAddress` and on to `hvPortName`. -/
def copyFromPermMacAddress (vport : OVS_VPORT_ENTRY) (src : List Nat) : OVS_VPORT_ENTRY :=
  let (perm, over) := copyPastEnd vport.permMacAddress src
  copyFromCurrMacAddress { vport with permMacAddress := perm } over

/-- The function `OvsInitVportWithNicParam` for the entry at address `a`.  The three
address arrays of the parameter block are copied with the size of the parameter's array
(`sizeof (nicParam->PermanentMacAddress)` and so on), here the length of the list, into
fields of `MAC_ADDRESS_LEN` bytes: what does not fit goes to the fields that follow. -/
def OvsInitVportWithNicParam (s : KernelState) (a : Nat)
    (nicParam : NDIS_SWITCH_NIC_PARAMETERS) : Option KernelState :=
  match s.mem a with
  | none => none
  | some vport =>
    let s := ASSERT s (decide (vport.portId = nicParam.PortId))
    let s := ASSERT s (decide (vport.ovsState = OVS_VPORT_STATE.OVS_STATE_PORT_CREATED))
    let vport := copyFromPermMacAddress vport nicParam.PermanentMacAddress
    let vport := copyFromCurrMacAddress vport nicParam.CurrentMacAddress
    let vport :=
      if nicParam.NicType = NDIS_SWITCH_NIC_TYPE.NdisSwitchNicTypeSynthetic ∨
         nicParam.NicType = NDIS_SWITCH_NIC_TYPE.NdisSwitchNicTypeEmulated then
        { copyFromVmMacAddress vport nicParam.VMMacAddress with vmName := nicParam.VmName }
      else
        { vport with netCfgInstanceId := nicParam.NetCfgInstanceId }
    let vport := { vport with
      nicName := nicParam.NicName
      mtu := nicParam.MTU
      nicState := nicParam.NicState
      nicIndex := nicParam.NicIndex
      numaNodeId := nicParam.NumaNodeId }
    let vport :=
      match vport.nicState with
      | NDIS_SWITCH_NIC_STATE.NdisSwitchNicStateCreated =>
        { vport with ovsState := OVS_VPORT_STATE.OVS_STATE_NIC_CREATED }
      | NDIS_SWITCH_NIC_STATE.NdisSwitchNicStateConnected =>
        { vport with ovsState := OVS_VPORT_STATE.OVS_STATE_CONNECTED }
      | NDIS_SWITCH_NIC_STATE.NdisSwitchNicStateDisconnected =>
        { vport with ovsState := OVS_VPORT_STATE.OVS_STATE_NIC_CREATED }
      | NDIS_SWITCH_NIC_STATE.NdisSwitchNicStateDeleted =>
        { vport with ovsState := OVS_VPORT_STATE.OVS_STATE_PORT_CREATED }
      | NDIS_SWITCH_NIC_STATE.NdisSwitchNicStateUnknown => vport
    some (s.store a vport)

/-- The function `OvsInitPhysNicVport`, as the new contents of `*vport`. -/
def OvsInitPhysNicVport (vport virtVport : OVS_VPORT_ENTRY) (nicIndex : Nat) :
    OVS_VPORT_ENTRY :=
  { vport with
    portType := virtVport.portType
    portState := virtVport.portState
    portId := virtVport.portId
    nicState := NDIS_SWITCH_NIC_STATE.NdisSwitchNicStateUnknown
    ovsType := OVS_VPORT_TYPE.OVS_VPORT_TYPE_NETDEV
    isExternal := true
    nicIndex := nicIndex
    hvPortName := virtVport.hvPortName
    portFriendlyName := virtVport.portFriendlyName
    ovsState := OVS_VPORT_STATE.OVS_STATE_PORT_CREATED }

/-- The function `OvsInitVportCommon` for the entry at address `a`. -/
def OvsInitVportCommon (env : Env) (s : KernelState) (a : Nat) :
    Option (NDIS_STATUS × KernelState) :=
  match s.mem a with
  | none => none
  | some vport =>
    let s := ASSERT s (decide (vport.portNo = OVS_DPPORT_NUMBER_INVALID))
    let s :=
      match vport.portType with
      | NDIS_SWITCH_PORT_TYPE.NdisSwitchPortTypeExternal =>
        if vport.nicIndex = 0 then
          (s.setCtx { s.switchContext with
              externalPortId := vport.portId
              externalVport := some a }).store a
            { vport with
              ovsName := RtlStringCbPrintfA vport.ovsName (env.OVS_MAX_PORT_NAME_LENGTH - 1)
                (chars "external.virtualAdapter") }
        else
          (s.setCtx { s.switchContext with
              numPhysicalNics := s.switchContext.numPhysicalNics + 1 }).store a
            { vport with
              ovsName := RtlStringCbPrintfA vport.ovsName (env.OVS_MAX_PORT_NAME_LENGTH - 1)
                (chars "external." ++ fmtLu vport.nicIndex) }
      | NDIS_SWITCH_PORT_TYPE.NdisSwitchPortTypeInternal =>
        s.setCtx { s.switchContext with
          internalPortId := vport.portId
          internalVport := some a }
      | NDIS_SWITCH_PORT_TYPE.NdisSwitchPortTypeSynthetic => s
      | NDIS_SWITCH_PORT_TYPE.NdisSwitchPortTypeEmulated => s
      | NDIS_SWITCH_PORT_TYPE.NdisSwitchPortTypeGeneric => s
    if vport.portType = NDIS_SWITCH_PORT_TYPE.NdisSwitchPortTypeExternal ∧
       vport.nicIndex = 0 then
      some (NDIS_STATUS.NDIS_STATUS_SUCCESS, s)
    else
      some (NDIS_STATUS.NDIS_STATUS_SUCCESS,
        s.setCtx { s.switchContext with
          portIdHashArray :=
            InsertHeadList s.switchContext.portIdHashArray
              (env.OvsJhashWords vport.portId &&& env.OVS_VPORT_MASK) a
          numVports := s.switchContext.numVports + 1 })

/-- The function `OvsRemoveAndDeleteVport` for the entry at address `a`. -/
def OvsRemoveAndDeleteVport (s : KernelState) (a : Nat) : Option KernelState :=
  match s.mem a with
  | none => none
  | some vport =>
    if vport.isExternal ∧ vport.nicIndex = 0 then
      let s := ASSERT s (decide (s.switchContext.numPhysicalNics = 0))
      let s := s.setCtx { s.switchContext with externalPortId := 0, externalVport := none }
      some (OvsFreeMemory s a)
    else
      let s :=
        if vport.isExternal then
          let s := ASSERT s (decide (s.switchContext.numPhysicalNics ≠ 0))
          s.setCtx { s.switchContext with
            numPhysicalNics := s.switchContext.numPhysicalNics - 1 }
        else s
      let s :=
        match vport.ovsType with
        | OVS_VPORT_TYPE.OVS_VPORT_TYPE_INTERNAL =>
          (s.setCtx { s.switchContext with internalPortId := 0, internalVport := none }).emit
            Effect.OvsInternalAdapterDown
        | OVS_VPORT_TYPE.OVS_VPORT_TYPE_VXLAN => s.emit (Effect.OvsCleanupVxlanTunnel a)
        | OVS_VPORT_TYPE.OVS_VPORT_TYPE_GRE => s
        | OVS_VPORT_TYPE.OVS_VPORT_TYPE_GRE64 => s
        | OVS_VPORT_TYPE.OVS_VPORT_TYPE_NETDEV => s
        | OVS_VPORT_TYPE.OVS_VPORT_TYPE_UNSPEC => s
      let s := s.setCtx { s.switchContext with
        ovsPortNameHashArray := RemoveEntryList s.switchContext.ovsPortNameHashArray a
        portIdHashArray := RemoveEntryList s.switchContext.portIdHashArray a
        portNoHashArray := RemoveEntryList s.switchContext.portNoHashArray a
        numVports := s.switchContext.numVports - 1 }
      some (OvsFreeMemory s a)

/-- The function `OvsWaitActivate`: it returns once one of the two activation flags is
set; with neither set the polling loop of a sequential run does not end. -/
def OvsWaitActivate (s : KernelState) : Option KernelState :=
  if !s.switchContext.isActivated && !s.switchContext.isActivateFailed then none
  else some s

/-! ## The notification handlers -/

/-- The function `HvCreatePort`. -/
def HvCreatePort (env : Env) (s : KernelState) (portParam : NDIS_SWITCH_PORT_PARAMETERS)
    (alloc : Option Nat) : Option (NDIS_STATUS × KernelState) :=
  let s := s.emit Effect.NdisAcquireRWLockWrite
  match OvsFindVportByPortIdAndNicIndex env s portParam.PortId 0 with
  | none => none
  | some (some _) =>
    some (NDIS_STATUS.STATUS_DATA_NOT_ACCEPTED, s.emit Effect.NdisReleaseRWLock)
  | some none =>
    match OvsAllocateVport env s alloc with
    | (none, s) => some (NDIS_STATUS.NDIS_STATUS_RESOURCES, s.emit Effect.NdisReleaseRWLock)
    | (some a, s) =>
      match s.mem a with
      | none => none
      | some vport =>
        let s := s.store a (OvsInitVportWithPortParam vport portParam)
        match OvsInitVportCommon env s a with
        | none => none
        | some (_, s) =>
          some (NDIS_STATUS.NDIS_STATUS_SUCCESS, s.emit Effect.NdisReleaseRWLock)

/-- The function `HvDeletePort`. -/
def HvDeletePort (env : Env) (s : KernelState) (portParam : NDIS_SWITCH_PORT_PARAMETERS) :
    Option KernelState :=
  let s := s.emit Effect.NdisAcquireRWLockWrite
  match OvsFindVportByPortIdAndNicIndex env s portParam.PortId 0 with
  | none => none
  | some (some a) =>
    match OvsRemoveAndDeleteVport s a with
    | none => none
    | some s => some (s.emit Effect.NdisReleaseRWLock)
  | some none => some (s.emit Effect.NdisReleaseRWLock)

/-- The tail of `HvCreateNic` from the label `add_nic_done` on. -/
def HvCreateNic_done (s : KernelState) (status : NDIS_STATUS) (portNo event : Nat) :
    NDIS_STATUS × KernelState :=
  let s := s.emit Effect.NdisReleaseRWLock
  if portNo ≠ OVS_DPPORT_NUMBER_INVALID ∧ event ≠ 0 then
    (status, s.emit (Effect.OvsPostEvent portNo event))
  else (status, s)

/-- The part of `HvCreateNic` from the call of `OvsInitVportWithNicParam` on, for the
entry at address `a`. -/
def HvCreateNic_init (s : KernelState) (a : Nat) (nicParam : NDIS_SWITCH_NIC_PARAMETERS) :
    Option (NDIS_STATUS × KernelState) :=
  match OvsInitVportWithNicParam s a nicParam with
  | none => none
  | some s =>
    match s.mem a with
    | none => none
    | some vport =>
      let portNo := vport.portNo
      let event :=
        if vport.ovsState = OVS_VPORT_STATE.OVS_STATE_CONNECTED then
          OVS_EVENT_CONNECT ||| OVS_EVENT_LINK_UP
        else if vport.ovsState = OVS_VPORT_STATE.OVS_STATE_NIC_CREATED then
          OVS_EVENT_CONNECT
        else 0
      some (HvCreateNic_done s NDIS_STATUS.NDIS_STATUS_SUCCESS portNo event)

/-- The function `HvCreateNic`. -/
def HvCreateNic (env : Env) (s : KernelState) (nicParam : NDIS_SWITCH_NIC_PARAMETERS)
    (alloc : Option Nat) : Option (NDIS_STATUS × KernelState) :=
  match OvsWaitActivate s with
  | none => none
  | some s =>
    if !s.switchContext.isActivated then
      some (NDIS_STATUS.NDIS_STATUS_NOT_SUPPORTED, s)
    else
      let s := s.emit Effect.NdisAcquireRWLockWrite
      match OvsFindVportByPortIdAndNicIndex env s nicParam.PortId 0 with
      | none => none
      | some none =>
        some (HvCreateNic_done s NDIS_STATUS.NDIS_STATUS_INVALID_PARAMETER 0 0)
      | some (some vport) =>
        if nicParam.NicType = NDIS_SWITCH_NIC_TYPE.NdisSwitchNicTypeExternal ∧
           nicParam.NicIndex ≠ 0 then
          let virtVport := s.switchContext.externalVport
          match OvsAllocateVport env s alloc with
          | (none, s) => some (HvCreateNic_done s NDIS_STATUS.NDIS_STATUS_RESOURCES 0 0)
          | (some a, s) =>
            match virtVport.bind s.mem, s.mem a with
            | some virt, some new =>
              let s := s.store a (OvsInitPhysNicVport new virt nicParam.NicIndex)
              match OvsInitVportCommon env s a with
              | none => none
              | some (status, s) =>
                if status ≠ NDIS_STATUS.NDIS_STATUS_SUCCESS then
                  some (HvCreateNic_done (OvsFreeMemory s a) status 0 0)
                else HvCreateNic_init s a nicParam
            | _, _ => none
        else HvCreateNic_init s vport nicParam

/-- The function `HvDeleteNic`. -/
def HvDeleteNic (env : Env) (s : KernelState) (nicParam : NDIS_SWITCH_NIC_PARAMETERS) :
    Option KernelState :=
  match OvsWaitActivate s with
  | none => none
  | some s =>
    if !s.switchContext.isActivated then some s
    else
      let s := s.emit Effect.NdisAcquireRWLockWrite
      match OvsFindVportByPortIdAndNicIndex env s nicParam.PortId nicParam.NicIndex with
      | none => none
      | some none => some (s.emit Effect.NdisReleaseRWLock)
      | some (some a) =>
        match s.mem a with
        | none => none
        | some vport =>
          let portNo := vport.portNo
          let removed :=
            if vport.portType = NDIS_SWITCH_PORT_TYPE.NdisSwitchPortTypeExternal ∧
               vport.nicIndex ≠ 0 then
              OvsRemoveAndDeleteVport s a
            else some s
          match removed with
          | none => none
          | some s =>
            match s.mem a with
            | none => none
            | some vport =>
              let s := s.store a { vport with
                nicState := NDIS_SWITCH_NIC_STATE.NdisSwitchNicStateUnknown
                ovsState := OVS_VPORT_STATE.OVS_STATE_PORT_CREATED }
              let s := s.emit Effect.NdisReleaseRWLock
              some (s.emit (Effect.OvsPostEvent portNo OVS_EVENT_DISCONNECT))

/-- The function `HvTeardownPort`. -/
def HvTeardownPort (env : Env) (s : KernelState)
    (portParam : NDIS_SWITCH_PORT_PARAMETERS) : Option KernelState :=
  let s := s.emit Effect.NdisAcquireRWLockWrite
  match OvsFindVportByPortIdAndNicIndex env s portParam.PortId 0 with
  | none => none
  | some (some a) =>
    match s.mem a with
    | none => none
    | some vport =>
      let s := s.store a { vport with
        portState := NDIS_SWITCH_PORT_STATE.NdisSwitchPortStateTeardown
        ovsState := OVS_VPORT_STATE.OVS_STATE_PORT_TEAR_DOWN }
      some (s.emit Effect.NdisReleaseRWLock)
  | some none => some (s.emit Effect.NdisReleaseRWLock)

/-- The function `HvConnectNic`. -/
def HvConnectNic (env : Env) (s : KernelState) (nicParam : NDIS_SWITCH_NIC_PARAMETERS) :
    Option KernelState :=
  match OvsWaitActivate s with
  | none => none
  | some s =>
    if !s.switchContext.isActivated then some s
    else
      let s := s.emit Effect.NdisAcquireRWLockWrite
      match OvsFindVportByPortIdAndNicIndex env s nicParam.PortId nicParam.NicIndex with
      | none => none
      | some none =>
        let s := s.emit Effect.NdisReleaseRWLock
        some (ASSERT s false)
      | some (some a) =>
        match s.mem a with
        | none => none
        | some vport =>
          let s := s.store a { vport with
            ovsState := OVS_VPORT_STATE.OVS_STATE_CONNECTED
            nicState := NDIS_SWITCH_NIC_STATE.NdisSwitchNicStateConnected }
          let portNo := vport.portNo
          let s := s.emit Effect.NdisReleaseRWLock
          let s := s.emit (Effect.OvsPostEvent portNo OVS_EVENT_LINK_UP)
          if nicParam.NicType = NDIS_SWITCH_NIC_TYPE.NdisSwitchNicTypeInternal then
            some (s.emit (Effect.OvsInternalAdapterUp portNo nicParam.NetCfgInstanceId))
          else some s

/-- The writes `HvUpdateNic` makes to `*vport` while it holds the lock, from the `switch`
on the NIC type to the assignment of `numaNodeId`, together with the event mask `status`
it accumulates. -/
def HvUpdateNic_fields (vport : OVS_VPORT_ENTRY) (nicParam : NDIS_SWITCH_NIC_PARAMETERS) :
    OVS_VPORT_ENTRY × Nat :=
  let status := 0
  let (vport, status) :=
    match nicParam.NicType with
    | NDIS_SWITCH_NIC_TYPE.NdisSwitchNicTypeExternal =>
      ({ vport with netCfgInstanceId := nicParam.NetCfgInstanceId }, status)
    | NDIS_SWITCH_NIC_TYPE.NdisSwitchNicTypeInternal =>
      ({ vport with netCfgInstanceId := nicParam.NetCfgInstanceId }, status)
    | NDIS_SWITCH_NIC_TYPE.NdisSwitchNicTypeSynthetic =>
      if vport.vmMacAddress ≠ nicParam.VMMacAddress then
        ({ vport with vmMacAddress := nicParam.VMMacAddress }, status ||| OVS_EVENT_MAC_CHANGE)
      else (vport, status)
    | NDIS_SWITCH_NIC_TYPE.NdisSwitchNicTypeEmulated =>
      if vport.vmMacAddress ≠ nicParam.VMMacAddress then
        ({ vport with vmMacAddress := nicParam.VMMacAddress }, status ||| OVS_EVENT_MAC_CHANGE)
      else (vport, status)
  let (vport, status) :=
    if vport.permMacAddress ≠ nicParam.PermanentMacAddress then
      ({ vport with permMacAddress := nicParam.PermanentMacAddress },
        status ||| OVS_EVENT_MAC_CHANGE)
    else (vport, status)
  let (vport, status) :=
    if vport.currMacAddress ≠ nicParam.CurrentMacAddress then
      ({ vport with currMacAddress := nicParam.CurrentMacAddress },
        status ||| OVS_EVENT_MAC_CHANGE)
    else (vport, status)
  let (vport, status) :=
    if vport.mtu ≠ nicParam.MTU then
      ({ vport with mtu := nicParam.MTU }, status ||| OVS_EVENT_MTU_CHANGE)
    else (vport, status)
  ({ vport with numaNodeId := nicParam.NumaNodeId }, status)

/-- The function `HvUpdateNic`. When the lookup finds nothing the code jumps to the label
`update_nic_done`, which lies after the release of the lock. -/
def HvUpdateNic (env : Env) (s : KernelState) (nicParam : NDIS_SWITCH_NIC_PARAMETERS) :
    Option KernelState :=
  match OvsWaitActivate s with
  | none => none
  | some s =>
    if !s.switchContext.isActivated then some s
    else
      let s := s.emit Effect.NdisAcquireRWLockWrite
      match OvsFindVportByPortIdAndNicIndex env s nicParam.PortId nicParam.NicIndex with
      | none => none
      | some none => some s
      | some (some a) =>
        match s.mem a with
        | none => none
        | some vport =>
          let (vport, status) := HvUpdateNic_fields vport nicParam
          let s := s.store a vport
          let portNo := vport.portNo
          let s := s.emit Effect.NdisReleaseRWLock
          if status ≠ 0 ∧ portNo ≠ 0 then
            some (s.emit (Effect.OvsPostEvent portNo status))
          else some s

/-- The function `HvDisconnectNic`. -/
def HvDisconnectNic (env : Env) (s : KernelState) (nicParam : NDIS_SWITCH_NIC_PARAMETERS) :
    Option KernelState :=
  match OvsWaitActivate s with
  | none => none
  | some s =>
    if !s.switchContext.isActivated then some s
    else
      let s := s.emit Effect.NdisAcquireRWLockWrite
      match OvsFindVportByPortIdAndNicIndex env s nicParam.PortId nicParam.NicIndex with
      | none => none
      | some none => some (s.emit Effect.NdisReleaseRWLock)
      | some (some a) =>
        match s.mem a with
        | none => none
        | some vport =>
          let s := s.store a { vport with
            nicState := NDIS_SWITCH_NIC_STATE.NdisSwitchNicStateDisconnected
            ovsState := OVS_VPORT_STATE.OVS_STATE_NIC_CREATED }
          let portNo := vport.portNo
          let isInternalPort :=
            decide (vport.ovsType = OVS_VPORT_TYPE.OVS_VPORT_TYPE_INTERNAL)
          let s := s.emit Effect.NdisReleaseRWLock
          let s := s.emit (Effect.OvsPostEvent portNo OVS_EVENT_LINK_DOWN)
          if isInternalPort then some (s.emit Effect.OvsInternalAdapterDown)
          else some s

/-! ## Lookup by name and by port number -/

/-- The call `RtlEqualMemory(a, b, n)`: whether the first `n` bytes of the two buffers
are equal. -/
def RtlEqualMemory (a b : List Nat) (n : Nat) : Bool :=
  decide (a.take n = b.take n)

/-- The call `RtlCopyMemory(dest, src, n)`, as the new contents of `dest`: its first `n`
bytes are those of `src`, the rest is left as it was. -/
def RtlCopyMemory (dest src : List Nat) (n : Nat) : List Nat :=
  src.take n ++ dest.drop n

/-- The call `StringCbLengthA(psz, cbMax, &len)`, as the value of `len` afterwards: the
number of bytes before the first NUL among the first `cbMax` bytes of `psz`; when there is
no NUL among them the call fails and sets the length to 0. -/
def StringCbLengthA (psz : List Nat) (cbMax : Nat) : Nat :=
  if 0 ∈ psz.take cbMax then (psz.take cbMax).indexOf 0 else 0

/-- The four bytes of a `UINT32`, least significant first. -/
def u32Bytes (n : Nat) : List Nat :=
  [n % 256, n / 256 % 256, n / 65536 % 256, n / 16777216 % 256]

/-- The `LIST_FORALL` loop of `OvsFindVportByOvsName` over one bucket: the first linked
entry whose `ovsNameLen` is `length` and whose first `length` name bytes are those of
`name`, or `NULL`. -/
def findOvsNameLink (mem : Nat → Option OVS_VPORT_ENTRY) (name : List Nat) (length : Nat) :
    List Nat → Option (Option Nat)
  | [] => some none
  | a :: rest =>
    match mem a with
    | none => none
    | some vport =>
      if vport.ovsNameLen = length ∧ RtlEqualMemory name vport.ovsName length = true then
        some (some a)
      else findOvsNameLink mem name length rest

/-- The function `OvsFindVportByOvsName`. -/
def OvsFindVportByOvsName (env : Env) (s : KernelState) (name : List Nat) (length : Nat) :
    Option (Option Nat) :=
  findOvsNameLink s.mem name length
    (s.switchContext.ovsPortNameHashArray
      (env.OvsJhashBytes (name.take length) &&& env.OVS_VPORT_MASK))

/-- The `LIST_FORALL` loop of `OvsFindVportByPortNo` over one bucket: the first linked
entry whose `portNo` matches, or `NULL`. -/
def findPortNoLink (mem : Nat → Option OVS_VPORT_ENTRY) (portNo : Nat) :
    List Nat → Option (Option Nat)
  | [] => some none
  | a :: rest =>
    match mem a with
    | none => none
    | some vport =>
      if vport.portNo = portNo then some (some a)
      else findPortNoLink mem portNo rest

/-- The function `OvsFindVportByPortNo`. -/
def OvsFindVportByPortNo (env : Env) (s : KernelState) (portNo : Nat) :
    Option (Option Nat) :=
  findPortNoLink s.mem portNo
    (s.switchContext.portNoHashArray
      (env.OvsJhashBytes (u32Bytes portNo) &&& env.OVS_VPORT_MASK))

/-! ## The query `OvsGetExtInfoIoctl` -/

/-- The values of `NTSTATUS` the query path names; `STATUS_OTHER` stands for any other
failure status a conversion routine returns. -/
inductive NTSTATUS where
  | STATUS_SUCCESS
  | STATUS_DEVICE_DOES_NOT_EXIST
  | STATUS_BUFFER_OVERFLOW
  | STATUS_OTHER (code : Nat)
  deriving DecidableEq, Repr

/-- What the query path takes from outside `Vport.c`: the sizes of the two identifier
buffers of the record and the two conversion routines of the kernel run-time library.
`RtlUnicodeStringToAnsiSize w` is the number of bytes the ANSI form of `w` needs,
terminator included; `RtlUnicodeStringToAnsiString w max` is the status of the conversion
into a buffer of `max` bytes together with the bytes it wrote (`astr.Length` of them). -/
structure QueryEnv where
  OVS_MAX_VM_UUID_LEN : Nat
  OVS_MAX_VIF_UUID_LEN : Nat
  RtlUnicodeStringToAnsiSize : IF_COUNTED_STRING → Nat
  RtlUnicodeStringToAnsiString : IF_COUNTED_STRING → Nat → NTSTATUS × List Nat

/-- The fields of `OVS_VPORT_GET` that `OvsGetExtInfoIoctl` reads. -/
structure OVS_VPORT_GET where
  dpNo : Nat
  portNo : Nat
  name : List Nat
  deriving DecidableEq, Repr

/-- The fields of `OVS_VPORT_EXT_INFO` that `OvsGetExtInfoIoctl` writes. -/
structure OVS_VPORT_EXT_INFO where
  dpNo : Nat
  portNo : Nat
  macAddress : List Nat
  permMACAddress : List Nat
  vmMACAddress : List Nat
  nicIndex : Nat
  portId : Nat
  type : OVS_VPORT_TYPE
  mtu : Nat
  name : List Nat
  status : Nat
  vmUUID : List Nat
  vifUUID : List Nat
  deriving DecidableEq, Repr

/-- The function `OvsConvertIfCountedStrToAnsiStr`: the status, the new contents of the
buffer `str`, and the state (its trace grows by the assertions that fail). -/
def OvsConvertIfCountedStrToAnsiStr (qenv : QueryEnv) (s : KernelState)
    (wStr : IF_COUNTED_STRING) (str : List Nat) (maxStrLen : Nat) :
    NTSTATUS × List Nat × KernelState :=
  let size := qenv.RtlUnicodeStringToAnsiSize wStr
  if size > maxStrLen then (NTSTATUS.STATUS_BUFFER_OVERFLOW, str, s)
  else
    let (status, astr) := qenv.RtlUnicodeStringToAnsiString wStr maxStrLen
    let str := RtlCopyMemory str astr astr.length
    let s := ASSERT s (decide (status = NTSTATUS.STATUS_SUCCESS))
    if status ≠ NTSTATUS.STATUS_SUCCESS then (status, str, s)
    else
      let s := ASSERT s (decide (astr.length ≤ maxStrLen))
      (NTSTATUS.STATUS_SUCCESS, str.set astr.length 0, s)

/-- The lookup `OvsGetExtInfoIoctl` makes: by name when the request has `portNo` 0, by
port number otherwise. -/
def OvsGetExtInfoIoctl_find (env : Env) (s : KernelState) (vportGet : OVS_VPORT_GET) :
    Option (Option Nat) :=
  if vportGet.portNo = 0 then
    let len := StringCbLengthA vportGet.name (env.OVS_MAX_PORT_NAME_LENGTH - 1)
    OvsFindVportByOvsName env s vportGet.name len
  else OvsFindVportByPortNo env s vportGet.portNo

/-- The path of `OvsGetExtInfoIoctl` taken when the lookup gives `NULL` or an entry that
is neither Connected nor NicCreated. -/
def OvsGetExtInfoIoctl_absent (s : KernelState) (extInfo : OVS_VPORT_EXT_INFO) :
    NTSTATUS × OVS_VPORT_EXT_INFO × KernelState :=
  let s := s.emit Effect.NdisReleaseRWLock
  let s := s.emit Effect.NdisReleaseSpinLock
  (NTSTATUS.STATUS_DEVICE_DOES_NOT_EXIST, extInfo, s)

/-- The writes `OvsGetExtInfoIoctl` makes to the record while it holds the lock, from
the assignment of `dpNo` to the copy of the name, together with the flag `doConvert`. -/
def OvsGetExtInfoIoctl_fill (vportGet : OVS_VPORT_GET) (extInfo : OVS_VPORT_EXT_INFO)
    (vport : OVS_VPORT_ENTRY) : OVS_VPORT_EXT_INFO × Bool :=
  let extInfo := { extInfo with
    dpNo := vportGet.dpNo
    portNo := vport.portNo
    macAddress := vport.currMacAddress
    permMACAddress := vport.permMacAddress }
  let extInfo :=
    if vport.ovsType = OVS_VPORT_TYPE.OVS_VPORT_TYPE_NETDEV then
      { extInfo with vmMACAddress := vport.vmMacAddress }
    else extInfo
  let extInfo := { extInfo with
    nicIndex := vport.nicIndex
    portId := vport.portId
    type := vport.ovsType
    mtu := vport.mtu }
  let extInfo :=
    if vport.ovsState = OVS_VPORT_STATE.OVS_STATE_NIC_CREATED then
      { extInfo with status := OVS_EVENT_CONNECT ||| OVS_EVENT_LINK_DOWN }
    else if vport.ovsState = OVS_VPORT_STATE.OVS_STATE_CONNECTED then
      { extInfo with status := OVS_EVENT_CONNECT ||| OVS_EVENT_LINK_UP }
    else { extInfo with status := OVS_EVENT_DISCONNECT }
  let doConvert :=
    decide (extInfo.type = OVS_VPORT_TYPE.OVS_VPORT_TYPE_NETDEV ∧
      (vport.ovsState = OVS_VPORT_STATE.OVS_STATE_NIC_CREATED ∨
       vport.ovsState = OVS_VPORT_STATE.OVS_STATE_CONNECTED))
  let extInfo :=
    if doConvert then extInfo
    else { extInfo with
      vmUUID := extInfo.vmUUID.set 0 0
      vifUUID := extInfo.vifUUID.set 0 0 }
  let extInfo := { extInfo with
    name := RtlCopyMemory extInfo.name vport.ovsName (vport.ovsNameLen + 1) }
  (extInfo, doConvert)

/-- The two conversions `OvsGetExtInfoIoctl` makes after it has released the locks, when
`doConvert` is set: the VM name into `vmUUID` and the NIC name into `vifUUID`; a field
whose conversion fails gets 0 as its first byte. -/
def OvsGetExtInfoIoctl_convert (qenv : QueryEnv) (s : KernelState)
    (extInfo : OVS_VPORT_EXT_INFO) (vport : OVS_VPORT_ENTRY) :
    OVS_VPORT_EXT_INFO × KernelState :=
  let (status, vmUUID, s) :=
    OvsConvertIfCountedStrToAnsiStr qenv s vport.vmName extInfo.vmUUID
      qenv.OVS_MAX_VM_UUID_LEN
  let extInfo := { extInfo with vmUUID := vmUUID }
  let extInfo :=
    if status ≠ NTSTATUS.STATUS_SUCCESS then
      { extInfo with vmUUID := extInfo.vmUUID.set 0 0 }
    else extInfo
  let (status, vifUUID, s) :=
    OvsConvertIfCountedStrToAnsiStr qenv s vport.nicName extInfo.vifUUID
      qenv.OVS_MAX_VIF_UUID_LEN
  let extInfo := { extInfo with vifUUID := vifUUID }
  let extInfo :=
    if status ≠ NTSTATUS.STATUS_SUCCESS then
      { extInfo with vifUUID := extInfo.vifUUID.set 0 0 }
    else extInfo
  (extInfo, s)

/-- The function `OvsGetExtInfoIoctl` (with `USE_NEW_VPORT_ADD_WORKFLOW` 0).  `extInfo`
is the contents of the record of the caller after the `RtlZeroMemory` of its first
`sizeof (POVS_VPORT_EXT_INFO)` bytes; the global `gOvsSwitchContext` is the switch
context of the state. -/
def OvsGetExtInfoIoctl (env : Env) (qenv : QueryEnv) (s : KernelState)
    (vportGet : OVS_VPORT_GET) (extInfo : OVS_VPORT_EXT_INFO) :
    Option (NTSTATUS × OVS_VPORT_EXT_INFO × KernelState) :=
  let s := s.emit Effect.NdisAcquireRWLockRead
  match OvsGetExtInfoIoctl_find env s vportGet with
  | none => none
  | some none => some (OvsGetExtInfoIoctl_absent s extInfo)
  | some (some a) =>
    match s.mem a with
    | none => none
    | some vport =>
      if vport.ovsState ≠ OVS_VPORT_STATE.OVS_STATE_CONNECTED ∧
         vport.ovsState ≠ OVS_VPORT_STATE.OVS_STATE_NIC_CREATED then
        some (OvsGetExtInfoIoctl_absent s extInfo)
      else
        let (extInfo, doConvert) := OvsGetExtInfoIoctl_fill vportGet extInfo vport
        let s := s.emit Effect.NdisReleaseRWLock
        let s := s.emit Effect.NdisReleaseSpinLock
        if doConvert then
          match s.mem a with
          | none => none
          | some vport =>
            let (extInfo, s) := OvsGetExtInfoIoctl_convert qenv s extInfo vport
            some (NTSTATUS.STATUS_SUCCESS, extInfo, s)
        else some (NTSTATUS.STATUS_SUCCESS, extInfo, s)

/-! ## Initial population and its undoing -/

/-- The `LIST_FORALL` loop of `OvsClearAllSwitchVports` over one bucket of
`portNoHashArray`.  The loop calls `OvsRemoveAndDeleteVport` for the entry `link` lies in
and then reads `link->Flink` out of the entry just freed, for which the program has no
defined behaviour. -/
def OvsClearAllSwitchVports_bucket (s : KernelState) : List Nat → Option KernelState
  | [] => some s
  | a :: _ =>
    match OvsRemoveAndDeleteVport s a with
    | none => none
    | some _ => none

/-- The `for` loop of `OvsClearAllSwitchVports` from the value `hash` of its counter on.
The third expression of the loop is `hash`, so the counter keeps its value from one
iteration to the next; `fuel` bounds the number of iterations run, and `none` is the
result when the loop has not ended within them. -/
def OvsClearAllSwitchVports_loop (env : Env) : Nat → Nat → KernelState → Option KernelState
  | 0, _, _ => none
  | fuel + 1, hash, s =>
    if hash < env.OVS_MAX_VPORT_ARRAY_SIZE then
      match OvsClearAllSwitchVports_bucket s
          (s.switchContext.portNoHashArray (hash &&& env.OVS_VPORT_MASK)) with
      | none => none
      | some s => OvsClearAllSwitchVports_loop env fuel hash s
    else some s

/-- The function `OvsClearAllSwitchVports`, run for at most `fuel` iterations of its
loop. -/
def OvsClearAllSwitchVports (env : Env) (fuel : Nat) (s : KernelState) :
    Option KernelState :=
  match OvsClearAllSwitchVports_loop env fuel 0 s with
  | none => none
  | some s =>
    match s.switchContext.externalVport with
    | some a => OvsRemoveAndDeleteVport s a
    | none => some s

/-- The `for` loop of `OvsAddConfiguredSwitchPorts` over the port array; `allocs` lists
what `OvsAllocateMemory` returns call after call (`NULL` once the list is used up).  The
result is the status at the label `cleanup`. -/
def OvsAddConfiguredSwitchPorts_loop (env : Env) :
    KernelState → List NDIS_SWITCH_PORT_PARAMETERS → List (Option Nat) →
      Option (NDIS_STATUS × KernelState)
  | s, [], _ => some (NDIS_STATUS.NDIS_STATUS_SUCCESS, s)
  | s, portParam :: rest, allocs =>
    if portParam.IsValidationPort then OvsAddConfiguredSwitchPorts_loop env s rest allocs
    else
      match OvsAllocateVport env s allocs.head?.join with
      | (none, s) => some (NDIS_STATUS.NDIS_STATUS_RESOURCES, s)
      | (some a, s) =>
        match s.mem a with
        | none => none
        | some vport =>
          let s := s.store a (OvsInitVportWithPortParam vport portParam)
          match OvsInitVportCommon env s a with
          | none => none
          | some (status, s) =>
            if status ≠ NDIS_STATUS.NDIS_STATUS_SUCCESS then
              some (status, OvsFreeMemory s a)
            else OvsAddConfiguredSwitchPorts_loop env s rest allocs.tail

/-- The function `OvsAddConfiguredSwitchPorts`.  `ports` is what `OvsGetPortsOnSwitch`
returns (its status and the port array, `none` for `NULL`), `allocs` what the allocator
returns call after call, and `fuel` bounds the iterations of the loop of
`OvsClearAllSwitchVports`. -/
def OvsAddConfiguredSwitchPorts (env : Env) (fuel : Nat) (s : KernelState)
    (ports : NDIS_STATUS × Option (List NDIS_SWITCH_PORT_PARAMETERS))
    (allocs : List (Option Nat)) : Option (NDIS_STATUS × KernelState) :=
  let atCleanup :=
    if ports.1 ≠ NDIS_STATUS.NDIS_STATUS_SUCCESS then some (ports.1, s)
    else
      match ports.2 with
      | none => none
      | some portArray => OvsAddConfiguredSwitchPorts_loop env s portArray allocs
  match atCleanup with
  | none => none
  | some (status, s) =>
    if status ≠ NDIS_STATUS.NDIS_STATUS_SUCCESS then
      match OvsClearAllSwitchVports env fuel s with
      | none => none
      | some s => some (status, s)
    else some (status, s)

/-! ## Tunnel vports -/

/-- The fields of `OVS_VPORT_ADD_REQUEST` that `OvsInitTunnelVport` reads. -/
structure OVS_VPORT_ADD_REQUEST where
  type : OVS_VPORT_TYPE
  name : List Nat
  deriving DecidableEq, Repr

/-- Modelled from the spec: the call `OvsInitVxlanTunnel(vport, addReq)` of `Vxlan.c`,
which is absent.  The spec gives an entry a private extension pointer for kind-specific
state such as the tunnel encapsulation context; the call sets it up, so it is a function
giving the status and the new value of `priv`, and it leaves the other fields of the
entry as they are. -/
structure TunnelEnv where
  OvsInitVxlanTunnel : OVS_VPORT_ENTRY → OVS_VPORT_ADD_REQUEST → NTSTATUS × Option Nat

/-- The function `OvsInitTunnelVport` for the entry at address `a`.  The value of `len`
is below the size of the name buffer, so the cast to `UINT32` leaves it as it is. -/
def OvsInitTunnelVport (env : Env) (tenv : TunnelEnv) (s : KernelState) (a : Nat)
    (addReq : OVS_VPORT_ADD_REQUEST) : Option (NTSTATUS × KernelState) :=
  match s.mem a with
  | none => none
  | some vport =>
    let status := NTSTATUS.STATUS_SUCCESS
    let vport := { vport with
      ovsType := addReq.type
      ovsState := OVS_VPORT_STATE.OVS_STATE_PORT_CREATED }
    let vport := { vport with
      ovsName := RtlCopyMemory vport.ovsName addReq.name env.OVS_MAX_PORT_NAME_LENGTH }
    let vport := { vport with
      ovsName := vport.ovsName.set (env.OVS_MAX_PORT_NAME_LENGTH - 1) 0 }
    let len := StringCbLengthA vport.ovsName (env.OVS_MAX_PORT_NAME_LENGTH - 1)
    let vport := { vport with ovsNameLen := len }
    match addReq.type with
    | OVS_VPORT_TYPE.OVS_VPORT_TYPE_GRE => some (status, s.store a vport)
    | OVS_VPORT_TYPE.OVS_VPORT_TYPE_GRE64 => some (status, s.store a vport)
    | OVS_VPORT_TYPE.OVS_VPORT_TYPE_VXLAN =>
      let (status, priv) := tenv.OvsInitVxlanTunnel vport addReq
      some (status, s.store a { vport with priv := priv })
    | OVS_VPORT_TYPE.OVS_VPORT_TYPE_UNSPEC => some (status, ASSERT (s.store a vport) false)
    | OVS_VPORT_TYPE.OVS_VPORT_TYPE_NETDEV => some (status, ASSERT (s.store a vport) false)
    | OVS_VPORT_TYPE.OVS_VPORT_TYPE_INTERNAL => some (status, ASSERT (s.store a vport) false)

/-! ## Sequences of port and NIC notifications -/

/-- A call of one of `HvCreatePort`, `HvCreateNic`, `HvDeleteNic` and `HvDeletePort`; a
create comes with what the allocator returns for it. -/
inductive RegistryOp where
  | createPort (portParam : NDIS_SWITCH_PORT_PARAMETERS) (alloc : Option Nat)
  | createNic (nicParam : NDIS_SWITCH_NIC_PARAMETERS) (alloc : Option Nat)
  | deleteNic (nicParam : NDIS_SWITCH_NIC_PARAMETERS)
  | deletePort (portParam : NDIS_SWITCH_PORT_PARAMETERS)

/-- The block the allocator returns for a call, if the call comes with one. -/
def RegistryOp.alloc : RegistryOp → Option Nat
  | RegistryOp.createPort _ alloc => alloc
  | RegistryOp.createNic _ alloc => alloc
  | RegistryOp.deleteNic _ => none
  | RegistryOp.deletePort _ => none

/-- Make one call. -/
def stepRegistryOp (env : Env) (s : KernelState) : RegistryOp → Option KernelState
  | RegistryOp.createPort portParam alloc =>
    (HvCreatePort env s portParam alloc).map (fun r => r.2)
  | RegistryOp.createNic nicParam alloc =>
    (HvCreateNic env s nicParam alloc).map (fun r => r.2)
  | RegistryOp.deleteNic nicParam => HvDeleteNic env s nicParam
  | RegistryOp.deletePort portParam => HvDeletePort env s portParam

/-- Make a sequence of calls in order. -/
def runRegistryOps (env : Env) : KernelState → List RegistryOp → Option KernelState
  | s, [] => some s
  | s, op :: rest =>
    match stepRegistryOp env s op with
    | none => none
    | some s1 => runRegistryOps env s1 rest

/-- Whether, along the run of a sequence of calls, the allocator never hands out a block
that is in use at the time of the call. -/
def allocsFresh (env : Env) : KernelState → List RegistryOp → Bool
  | _, [] => true
  | s, op :: rest =>
    (match op.alloc with
      | some a => (s.mem a).isNone
      | none => true) &&
    (match stepRegistryOp env s op with
      | some s1 => allocsFresh env s1 rest
      | none => true)

/-- The rule a NIC create keeps when its NIC index is 0 unless its NIC type is External;
the other calls are not restricted. -/
def RegistryOp.nicIndexRule : RegistryOp → Prop
  | RegistryOp.createNic nicParam _ =>
    nicParam.NicIndex ≠ 0 → nicParam.NicType = NDIS_SWITCH_NIC_TYPE.NdisSwitchNicTypeExternal
  | _ => True

/-- The number of entries linked into the port-id index. -/
def linkedInIndex (env : Env) (s : KernelState) : Nat :=
  ((List.range env.OVS_MAX_VPORT_ARRAY_SIZE).map (fun b =>
    (s.switchContext.portIdHashArray b).length)).sum

/-- The number of times the address `a` is linked into the port-id index. -/
def linkCount (env : Env) (s : KernelState) (a : Nat) : Nat :=
  ((List.range env.OVS_MAX_VPORT_ARRAY_SIZE).map (fun b =>
    (s.switchContext.portIdHashArray b).count a)).sum

/-- The fields of an entry that decide which branch of `OvsRemoveAndDeleteVport` and of
`OvsInitVportCommon` it takes. -/
def countKey (e : OVS_VPORT_ENTRY) : Bool × Nat × OVS_VPORT_TYPE × NDIS_SWITCH_PORT_TYPE :=
  (e.isExternal, e.nicIndex, e.ovsType, e.portType)

/-- The invariant behind the count of vports: `numVports` is the number of entries linked
into the port-id index; every linked address is allocated, is linked once, and is not an
external port-level entry; the occupant of the external slot is an allocated external
port-level entry; the occupant of the internal slot is an allocated entry of Internal
kind with nicIndex 0 that is linked into the index. -/
structure VportCountInv (env : Env) (s : KernelState) : Prop where
  count : s.switchContext.numVports = (linkedInIndex env s : Int)
  idx : ∀ b, b < env.OVS_MAX_VPORT_ARRAY_SIZE → ∀ a ∈ s.switchContext.portIdHashArray b,
    ∃ e, s.mem a = some e ∧ (e.isExternal = true → e.nicIndex ≠ 0)
  once : ∀ a, linkCount env s a ≤ 1
  ext : ∀ a0, s.switchContext.externalVport = some a0 →
    ∃ e0, s.mem a0 = some e0 ∧
      e0.portType = NDIS_SWITCH_PORT_TYPE.NdisSwitchPortTypeExternal ∧
      e0.isExternal = true ∧ e0.nicIndex = 0
  int : ∀ ai, s.switchContext.internalVport = some ai →
    ∃ e, s.mem ai = some e ∧ e.ovsType = OVS_VPORT_TYPE.OVS_VPORT_TYPE_INTERNAL ∧
      e.isExternal = false ∧ e.nicIndex = 0 ∧ linkCount env s ai = 1

/-! ## The dispatch lock along a trace -/

/-- Where a handler stands with respect to the dispatch lock: it has not taken it, it
holds it, or it has released it. -/
inductive LockPhase where
  | idle
  | held
  | released
  deriving DecidableEq, Repr

/-- The phase after the calls of a trace. -/
def lockPhaseAfter : LockPhase → List Effect → LockPhase
  | p, [] => p
  | _, Effect.NdisAcquireRWLockWrite :: t => lockPhaseAfter LockPhase.held t
  | _, Effect.NdisAcquireRWLockRead :: t => lockPhaseAfter LockPhase.held t
  | _, Effect.NdisReleaseRWLock :: t => lockPhaseAfter LockPhase.released t
  | p, _ :: t => lockPhaseAfter p t

/-- Whether every call of `OvsPostEvent` in the trace is made after the lock has been
released and while it is not held. -/
def postsAfterRelease : LockPhase → List Effect → Bool
  | _, [] => true
  | _, Effect.NdisAcquireRWLockWrite :: t => postsAfterRelease LockPhase.held t
  | _, Effect.NdisAcquireRWLockRead :: t => postsAfterRelease LockPhase.held t
  | _, Effect.NdisReleaseRWLock :: t => postsAfterRelease LockPhase.released t
  | p, Effect.OvsPostEvent _ _ :: t => decide (p = LockPhase.released) && postsAfterRelease p t
  | p, _ :: t => postsAfterRelease p t

/-! ## Concrete stores and notifications used in the worked runs -/

/-- An instance of the parameters: 64 buckets, mask 63, names of 16 bytes. The worked
runs do not depend on the hash functions chosen here. -/
def sampleEnv : Env :=
  { OvsJhashWords := fun p => p
    OvsJhashBytes := fun bs => bs.sum
    OVS_VPORT_MASK := 63
    OVS_MAX_VPORT_ARRAY_SIZE := 64
    OVS_MAX_PORT_NAME_LENGTH := 16 }

/-- The activated store with no entry: zeroed switch context, nothing allocated. -/
def emptyState : KernelState :=
  { switchContext :=
      { externalPortId := 0
        externalVport := none
        internalPortId := 0
        internalVport := none
        portIdHashArray := fun _ => []
        portNoHashArray := fun _ => []
        ovsPortNameHashArray := fun _ => []
        numPhysicalNics := 0
        numVports := 0
        isActivated := true
        isActivateFailed := false }
    mem := fun _ => none
    trace := [] }

/-- A port-create parameter block with the given id, type and state. -/
def samplePort (portId : Nat) (portType : NDIS_SWITCH_PORT_TYPE)
    (portState : NDIS_SWITCH_PORT_STATE) : NDIS_SWITCH_PORT_PARAMETERS :=
  { PortId := portId
    PortName := ⟨0, []⟩
    PortFriendlyName := ⟨0, []⟩
    PortType := portType
    IsValidationPort := false
    PortState := portState }

/-- A NIC parameter block with the given identity, type and state, MTU 1500 and MAC
address 02:00:00:00:00:01. -/
def sampleNic (portId nicIndex : Nat) (nicType : NDIS_SWITCH_NIC_TYPE)
    (nicState : NDIS_SWITCH_NIC_STATE) : NDIS_SWITCH_NIC_PARAMETERS :=
  { NicName := ⟨0, []⟩
    PortId := portId
    NicIndex := nicIndex
    NicType := nicType
    NicState := nicState
    VmName := ⟨0, []⟩
    NetCfgInstanceId := []
    MTU := 1500
    NumaNodeId := 0
    PermanentMacAddress := [2, 0, 0, 0, 0, 1]
    VMMacAddress := [0, 0, 0, 0, 0, 0]
    CurrentMacAddress := [2, 0, 0, 0, 0, 1] }

/-- A NIC parameter block as `sampleNic`, with the address arrays at their full size of
32 bytes: the six bytes of the address followed by zeros. -/
def paddedNic (portId nicIndex : Nat) (nicType : NDIS_SWITCH_NIC_TYPE)
    (nicState : NDIS_SWITCH_NIC_STATE) : NDIS_SWITCH_NIC_PARAMETERS :=
  { sampleNic portId nicIndex nicType nicState with
    PermanentMacAddress := [2, 0, 0, 0, 0, 1] ++ List.replicate 26 0
    VMMacAddress := [0, 0, 0, 0, 0, 0] ++ List.replicate 26 0
    CurrentMacAddress := [2, 0, 0, 0, 0, 1] ++ List.replicate 26 0 }

/-- A NIC parameter block for the NIC (10, 0) in state Connected whose address arrays of
32 bytes hold the bytes 1 to 32 (permanent), 101 to 132 (current) and 201 to 232 (VM). -/
def countingNic (nicType : NDIS_SWITCH_NIC_TYPE) : NDIS_SWITCH_NIC_PARAMETERS :=
  { sampleNic 10 0 nicType NDIS_SWITCH_NIC_STATE.NdisSwitchNicStateConnected with
    PermanentMacAddress := (List.range 32).map (fun i => i + 1)
    VMMacAddress := (List.range 32).map (fun i => i + 201)
    CurrentMacAddress := (List.range 32).map (fun i => i + 101) }

/-- A port-create parameter block for the internal port 10 whose port name is `p1`: a
length of 4 bytes and a buffer of 257 wide characters. -/
def namedInternalPort : NDIS_SWITCH_PORT_PARAMETERS :=
  { samplePort 10 NDIS_SWITCH_PORT_TYPE.NdisSwitchPortTypeInternal
      NDIS_SWITCH_PORT_STATE.NdisSwitchPortStateCreated with
    PortName := ⟨4, [112, 49] ++ List.replicate 255 0⟩ }

/-- The store after `HvCreatePort` of the port `p` on `s` with the block at `a`. -/
def afterCreatePort (s : KernelState) (p : NDIS_SWITCH_PORT_PARAMETERS) (a : Nat) :
    KernelState :=
  match HvCreatePort sampleEnv s p (some a) with
  | some (_, s1) => s1
  | none => s

/-- The store after `HvCreateNic` of the NIC `n` on `s` with the block at `a`. -/
def afterCreateNic (s : KernelState) (n : NDIS_SWITCH_NIC_PARAMETERS) (a : Nat) :
    KernelState :=
  match HvCreateNic sampleEnv s n (some a) with
  | some (_, s1) => s1
  | none => s

/-- The contents of the entry `HvCreatePort` builds before `OvsInitVportCommon`:
`OvsAllocateVport` followed by `OvsInitVportWithPortParam`. -/
def newPortEntry (env : Env) (portParam : NDIS_SWITCH_PORT_PARAMETERS) : OVS_VPORT_ENTRY :=
  OvsInitVportWithPortParam (freshVport env) portParam

/-- The store in which port 10 of type Synthetic has been created on the empty store. -/
def portTenStore : KernelState :=
  afterCreatePort emptyState
    (samplePort 10 NDIS_SWITCH_PORT_TYPE.NdisSwitchPortTypeSynthetic
      NDIS_SWITCH_PORT_STATE.NdisSwitchPortStateCreated) 1

/-- The store in which the external port 20 has been created on the empty store. -/
def externalStore : KernelState :=
  afterCreatePort emptyState
    (samplePort 20 NDIS_SWITCH_PORT_TYPE.NdisSwitchPortTypeExternal
      NDIS_SWITCH_PORT_STATE.NdisSwitchPortStateCreated) 1

/-- The store in which the internal port 10 has been created on the empty store. -/
def internalStore : KernelState :=
  afterCreatePort emptyState
    (samplePort 10 NDIS_SWITCH_PORT_TYPE.NdisSwitchPortTypeInternal
      NDIS_SWITCH_PORT_STATE.NdisSwitchPortStateCreated) 1

/-- The store `internalStore` after the datapath has given the entry at address 1 the
port number 5. -/
def numberedInternalStore : KernelState :=
  match internalStore.mem 1 with
  | some e => internalStore.store 1 { e with portNo := 5 }
  | none => internalStore

/-- The store in which the internal ports 10 and then 11 have been created on the empty
store. -/
def twoInternalStore : KernelState :=
  afterCreatePort internalStore
    (samplePort 11 NDIS_SWITCH_PORT_TYPE.NdisSwitchPortTypeInternal
      NDIS_SWITCH_PORT_STATE.NdisSwitchPortStateCreated) 2

/-- The store `externalStore` after `HvCreateNic` for the physical NIC (20, 1), whose
entry is allocated at address 2. -/
def physNicStore : KernelState :=
  afterCreateNic externalStore
    (sampleNic 20 1 NDIS_SWITCH_NIC_TYPE.NdisSwitchNicTypeExternal
      NDIS_SWITCH_NIC_STATE.NdisSwitchNicStateConnected) 2

/-- The store `s` after the datapath has given the entry at address `a` the port number
`n`. -/
def withPortNo (s : KernelState) (a n : Nat) : KernelState :=
  match s.mem a with
  | some e => s.store a { e with portNo := n }
  | none => s

/-- The store with no entry whose activation has failed: `isActivated` is false and
`isActivateFailed` is true. -/
def failedState : KernelState :=
  { emptyState with
    switchContext :=
      { emptyState.switchContext with isActivated := false, isActivateFailed := true } }

/-- The store `numberedInternalStore` after `HvConnectNic` for the internal NIC (10, 0):
the entry at address 1 is in state Connected. -/
def connectedInternalStore : KernelState :=
  match HvConnectNic sampleEnv numberedInternalStore
      (sampleNic 10 0 NDIS_SWITCH_NIC_TYPE.NdisSwitchNicTypeInternal
        NDIS_SWITCH_NIC_STATE.NdisSwitchNicStateConnected) with
  | some s => s
  | none => numberedInternalStore

/-- The store `s` after the datapath has given the entry at address `a` the name `name`
and linked it into the bucket of the name index selected by the hash of the name. -/
def withOvsName (env : Env) (s : KernelState) (a : Nat) (name : List Nat) : KernelState :=
  match s.mem a with
  | some e =>
    (s.store a { e with
        ovsName := RtlCopyMemory e.ovsName (name ++ [0]) (name.length + 1)
        ovsNameLen := name.length }).setCtx
      { s.switchContext with
        ovsPortNameHashArray :=
          InsertHeadList s.switchContext.ovsPortNameHashArray
            (env.OvsJhashBytes name &&& env.OVS_VPORT_MASK) a }
  | none => s

/-- The store `portTenStore` after the entry of port 10 has been named `vif1`: the entry
is in the name index and in state PortCreated. -/
def namedStore : KernelState :=
  withOvsName sampleEnv portTenStore 1 (chars "vif1")

/-- The store `namedStore` after `HvCreateNic` for the synthetic NIC (10, 0) in NIC state
Connected: the entry named `vif1` is in state Connected. -/
def namedConnectedStore : KernelState :=
  afterCreateNic namedStore
    (sampleNic 10 0 NDIS_SWITCH_NIC_TYPE.NdisSwitchNicTypeSynthetic
      NDIS_SWITCH_NIC_STATE.NdisSwitchNicStateConnected) 2

/-- A NIC parameter block for the synthetic NIC (10, 0) whose VM name is 512 bytes long
and whose NIC name is 4 bytes long. -/
def longVmNameNic : NDIS_SWITCH_NIC_PARAMETERS :=
  { sampleNic 10 0 NDIS_SWITCH_NIC_TYPE.NdisSwitchNicTypeSynthetic
      NDIS_SWITCH_NIC_STATE.NdisSwitchNicStateConnected with
    VmName := ⟨512, []⟩
    NicName := ⟨4, [110, 49]⟩ }

/-- The store `namedStore` after `HvCreateNic` with `longVmNameNic`. -/
def longVmNameStore : KernelState :=
  afterCreateNic namedStore longVmNameNic 2

/-- An instance of the query parameters: identifier buffers of 8 bytes; a counted string
of `Length` bytes needs `Length / 2 + 1` bytes in ANSI form, and the conversion writes
the low byte of each of its wide characters. -/
def sampleQueryEnv : QueryEnv :=
  { OVS_MAX_VM_UUID_LEN := 8
    OVS_MAX_VIF_UUID_LEN := 8
    RtlUnicodeStringToAnsiSize := fun w => w.Length / 2 + 1
    RtlUnicodeStringToAnsiString := fun w _ =>
      (NTSTATUS.STATUS_SUCCESS, (w.String.take (w.Length / 2)).map (fun c => c % 256)) }

/-- A query by name: `portNo` 0, datapath number 7, and the name in a buffer of 16
bytes. -/
def sampleGet (name : List Nat) : OVS_VPORT_GET :=
  { dpNo := 7
    portNo := 0
    name := RtlCopyMemory (List.replicate 16 0) name name.length }

/-- A record buffer as the caller hands it in: every byte of its arrays is 255 and its
numbers are 99. -/
def sampleRecord : OVS_VPORT_EXT_INFO :=
  { dpNo := 0
    portNo := 0
    macAddress := List.replicate 6 255
    permMACAddress := List.replicate 6 255
    vmMACAddress := List.replicate 6 255
    nicIndex := 99
    portId := 99
    type := OVS_VPORT_TYPE.OVS_VPORT_TYPE_UNSPEC
    mtu := 99
    name := List.replicate 16 255
    status := 99
    vmUUID := List.replicate 8 255
    vifUUID := List.replicate 8 255 }

/-- The store after `HvDeleteNic` of the NIC `n` on `s`. -/
def afterDeleteNic (s : KernelState) (n : NDIS_SWITCH_NIC_PARAMETERS) : KernelState :=
  match HvDeleteNic sampleEnv s n with
  | some s1 => s1
  | none => s

/-- The store `physNicStore` after the physical NIC (20, 1) has been deleted with
`HvDeleteNic` and created again with `HvCreateNic`, its new entry allocated at
address 3. -/
def reattachedStore : KernelState :=
  afterCreateNic
    (afterDeleteNic physNicStore
      (sampleNic 20 1 NDIS_SWITCH_NIC_TYPE.NdisSwitchNicTypeExternal
        NDIS_SWITCH_NIC_STATE.NdisSwitchNicStateDeleted))
    (sampleNic 20 1 NDIS_SWITCH_NIC_TYPE.NdisSwitchNicTypeExternal
      NDIS_SWITCH_NIC_STATE.NdisSwitchNicStateConnected) 3

/-- A port array with the synthetic ports 10 and 11. -/
def samplePortArray : List NDIS_SWITCH_PORT_PARAMETERS :=
  [samplePort 10 NDIS_SWITCH_PORT_TYPE.NdisSwitchPortTypeSynthetic
     NDIS_SWITCH_PORT_STATE.NdisSwitchPortStateCreated,
   samplePort 11 NDIS_SWITCH_PORT_TYPE.NdisSwitchPortTypeSynthetic
     NDIS_SWITCH_PORT_STATE.NdisSwitchPortStateCreated]

/-- A request to add the VXLAN tunnel vport named `vxlan0`, its name in a buffer of 16
bytes. -/
def sampleAddReq : OVS_VPORT_ADD_REQUEST :=
  { type := OVS_VPORT_TYPE.OVS_VPORT_TYPE_VXLAN
    name := RtlCopyMemory (List.replicate 16 0) (chars "vxlan0") 6 }

/-- An instance of the tunnel parameters: `OvsInitVxlanTunnel` succeeds and puts the
tunnel context at address 100. -/
def sampleTunnelEnv : TunnelEnv :=
  { OvsInitVxlanTunnel := fun _ _ => (NTSTATUS.STATUS_SUCCESS, some 100) }

/-- The empty store with a newly allocated entry at address 1, as `OvsAllocateVport`
leaves it. -/
def freshEntryStore : KernelState :=
  (OvsAllocateVport sampleEnv emptyState (some 1)).2

/-- A sequence of calls: create the external port 20, the physical NIC (20, 1), the
synthetic port 10 and its NIC (10, 0); delete the NIC (10, 0), port 10 and port 20. -/
def sampleRegistryOps : List RegistryOp :=
  [RegistryOp.createPort (samplePort 20 NDIS_SWITCH_PORT_TYPE.NdisSwitchPortTypeExternal
      NDIS_SWITCH_PORT_STATE.NdisSwitchPortStateCreated) (some 1),
   RegistryOp.createNic (sampleNic 20 1 NDIS_SWITCH_NIC_TYPE.NdisSwitchNicTypeExternal
      NDIS_SWITCH_NIC_STATE.NdisSwitchNicStateConnected) (some 2),
   RegistryOp.createPort (samplePort 10 NDIS_SWITCH_PORT_TYPE.NdisSwitchPortTypeSynthetic
      NDIS_SWITCH_PORT_STATE.NdisSwitchPortStateCreated) (some 3),
   RegistryOp.createNic (sampleNic 10 0 NDIS_SWITCH_NIC_TYPE.NdisSwitchNicTypeSynthetic
      NDIS_SWITCH_NIC_STATE.NdisSwitchNicStateConnected) none,
   RegistryOp.deleteNic (sampleNic 10 0 NDIS_SWITCH_NIC_TYPE.NdisSwitchNicTypeSynthetic
      NDIS_SWITCH_NIC_STATE.NdisSwitchNicStateDeleted),
   RegistryOp.deletePort (samplePort 10 NDIS_SWITCH_PORT_TYPE.NdisSwitchPortTypeSynthetic
      NDIS_SWITCH_PORT_STATE.NdisSwitchPortStateCreated),
   RegistryOp.deletePort (samplePort 20 NDIS_SWITCH_PORT_TYPE.NdisSwitchPortTypeExternal
      NDIS_SWITCH_PORT_STATE.NdisSwitchPortStateCreated)]

/-- Whether the contents of an address are a physical-NIC entry: port type External and
a non-zero nicIndex. -/
def isPhysNic (o : Option OVS_VPORT_ENTRY) : Bool :=
  match o with
  | some e =>
    decide (e.portType = NDIS_SWITCH_PORT_TYPE.NdisSwitchPortTypeExternal ∧ e.nicIndex ≠ 0)
  | none => false

/-- The number of entries linked in the buckets of the port-id index whose port type is
External and whose nicIndex is non-zero. -/
def physNicsInIndex (env : Env) (s : KernelState) : Nat :=
  ((List.range env.OVS_MAX_VPORT_ARRAY_SIZE).map (fun b =>
    ((s.switchContext.portIdHashArray b).filter (fun a => isPhysNic (s.mem a))).length)).sum

/-- A physical-NIC notification: a NIC create together with what the allocator returns
for it, or a NIC delete. -/
inductive PhysNicOp where
  | create (nicParam : NDIS_SWITCH_NIC_PARAMETERS) (alloc : Option Nat)
  | delete (nicParam : NDIS_SWITCH_NIC_PARAMETERS)

/-- A create notification is a physical-NIC create when its NIC type is External and its
NicIndex is non-zero; every delete notification is admitted. -/
def PhysNicOp.isPhysical : PhysNicOp → Prop
  | PhysNicOp.create nicParam _ =>
    nicParam.NicType = NDIS_SWITCH_NIC_TYPE.NdisSwitchNicTypeExternal ∧ nicParam.NicIndex ≠ 0
  | PhysNicOp.delete _ => True

/-- The blocks the allocator hands out during a sequence of notifications. -/
def allocsOf : List PhysNicOp → List Nat
  | [] => []
  | PhysNicOp.create _ (some a) :: rest => a :: allocsOf rest
  | PhysNicOp.create _ none :: rest => allocsOf rest
  | PhysNicOp.delete _ :: rest => allocsOf rest

/-- Deliver a sequence of physical-NIC notifications, calling `HvCreateNic` and
`HvDeleteNic` in order. -/
def runPhysNicOps (env : Env) : KernelState → List PhysNicOp → Option KernelState
  | s, [] => some s
  | s, PhysNicOp.create nicParam alloc :: rest =>
    match HvCreateNic env s nicParam alloc with
    | none => none
    | some (_, s1) => runPhysNicOps env s1 rest
  | s, PhysNicOp.delete nicParam :: rest =>
    match HvDeleteNic env s nicParam with
    | none => none
    | some s1 => runPhysNicOps env s1 rest

/-- A store with an external singleton and physical-NIC count 0: the external slot holds
an allocated External-type entry with nicIndex 0 recorded under its own port id, the
count is 0, every address linked in the port-id index is allocated and none of them is a
physical-NIC entry, the occupant of the internal slot (if any) is allocated and is not a
physical-NIC entry, and the activation wait has ended. -/
structure PhysNicStart (env : Env) (s : KernelState) : Prop where
  ext : ∃ a0 e0, s.switchContext.externalVport = some a0 ∧ s.mem a0 = some e0 ∧
    e0.portType = NDIS_SWITCH_PORT_TYPE.NdisSwitchPortTypeExternal ∧ e0.nicIndex = 0 ∧
    e0.portId = s.switchContext.externalPortId
  count : s.switchContext.numPhysicalNics = 0
  idx : ∀ b, b < env.OVS_MAX_VPORT_ARRAY_SIZE → ∀ a ∈ s.switchContext.portIdHashArray b,
    (s.mem a).isSome = true ∧ isPhysNic (s.mem a) = false
  int : ∀ ai, s.switchContext.internalVport = some ai →
    (s.mem ai).isSome = true ∧ isPhysNic (s.mem ai) = false
  act : s.switchContext.isActivated = true ∨ s.switchContext.isActivateFailed = true

/-- The invariant kept by physical-NIC notifications: as `PhysNicStart`, but the count
equals the number of physical-NIC entries in the port-id index, and every physical-NIC
entry linked there carries the port id recorded for the external slot. -/
structure PhysNicInv (env : Env) (s : KernelState) : Prop where
  ext : ∃ a0 e0, s.switchContext.externalVport = some a0 ∧ s.mem a0 = some e0 ∧
    e0.portType = NDIS_SWITCH_PORT_TYPE.NdisSwitchPortTypeExternal ∧ e0.nicIndex = 0 ∧
    e0.portId = s.switchContext.externalPortId
  count : s.switchContext.numPhysicalNics = (physNicsInIndex env s : Int)
  idx : ∀ b, b < env.OVS_MAX_VPORT_ARRAY_SIZE → ∀ a ∈ s.switchContext.portIdHashArray b,
    ∃ e, s.mem a = some e ∧
      (isPhysNic (some e) = true → e.portId = s.switchContext.externalPortId)
  int : ∀ ai, s.switchContext.internalVport = some ai →
    ∃ e, s.mem ai = some e ∧ isPhysNic (some e) = false
  act : s.switchContext.isActivated = true ∨ s.switchContext.isActivateFailed = true

/-- The fields of an entry that decide where it is linked and how it is counted. -/
def entryKey (e : OVS_VPORT_ENTRY) : NDIS_SWITCH_PORT_TYPE × Nat × Nat :=
  (e.portType, e.nicIndex, e.portId)

/-- A sequence of physical-NIC notifications for the external port 20: create NIC 1,
delete NIC 1, create NIC 2. -/
def samplePhysNicOps : List PhysNicOp :=
  [PhysNicOp.create (sampleNic 20 1 NDIS_SWITCH_NIC_TYPE.NdisSwitchNicTypeExternal
      NDIS_SWITCH_NIC_STATE.NdisSwitchNicStateConnected) (some 2),
   PhysNicOp.delete (sampleNic 20 1 NDIS_SWITCH_NIC_TYPE.NdisSwitchNicTypeExternal
      NDIS_SWITCH_NIC_STATE.NdisSwitchNicStateConnected),
   PhysNicOp.create (sampleNic 20 2 NDIS_SWITCH_NIC_TYPE.NdisSwitchNicTypeExternal
      NDIS_SWITCH_NIC_STATE.NdisSwitchNicStateConnected) (some 3)]

/-! ## Basic facts about the state operations -/

@[simp] theorem emit_switchContext (s : KernelState) (e : Effect) :
    (s.emit e).switchContext = s.switchContext := rfl

@[simp] theorem emit_mem (s : KernelState) (e : Effect) : (s.emit e).mem = s.mem := rfl

@[simp] theorem emit_trace (s : KernelState) (e : Effect) :
    (s.emit e).trace = s.trace ++ [e] := rfl

@[simp] theorem store_switchContext (s : KernelState) (a : Nat) (v : OVS_VPORT_ENTRY) :
    (s.store a v).switchContext = s.switchContext := rfl

@[simp] theorem store_trace (s : KernelState) (a : Nat) (v : OVS_VPORT_ENTRY) :
    (s.store a v).trace = s.trace := rfl

@[simp] theorem store_mem_same (s : KernelState) (a : Nat) (v : OVS_VPORT_ENTRY) :
    (s.store a v).mem a = some v := by
  simp [KernelState.store]

@[simp] theorem store_store (s : KernelState) (a : Nat) (v w : OVS_VPORT_ENTRY) :
    (s.store a v).store a w = s.store a w := by
  simp only [KernelState.store]
  congr 1
  funext b
  by_cases h : b = a <;> simp [h]

theorem store_mem (s : KernelState) (a b : Nat) (v : OVS_VPORT_ENTRY) :
    (s.store a v).mem b = if b = a then some v else s.mem b := rfl

theorem free_mem (s : KernelState) (a b : Nat) :
    (OvsFreeMemory s a).mem b = if b = a then none else s.mem b := rfl

theorem store_mem_other (s : KernelState) (a b : Nat) (v : OVS_VPORT_ENTRY) (h : b ≠ a) :
    (s.store a v).mem b = s.mem b := by
  simp [KernelState.store, h]

@[simp] theorem setCtx_switchContext (s : KernelState) (c : OVS_SWITCH_CONTEXT) :
    (s.setCtx c).switchContext = c := rfl

@[simp] theorem setCtx_mem (s : KernelState) (c : OVS_SWITCH_CONTEXT) :
    (s.setCtx c).mem = s.mem := rfl

@[simp] theorem setCtx_trace (s : KernelState) (c : OVS_SWITCH_CONTEXT) :
    (s.setCtx c).trace = s.trace := rfl

@[simp] theorem ASSERT_switchContext (s : KernelState) (c : Bool) :
    (ASSERT s c).switchContext = s.switchContext := by
  cases c <;> rfl

@[simp] theorem ASSERT_mem (s : KernelState) (c : Bool) : (ASSERT s c).mem = s.mem := by
  cases c <;> rfl

@[simp] theorem ASSERT_true (s : KernelState) : ASSERT s true = s := rfl

@[simp] theorem free_switchContext (s : KernelState) (a : Nat) :
    (OvsFreeMemory s a).switchContext = s.switchContext := rfl

@[simp] theorem free_trace (s : KernelState) (a : Nat) :
    (OvsFreeMemory s a).trace = s.trace := rfl

@[simp] theorem free_mem_same (s : KernelState) (a : Nat) : (OvsFreeMemory s a).mem a = none := by
  simp [OvsFreeMemory]

theorem free_mem_other (s : KernelState) (a b : Nat) (h : b ≠ a) :
    (OvsFreeMemory s a).mem b = s.mem b := by
  simp [OvsFreeMemory, h]

/-- A copy whose source holds at least as many bytes as the field fills the field with the
first bytes of the source. -/
theorem copyPastEnd_fst_of_le (field src : List Nat) (h : field.length ≤ src.length) :
    (copyPastEnd field src).1 = src.take field.length := by
  simp [copyPastEnd, List.drop_eq_nil_of_le h]

/-- A copy leaves the size of the field. -/
theorem copyPastEnd_fst_length (field src : List Nat) :
    (copyPastEnd field src).1.length = field.length := by
  simp only [copyPastEnd, List.length_append, List.length_take, List.length_drop]
  omega

/-- A copy of a source that is not longer than the field writes nothing past its end. -/
theorem copyPastEnd_snd_of_le (field src : List Nat) (h : src.length ≤ field.length) :
    (copyPastEnd field src).2 = [] := by
  simp [copyPastEnd, List.drop_eq_nil_of_le h]

@[simp] theorem overwrite_nil (c : IF_COUNTED_STRING) : c.overwrite [] = c := by
  simp [IF_COUNTED_STRING.overwrite]

@[simp] theorem copyFromVmMacAddress_permMacAddress (v : OVS_VPORT_ENTRY) (src : List Nat) :
    (copyFromVmMacAddress v src).permMacAddress = v.permMacAddress := rfl

@[simp] theorem copyFromVmMacAddress_currMacAddress (v : OVS_VPORT_ENTRY) (src : List Nat) :
    (copyFromVmMacAddress v src).currMacAddress = v.currMacAddress := rfl

@[simp] theorem copyFromVmMacAddress_portNo (v : OVS_VPORT_ENTRY) (src : List Nat) :
    (copyFromVmMacAddress v src).portNo = v.portNo := rfl

@[simp] theorem copyFromCurrMacAddress_permMacAddress (v : OVS_VPORT_ENTRY)
    (src : List Nat) : (copyFromCurrMacAddress v src).permMacAddress = v.permMacAddress :=
  rfl

@[simp] theorem copyFromCurrMacAddress_currMacAddress (v : OVS_VPORT_ENTRY)
    (src : List Nat) :
    (copyFromCurrMacAddress v src).currMacAddress = (copyPastEnd v.currMacAddress src).1 :=
  rfl

@[simp] theorem copyFromCurrMacAddress_portNo (v : OVS_VPORT_ENTRY) (src : List Nat) :
    (copyFromCurrMacAddress v src).portNo = v.portNo := rfl

@[simp] theorem copyFromPermMacAddress_permMacAddress (v : OVS_VPORT_ENTRY)
    (src : List Nat) :
    (copyFromPermMacAddress v src).permMacAddress = (copyPastEnd v.permMacAddress src).1 :=
  rfl

theorem copyFromPermMacAddress_currMacAddress (v : OVS_VPORT_ENTRY) (src : List Nat) :
    (copyFromPermMacAddress v src).currMacAddress =
      (copyPastEnd v.currMacAddress (copyPastEnd v.permMacAddress src).2).1 := rfl

@[simp] theorem copyFromVmMacAddress_ovsState (v : OVS_VPORT_ENTRY) (src : List Nat) :
    (copyFromVmMacAddress v src).ovsState = v.ovsState := rfl

@[simp] theorem copyFromCurrMacAddress_ovsState (v : OVS_VPORT_ENTRY) (src : List Nat) :
    (copyFromCurrMacAddress v src).ovsState = v.ovsState := rfl

@[simp] theorem copyFromPermMacAddress_ovsState (v : OVS_VPORT_ENTRY) (src : List Nat) :
    (copyFromPermMacAddress v src).ovsState = v.ovsState := rfl

@[simp] theorem copyFromPermMacAddress_portNo (v : OVS_VPORT_ENTRY) (src : List Nat) :
    (copyFromPermMacAddress v src).portNo = v.portNo := rfl

/-- The lookup reads the switch context and the memory only. -/
theorem find_congr (env : Env) (s t : KernelState) (portId index : Nat)
    (hc : t.switchContext = s.switchContext) (hm : t.mem = s.mem) :
    OvsFindVportByPortIdAndNicIndex env t portId index =
      OvsFindVportByPortIdAndNicIndex env s portId index := by
  simp [OvsFindVportByPortIdAndNicIndex, hc, hm]

/-- What the bucket loop returns is linked in the bucket and has the identity asked for. -/
theorem findPortIdLink_sound (mem : Nat → Option OVS_VPORT_ENTRY) (portId index : Nat)
    (l : List Nat) (a : Nat) (h : findPortIdLink mem portId index l = some (some a)) :
    a ∈ l ∧ ∃ e, mem a = some e ∧ e.portId = portId ∧ e.nicIndex = index := by
  induction l with
  | nil => simp [findPortIdLink] at h
  | cons x rest ih =>
    cases hx : mem x with
    | none => simp [findPortIdLink, hx] at h
    | some v =>
      by_cases hmatch : portId = v.portId ∧ index = v.nicIndex
      · simp [findPortIdLink, hx, hmatch] at h
        subst h
        exact ⟨List.mem_cons_self _ _, v, hx, hmatch.1.symm, hmatch.2.symm⟩
      · simp only [findPortIdLink, hx, hmatch, if_false] at h
        obtain ⟨hmem, hrest⟩ := ih h
        exact ⟨List.mem_cons_of_mem _ hmem, hrest⟩

/-- The handler `HvCreatePort` when the lookup finds an entry: the create is rejected and only the
trace grows. -/
theorem HvCreatePort_found (env : Env) (s : KernelState)
    (portParam : NDIS_SWITCH_PORT_PARAMETERS) (alloc : Option Nat) (b : Nat)
    (h : OvsFindVportByPortIdAndNicIndex env s portParam.PortId 0 = some (some b)) :
    HvCreatePort env s portParam alloc =
      some (NDIS_STATUS.STATUS_DATA_NOT_ACCEPTED,
        (s.emit Effect.NdisAcquireRWLockWrite).emit Effect.NdisReleaseRWLock) := by
  have h2 : OvsFindVportByPortIdAndNicIndex env (s.emit Effect.NdisAcquireRWLockWrite)
      portParam.PortId 0 = some (some b) := by
    rw [find_congr env s (s.emit Effect.NdisAcquireRWLockWrite) _ _ rfl rfl]; exact h
  simp [HvCreatePort, h2]

/-! ## `HvCreatePort` -/

theorem newPortEntry_portId (env : Env) (p : NDIS_SWITCH_PORT_PARAMETERS) :
    (newPortEntry env p).portId = p.PortId := by
  simp only [newPortEntry, freshVport, OvsInitVportWithPortParam]
  cases p.PortType <;> cases p.PortState <;> rfl

theorem newPortEntry_nicIndex (env : Env) (p : NDIS_SWITCH_PORT_PARAMETERS) :
    (newPortEntry env p).nicIndex = 0 := by
  simp only [newPortEntry, freshVport, OvsInitVportWithPortParam]
  cases p.PortType <;> cases p.PortState <;> rfl

theorem newPortEntry_portType (env : Env) (p : NDIS_SWITCH_PORT_PARAMETERS) :
    (newPortEntry env p).portType = p.PortType := by
  simp only [newPortEntry, freshVport, OvsInitVportWithPortParam]
  cases p.PortType <;> cases p.PortState <;> rfl

theorem newPortEntry_portNo (env : Env) (p : NDIS_SWITCH_PORT_PARAMETERS) :
    (newPortEntry env p).portNo = OVS_DPPORT_NUMBER_INVALID := by
  simp only [newPortEntry, freshVport, OvsInitVportWithPortParam]
  cases p.PortType <;> cases p.PortState <;> rfl

theorem newPortEntry_ovsState_created (env : Env) (p : NDIS_SWITCH_PORT_PARAMETERS)
    (h : p.PortState = NDIS_SWITCH_PORT_STATE.NdisSwitchPortStateCreated) :
    (newPortEntry env p).ovsState = OVS_VPORT_STATE.OVS_STATE_PORT_CREATED := by
  simp only [newPortEntry, freshVport, OvsInitVportWithPortParam, h]
  cases p.PortType <;> rfl

/-- A successful `HvCreatePort`: the lookup found nothing, the allocator gave a block,
and the result is that of `OvsInitVportCommon` on the initialised entry. -/
theorem HvCreatePort_success (env : Env) (s s' : KernelState)
    (portParam : NDIS_SWITCH_PORT_PARAMETERS) (alloc : Option Nat)
    (h : HvCreatePort env s portParam alloc = some (NDIS_STATUS.NDIS_STATUS_SUCCESS, s')) :
    ∃ a, alloc = some a ∧
      OvsFindVportByPortIdAndNicIndex env s portParam.PortId 0 = some none ∧
      ∃ st s1, OvsInitVportCommon env
          ((s.emit Effect.NdisAcquireRWLockWrite).store a (newPortEntry env portParam)) a
            = some (st, s1) ∧
        s' = s1.emit Effect.NdisReleaseRWLock := by
  have hf := find_congr env s (s.emit Effect.NdisAcquireRWLockWrite) portParam.PortId 0 rfl rfl
  unfold HvCreatePort at h
  simp only [hf] at h
  cases hfind : OvsFindVportByPortIdAndNicIndex env s portParam.PortId 0 with
  | none => simp [hfind] at h
  | some r =>
    cases r with
    | some b => simp [hfind] at h
    | none =>
      cases alloc with
      | none => simp [hfind, OvsAllocateVport] at h
      | some a =>
        refine ⟨a, rfl, rfl, ?_⟩
        simp only [hfind, OvsAllocateVport, store_mem_same, store_store] at h
        change (match OvsInitVportCommon env
            ((s.emit Effect.NdisAcquireRWLockWrite).store a (newPortEntry env portParam)) a with
          | none => none
          | some (_, s) =>
            some (NDIS_STATUS.NDIS_STATUS_SUCCESS, s.emit Effect.NdisReleaseRWLock)) =
            some (NDIS_STATUS.NDIS_STATUS_SUCCESS, s') at h
        cases hc : OvsInitVportCommon env
            ((s.emit Effect.NdisAcquireRWLockWrite).store a (newPortEntry env portParam)) a with
        | none => simp [hc] at h
        | some r =>
          obtain ⟨st, s1⟩ := r
          simp only [hc, Option.some.injEq, Prod.mk.injEq, true_and] at h
          exact ⟨st, s1, rfl, h.symm⟩

/-- The effect of `OvsInitVportCommon` on an entry whose port number is still
`OVS_DPPORT_NUMBER_INVALID`: it succeeds, changes the name of the entry only, leaves the
rest of memory and the trace, and updates the switch context according to the port type. -/
theorem OvsInitVportCommon_spec (env : Env) (s : KernelState) (a : Nat) (v : OVS_VPORT_ENTRY)
    (h : s.mem a = some v) (hno : v.portNo = OVS_DPPORT_NUMBER_INVALID) :
    ∃ s1, OvsInitVportCommon env s a = some (NDIS_STATUS.NDIS_STATUS_SUCCESS, s1) ∧
      s1.trace = s.trace ∧
      (∀ b, b ≠ a → s1.mem b = s.mem b) ∧
      (∃ name, s1.mem a = some { v with ovsName := name }) ∧
      s1.switchContext =
        (if v.portType = NDIS_SWITCH_PORT_TYPE.NdisSwitchPortTypeExternal ∧ v.nicIndex = 0 then
          { s.switchContext with externalPortId := v.portId, externalVport := some a }
        else if v.portType = NDIS_SWITCH_PORT_TYPE.NdisSwitchPortTypeExternal then
          { s.switchContext with
            numPhysicalNics := s.switchContext.numPhysicalNics + 1
            portIdHashArray := InsertHeadList s.switchContext.portIdHashArray
              (env.OvsJhashWords v.portId &&& env.OVS_VPORT_MASK) a
            numVports := s.switchContext.numVports + 1 }
        else if v.portType = NDIS_SWITCH_PORT_TYPE.NdisSwitchPortTypeInternal then
          { s.switchContext with
            internalPortId := v.portId
            internalVport := some a
            portIdHashArray := InsertHeadList s.switchContext.portIdHashArray
              (env.OvsJhashWords v.portId &&& env.OVS_VPORT_MASK) a
            numVports := s.switchContext.numVports + 1 }
        else
          { s.switchContext with
            portIdHashArray := InsertHeadList s.switchContext.portIdHashArray
              (env.OvsJhashWords v.portId &&& env.OVS_VPORT_MASK) a
            numVports := s.switchContext.numVports + 1 }) := by
  rcases v with ⟨ovsState, ovsType, stats, errStats, portNo, mtu, ovsName, ovsNameLen, priv,
    portId, nicIndex, numaNodeId, portState, nicState, portType, permMac, currMac, vmMac,
    hvPortName, friendlyName, nicName, vmName, guid, isExternal, upcallPid⟩
  simp only at hno
  subst hno
  cases portType <;> by_cases hi : nicIndex = 0 <;>
    simp [OvsInitVportCommon, h, hi] <;>
    intro b hb <;> simp [store_mem, hb]

/-- What a successful `HvCreatePort` leaves: the block the allocator gave holds the new
entry, no other address changed, and the switch context is updated according to the
port type. -/
theorem HvCreatePort_success_spec (env : Env) (s s' : KernelState)
    (portParam : NDIS_SWITCH_PORT_PARAMETERS) (alloc : Option Nat)
    (h : HvCreatePort env s portParam alloc = some (NDIS_STATUS.NDIS_STATUS_SUCCESS, s')) :
    ∃ a, alloc = some a ∧
      OvsFindVportByPortIdAndNicIndex env s portParam.PortId 0 = some none ∧
      (∀ b, b ≠ a → s'.mem b = s.mem b) ∧
      (∃ name, s'.mem a = some { newPortEntry env portParam with ovsName := name }) ∧
      s'.switchContext =
        (if portParam.PortType = NDIS_SWITCH_PORT_TYPE.NdisSwitchPortTypeExternal then
          { s.switchContext with
            externalPortId := portParam.PortId, externalVport := some a }
        else if portParam.PortType = NDIS_SWITCH_PORT_TYPE.NdisSwitchPortTypeInternal then
          { s.switchContext with
            internalPortId := portParam.PortId
            internalVport := some a
            portIdHashArray := InsertHeadList s.switchContext.portIdHashArray
              (env.OvsJhashWords portParam.PortId &&& env.OVS_VPORT_MASK) a
            numVports := s.switchContext.numVports + 1 }
        else
          { s.switchContext with
            portIdHashArray := InsertHeadList s.switchContext.portIdHashArray
              (env.OvsJhashWords portParam.PortId &&& env.OVS_VPORT_MASK) a
            numVports := s.switchContext.numVports + 1 }) := by
  obtain ⟨a, ha, hfind, st, s1, hc, hs'⟩ := HvCreatePort_success env s s' portParam alloc h
  obtain ⟨s2, hc2, _, hmem, hname, hctx⟩ :=
    OvsInitVportCommon_spec env
      ((s.emit Effect.NdisAcquireRWLockWrite).store a (newPortEntry env portParam)) a
      (newPortEntry env portParam) (store_mem_same _ _ _) (newPortEntry_portNo env portParam)
  rw [hc2] at hc
  simp only [Option.some.injEq, Prod.mk.injEq] at hc
  obtain ⟨_, rfl⟩ := hc
  subst hs'
  refine ⟨a, ha, hfind, ?_, ?_, ?_⟩
  · intro b hb
    rw [emit_mem, hmem b hb, store_mem_other _ _ _ _ hb, emit_mem]
  · simpa using hname
  · rw [emit_switchContext, hctx]
    simp only [newPortEntry_portType, newPortEntry_nicIndex, newPortEntry_portId,
      store_switchContext, emit_switchContext, and_true]
    by_cases hE : portParam.PortType = NDIS_SWITCH_PORT_TYPE.NdisSwitchPortTypeExternal
    · simp [hE]
    · simp [hE]

/-! ## Claims about `HvCreatePort` -/

/-- C3 (amended): for every store and every port parameter block whose `PortState` is
`NdisSwitchPortStateCreated`, if `HvCreatePort` returns success then the lifecycle state
of the newly created entry is `OVS_STATE_PORT_CREATED`. -/
theorem HvCreatePort_state_created (env : Env) (s s' : KernelState)
    (portParam : NDIS_SWITCH_PORT_PARAMETERS) (alloc : Option Nat)
    (hstate : portParam.PortState = NDIS_SWITCH_PORT_STATE.NdisSwitchPortStateCreated)
    (h : HvCreatePort env s portParam alloc = some (NDIS_STATUS.NDIS_STATUS_SUCCESS, s')) :
    ∃ a e, alloc = some a ∧ s'.mem a = some e ∧
      e.ovsState = OVS_VPORT_STATE.OVS_STATE_PORT_CREATED := by
  obtain ⟨a, ha, _, _, ⟨name, hname⟩, _⟩ :=
    HvCreatePort_success_spec env s s' portParam alloc h
  exact ⟨a, _, ha, hname, newPortEntry_ovsState_created env portParam hstate⟩

/-- C3, a worked instance: port 10 created on the empty store is in state PortCreated. -/
theorem HvCreatePort_state_created_witness :
    ∃ a e, some 1 = some a ∧ portTenStore.mem a = some e ∧
      e.ovsState = OVS_VPORT_STATE.OVS_STATE_PORT_CREATED :=
  HvCreatePort_state_created sampleEnv emptyState portTenStore
    (samplePort 10 NDIS_SWITCH_PORT_TYPE.NdisSwitchPortTypeSynthetic
      NDIS_SWITCH_PORT_STATE.NdisSwitchPortStateCreated) (some 1) rfl rfl

/-- C3 fails as stated for a parameter block whose `PortState` is
`NdisSwitchPortStateTeardown`: `HvCreatePort` returns `NDIS_STATUS_SUCCESS` and the new
entry is in state `OVS_STATE_PORT_TEAR_DOWN`. -/
theorem HvCreatePort_state_teardown :
    (HvCreatePort sampleEnv emptyState
        (samplePort 10 NDIS_SWITCH_PORT_TYPE.NdisSwitchPortTypeSynthetic
          NDIS_SWITCH_PORT_STATE.NdisSwitchPortStateTeardown) (some 1)).bind
      (fun r => (r.2.mem 1).map (fun e => (r.1, e.ovsState))) =
      some (NDIS_STATUS.NDIS_STATUS_SUCCESS, OVS_VPORT_STATE.OVS_STATE_PORT_TEAR_DOWN) := by
  decide

/-- C4: for every store with an empty external slot, a successful `HvCreatePort` of an
External-type port with id P makes the new entry (identity (P, 0)) the occupant of the
external slot with `externalPortId = P`, and leaves the port-id index, the port-number
index, the name index and `numVports` unchanged. -/
theorem HvCreatePort_external_slot_only (env : Env) (s s' : KernelState)
    (portParam : NDIS_SWITCH_PORT_PARAMETERS) (alloc : Option Nat)
    (_hempty : s.switchContext.externalVport = none)
    (htype : portParam.PortType = NDIS_SWITCH_PORT_TYPE.NdisSwitchPortTypeExternal)
    (h : HvCreatePort env s portParam alloc = some (NDIS_STATUS.NDIS_STATUS_SUCCESS, s')) :
    ∃ a e, alloc = some a ∧
      s'.switchContext.externalVport = some a ∧
      s'.switchContext.externalPortId = portParam.PortId ∧
      s'.mem a = some e ∧ e.portId = portParam.PortId ∧ e.nicIndex = 0 ∧
      s'.switchContext.portIdHashArray = s.switchContext.portIdHashArray ∧
      s'.switchContext.portNoHashArray = s.switchContext.portNoHashArray ∧
      s'.switchContext.ovsPortNameHashArray = s.switchContext.ovsPortNameHashArray ∧
      s'.switchContext.numVports = s.switchContext.numVports := by
  obtain ⟨a, ha, _, _, ⟨name, hname⟩, hctx⟩ :=
    HvCreatePort_success_spec env s s' portParam alloc h
  simp only [htype, if_true] at hctx
  refine ⟨a, _, ha, ?_, ?_, hname, newPortEntry_portId env portParam,
    newPortEntry_nicIndex env portParam, ?_, ?_, ?_, ?_⟩ <;> rw [hctx]

/-- C4, a worked instance: the external port 20 created on the empty store. -/
theorem HvCreatePort_external_slot_only_witness :
    ∃ a e, some 1 = some a ∧
      externalStore.switchContext.externalVport = some a ∧
      externalStore.switchContext.externalPortId = 20 ∧
      externalStore.mem a = some e ∧ e.portId = 20 ∧ e.nicIndex = 0 ∧
      externalStore.switchContext.portIdHashArray = emptyState.switchContext.portIdHashArray ∧
      externalStore.switchContext.portNoHashArray = emptyState.switchContext.portNoHashArray ∧
      externalStore.switchContext.ovsPortNameHashArray =
        emptyState.switchContext.ovsPortNameHashArray ∧
      externalStore.switchContext.numVports = emptyState.switchContext.numVports :=
  HvCreatePort_external_slot_only sampleEnv emptyState externalStore
    (samplePort 20 NDIS_SWITCH_PORT_TYPE.NdisSwitchPortTypeExternal
      NDIS_SWITCH_PORT_STATE.NdisSwitchPortStateCreated) (some 1) rfl rfl rfl

/-- C5 (amended): for every store whose external singleton slot is occupied,
`HvCreatePort` for an External-type port-level entry whose port id is the one recorded
for the slot (`externalPortId`) fails with `STATUS_DATA_NOT_ACCEPTED` and leaves the
occupant of the slot, the switch context and every entry unchanged. -/
theorem HvCreatePort_external_same_id_rejected (env : Env) (s : KernelState)
    (portParam : NDIS_SWITCH_PORT_PARAMETERS) (alloc : Option Nat) (occupant : Nat)
    (hocc : s.switchContext.externalVport = some occupant)
    (_htype : portParam.PortType = NDIS_SWITCH_PORT_TYPE.NdisSwitchPortTypeExternal)
    (hid : portParam.PortId = s.switchContext.externalPortId) :
    ∃ s', HvCreatePort env s portParam alloc =
        some (NDIS_STATUS.STATUS_DATA_NOT_ACCEPTED, s') ∧
      s'.switchContext.externalVport = some occupant ∧
      s'.switchContext = s.switchContext ∧ s'.mem = s.mem := by
  have hfind : OvsFindVportByPortIdAndNicIndex env s portParam.PortId 0 =
      some (some occupant) := by
    simp [OvsFindVportByPortIdAndNicIndex, hid, hocc]
  exact ⟨_, HvCreatePort_found env s portParam alloc occupant hfind, hocc, rfl, rfl⟩

/-- C5, a worked instance: a second create for the external port 20 is rejected. -/
theorem HvCreatePort_external_same_id_rejected_witness :
    ∃ s', HvCreatePort sampleEnv externalStore
        (samplePort 20 NDIS_SWITCH_PORT_TYPE.NdisSwitchPortTypeExternal
          NDIS_SWITCH_PORT_STATE.NdisSwitchPortStateCreated) (some 2) =
        some (NDIS_STATUS.STATUS_DATA_NOT_ACCEPTED, s') ∧
      s'.switchContext.externalVport = some 1 ∧
      s'.switchContext = externalStore.switchContext ∧ s'.mem = externalStore.mem :=
  HvCreatePort_external_same_id_rejected sampleEnv externalStore
    (samplePort 20 NDIS_SWITCH_PORT_TYPE.NdisSwitchPortTypeExternal
      NDIS_SWITCH_PORT_STATE.NdisSwitchPortStateCreated) (some 2) 1 rfl rfl rfl

/-- C5 fails as stated when the second External-type create carries another port id: with
the external slot occupied by the entry at address 1 for port 20, `HvCreatePort` for the
external port 21 returns `NDIS_STATUS_SUCCESS` and the slot then holds the new entry. -/
theorem HvCreatePort_second_external_replaces :
    externalStore.switchContext.externalVport = some 1 ∧
    externalStore.switchContext.externalPortId = 20 ∧
    (HvCreatePort sampleEnv externalStore
        (samplePort 21 NDIS_SWITCH_PORT_TYPE.NdisSwitchPortTypeExternal
          NDIS_SWITCH_PORT_STATE.NdisSwitchPortStateCreated) (some 2)).map
      (fun r => (r.1, r.2.switchContext.externalVport, r.2.switchContext.externalPortId)) =
      some (NDIS_STATUS.NDIS_STATUS_SUCCESS, some 2, 21) := by
  decide

/-! ## Claims about `HvDeletePort` -/

theorem filter_ne_of_not_mem (l : List Nat) (a : Nat) (h : a ∉ l) :
    l.filter (fun b => b != a) = l := by
  rw [List.filter_eq_self]
  intro b hb
  simp only [bne_iff_ne, ne_eq]
  intro heq
  exact h (heq ▸ hb)

/-- The handler `HvDeletePort` when the lookup finds an entry. -/
theorem HvDeletePort_found (env : Env) (s : KernelState)
    (portParam : NDIS_SWITCH_PORT_PARAMETERS) (a : Nat)
    (h : OvsFindVportByPortIdAndNicIndex env s portParam.PortId 0 = some (some a)) :
    HvDeletePort env s portParam =
      (OvsRemoveAndDeleteVport (s.emit Effect.NdisAcquireRWLockWrite) a).map
        (fun s1 => s1.emit Effect.NdisReleaseRWLock) := by
  have h2 : OvsFindVportByPortIdAndNicIndex env (s.emit Effect.NdisAcquireRWLockWrite)
      portParam.PortId 0 = some (some a) := by
    rw [find_congr env s (s.emit Effect.NdisAcquireRWLockWrite) _ _ rfl rfl]; exact h
  simp only [HvDeletePort, h2]
  cases OvsRemoveAndDeleteVport (s.emit Effect.NdisAcquireRWLockWrite) a <;> rfl

/-- C6 (amended): for every store in which `OvsFindVportByPortIdAndNicIndex(P, 0)` finds
an entry e that keeps the slot discipline (e occupies the external slot exactly when it is
an external port-level entry, in which case it is linked in no hash index and is not of
Internal kind; e occupies the internal slot exactly when its kind is Internal),
`HvDeletePort` with port id P frees e and removes it from every index: afterwards e is
linked in no bucket of the port-id, port-number and name indices and occupies neither
singleton slot, and every other entry is unchanged, linked in the same buckets in the same
order, and occupies the same slots as before. -/
theorem HvDeletePort_removes (env : Env) (s : KernelState)
    (portParam : NDIS_SWITCH_PORT_PARAMETERS) (a : Nat) (e : OVS_VPORT_ENTRY)
    (hfind : OvsFindVportByPortIdAndNicIndex env s portParam.PortId 0 = some (some a))
    (hmem : s.mem a = some e)
    (hext : s.switchContext.externalVport = some a ↔ (e.isExternal = true ∧ e.nicIndex = 0))
    (hint : s.switchContext.internalVport = some a ↔
      e.ovsType = OVS_VPORT_TYPE.OVS_VPORT_TYPE_INTERNAL)
    (hextIdx : s.switchContext.externalVport = some a →
      e.ovsType ≠ OVS_VPORT_TYPE.OVS_VPORT_TYPE_INTERNAL ∧
      ∀ b, a ∉ s.switchContext.portIdHashArray b ∧ a ∉ s.switchContext.portNoHashArray b ∧
        a ∉ s.switchContext.ovsPortNameHashArray b) :
    ∃ s', HvDeletePort env s portParam = some s' ∧
      s'.mem a = none ∧
      (∀ b, a ∉ s'.switchContext.portIdHashArray b ∧
        a ∉ s'.switchContext.portNoHashArray b ∧
        a ∉ s'.switchContext.ovsPortNameHashArray b) ∧
      s'.switchContext.externalVport ≠ some a ∧
      s'.switchContext.internalVport ≠ some a ∧
      (∀ c, c ≠ a → s'.mem c = s.mem c) ∧
      (∀ b, s'.switchContext.portIdHashArray b =
          (s.switchContext.portIdHashArray b).filter (fun c => c != a) ∧
        s'.switchContext.portNoHashArray b =
          (s.switchContext.portNoHashArray b).filter (fun c => c != a) ∧
        s'.switchContext.ovsPortNameHashArray b =
          (s.switchContext.ovsPortNameHashArray b).filter (fun c => c != a)) ∧
      (∀ c, c ≠ a →
        (s'.switchContext.externalVport = some c ↔ s.switchContext.externalVport = some c) ∧
        (s'.switchContext.internalVport = some c ↔
          s.switchContext.internalVport = some c)) := by
  rw [HvDeletePort_found env s portParam a hfind]
  unfold OvsRemoveAndDeleteVport
  simp only [emit_mem, hmem]
  by_cases hE : e.isExternal = true ∧ e.nicIndex = 0
  · have hx := hext.mpr hE
    obtain ⟨hnotint, hidx⟩ := hextIdx hx
    have hni : s.switchContext.internalVport ≠ some a := fun h => hnotint (hint.mp h)
    simp only [hE, and_self, if_true, Option.map_some']
    refine ⟨_, rfl, by simp, ?_, by simp, by simpa using hni, ?_, ?_, ?_⟩
    · intro b; simpa using hidx b
    · intro c hc; simp [free_mem, hc]
    · intro b
      simp [filter_ne_of_not_mem _ _ (hidx b).1, filter_ne_of_not_mem _ _ (hidx b).2.1,
        filter_ne_of_not_mem _ _ (hidx b).2.2]
    · intro c hc
      simp [hx, hc, Ne.symm hc]
  · have hx : s.switchContext.externalVport ≠ some a := fun h => hE (hext.mp h)
    simp only [hE, if_false, Option.map_some']
    by_cases hT : e.ovsType = OVS_VPORT_TYPE.OVS_VPORT_TYPE_INTERNAL
    · have hi := hint.mpr hT
      cases hX : e.isExternal <;>
      · simp only [hT, hX]
        refine ⟨_, rfl, by simp, ?_, by simpa using hx, by simp, ?_, ?_, ?_⟩
        · intro b; simp [RemoveEntryList]
        · intro c hc; simp [free_mem, hc]
        · intro b; simp [RemoveEntryList]
        · intro c hc; simp [hi, hc, Ne.symm hc]
    · have hi : s.switchContext.internalVport ≠ some a := fun h => hT (hint.mp h)
      cases hX : e.isExternal <;> cases hT2 : e.ovsType <;>
        first
          | exact absurd hT2 hT
          | (simp only [hX]
             refine ⟨_, rfl, by simp, ?_, by simpa using hx, by simpa using hi, ?_, ?_, ?_⟩
             · intro b; simp [RemoveEntryList]
             · intro c hc; simp [free_mem, hc]
             · intro b; simp [RemoveEntryList]
             · intro c hc; simp)


/-- C6, a worked instance: deleting port 10, the only entry of the store. -/
theorem HvDeletePort_removes_witness :
    ∃ s', HvDeletePort sampleEnv portTenStore
        (samplePort 10 NDIS_SWITCH_PORT_TYPE.NdisSwitchPortTypeSynthetic
          NDIS_SWITCH_PORT_STATE.NdisSwitchPortStateCreated) = some s' ∧
      s'.mem 1 = none ∧
      (∀ b, 1 ∉ s'.switchContext.portIdHashArray b ∧
        1 ∉ s'.switchContext.portNoHashArray b ∧
        1 ∉ s'.switchContext.ovsPortNameHashArray b) ∧
      s'.switchContext.externalVport ≠ some 1 ∧
      s'.switchContext.internalVport ≠ some 1 ∧
      (∀ c, c ≠ 1 → s'.mem c = portTenStore.mem c) ∧
      (∀ b, s'.switchContext.portIdHashArray b =
          (portTenStore.switchContext.portIdHashArray b).filter (fun c => c != 1) ∧
        s'.switchContext.portNoHashArray b =
          (portTenStore.switchContext.portNoHashArray b).filter (fun c => c != 1) ∧
        s'.switchContext.ovsPortNameHashArray b =
          (portTenStore.switchContext.ovsPortNameHashArray b).filter (fun c => c != 1)) ∧
      (∀ c, c ≠ 1 →
        (s'.switchContext.externalVport = some c ↔
          portTenStore.switchContext.externalVport = some c) ∧
        (s'.switchContext.internalVport = some c ↔
          portTenStore.switchContext.internalVport = some c)) :=
  HvDeletePort_removes sampleEnv portTenStore
    (samplePort 10 NDIS_SWITCH_PORT_TYPE.NdisSwitchPortTypeSynthetic
      NDIS_SWITCH_PORT_STATE.NdisSwitchPortStateCreated) 1 _
    (by decide) rfl (by decide) (by decide) (fun h => absurd h (by decide))

/-- C6 fails as stated when two entries of Internal kind exist: with the internal ports 10
(address 1) and 11 (address 2, the occupant of the internal slot), the lookup of (10, 0)
finds the entry at address 1, and `HvDeletePort` for port 10 empties the internal slot, so
the other entry no longer occupies it. -/
theorem HvDeletePort_clears_other_internal :
    OvsFindVportByPortIdAndNicIndex sampleEnv twoInternalStore 10 0 = some (some 1) ∧
    twoInternalStore.switchContext.internalVport = some 2 ∧
    (HvDeletePort sampleEnv twoInternalStore
        (samplePort 10 NDIS_SWITCH_PORT_TYPE.NdisSwitchPortTypeInternal
          NDIS_SWITCH_PORT_STATE.NdisSwitchPortStateCreated)).map
      (fun s' => (s'.switchContext.internalVport, s'.switchContext.internalPortId)) =
      some (none, 0) := by
  decide

/-! ## Claims about `HvCreateNic` -/

/-- The handler `HvCreateNic` on an activated store, for a NIC that is not an external physical NIC
and whose port is found: the handler goes on to `OvsInitVportWithNicParam` for that
entry. -/
theorem HvCreateNic_generic_eq (env : Env) (s : KernelState)
    (nicParam : NDIS_SWITCH_NIC_PARAMETERS) (alloc : Option Nat) (a : Nat)
    (hact : s.switchContext.isActivated = true)
    (hfind : OvsFindVportByPortIdAndNicIndex env s nicParam.PortId 0 = some (some a))
    (hgen : ¬ (nicParam.NicType = NDIS_SWITCH_NIC_TYPE.NdisSwitchNicTypeExternal ∧
      nicParam.NicIndex ≠ 0)) :
    HvCreateNic env s nicParam alloc =
      HvCreateNic_init (s.emit Effect.NdisAcquireRWLockWrite) a nicParam := by
  have h2 : OvsFindVportByPortIdAndNicIndex env (s.emit Effect.NdisAcquireRWLockWrite)
      nicParam.PortId 0 = some (some a) := by
    rw [find_congr env s (s.emit Effect.NdisAcquireRWLockWrite) _ _ rfl rfl]; exact hfind
  simp [HvCreateNic, OvsWaitActivate, hact, h2, hgen]

/-- C7 (amended): for every activated store holding an entry e for port id P in state
PortCreated, with address fields of `MAC_ADDRESS_LEN` bytes, and every NIC parameter
block for P that is not an external physical NIC and whose address arrays hold at least
`MAC_ADDRESS_LEN` bytes, `HvCreateNic` returns success, copies the permanent and current
MAC (the first `MAC_ADDRESS_LEN` bytes of the arrays of the notification) and the MTU
into e, sets the state of e to Connected when the NIC state is Connected and to
NicCreated when it is Created, and, provided the port number of e has been assigned
(`portNo ≠ OVS_DPPORT_NUMBER_INVALID`), posts exactly one event for e, with mask
Connect|LinkUp in the first case and Connect in the second; while the port number is
`OVS_DPPORT_NUMBER_INVALID` no event is posted. -/
theorem HvCreateNic_generic (env : Env) (s : KernelState)
    (nicParam : NDIS_SWITCH_NIC_PARAMETERS) (alloc : Option Nat) (a : Nat)
    (e : OVS_VPORT_ENTRY)
    (hact : s.switchContext.isActivated = true)
    (hfind : OvsFindVportByPortIdAndNicIndex env s nicParam.PortId 0 = some (some a))
    (hmem : s.mem a = some e)
    (hport : e.portId = nicParam.PortId)
    (hstate : e.ovsState = OVS_VPORT_STATE.OVS_STATE_PORT_CREATED)
    (hgen : ¬ (nicParam.NicType = NDIS_SWITCH_NIC_TYPE.NdisSwitchNicTypeExternal ∧
      nicParam.NicIndex ≠ 0))
    (hperm : e.permMacAddress.length = MAC_ADDRESS_LEN)
    (hcurr : e.currMacAddress.length = MAC_ADDRESS_LEN)
    (hpermArr : MAC_ADDRESS_LEN ≤ nicParam.PermanentMacAddress.length)
    (hcurrArr : MAC_ADDRESS_LEN ≤ nicParam.CurrentMacAddress.length) :
    ∃ s' e', HvCreateNic env s nicParam alloc = some (NDIS_STATUS.NDIS_STATUS_SUCCESS, s') ∧
      s'.mem a = some e' ∧
      e'.permMacAddress = nicParam.PermanentMacAddress.take MAC_ADDRESS_LEN ∧
      e'.currMacAddress = nicParam.CurrentMacAddress.take MAC_ADDRESS_LEN ∧
      e'.mtu = nicParam.MTU ∧
      (nicParam.NicState = NDIS_SWITCH_NIC_STATE.NdisSwitchNicStateConnected →
        e'.ovsState = OVS_VPORT_STATE.OVS_STATE_CONNECTED ∧
        s'.trace = s.trace ++ [Effect.NdisAcquireRWLockWrite, Effect.NdisReleaseRWLock] ++
          (if e.portNo = OVS_DPPORT_NUMBER_INVALID then []
           else [Effect.OvsPostEvent e.portNo (OVS_EVENT_CONNECT ||| OVS_EVENT_LINK_UP)])) ∧
      (nicParam.NicState = NDIS_SWITCH_NIC_STATE.NdisSwitchNicStateCreated →
        e'.ovsState = OVS_VPORT_STATE.OVS_STATE_NIC_CREATED ∧
        s'.trace = s.trace ++ [Effect.NdisAcquireRWLockWrite, Effect.NdisReleaseRWLock] ++
          (if e.portNo = OVS_DPPORT_NUMBER_INVALID then []
           else [Effect.OvsPostEvent e.portNo OVS_EVENT_CONNECT])) := by
  have hP := copyPastEnd_fst_of_le e.permMacAddress nicParam.PermanentMacAddress
    (by rw [hperm]; exact hpermArr)
  have hC : ∀ f : List Nat, f.length = MAC_ADDRESS_LEN →
      (copyPastEnd f nicParam.CurrentMacAddress).1 =
        nicParam.CurrentMacAddress.take MAC_ADDRESS_LEN := by
    intro f hf
    rw [copyPastEnd_fst_of_le f nicParam.CurrentMacAddress (by rw [hf]; exact hcurrArr), hf]
  rw [hperm] at hP
  have hlen : (copyFromPermMacAddress e nicParam.PermanentMacAddress).currMacAddress.length =
      MAC_ADDRESS_LEN := by
    rw [copyFromPermMacAddress_currMacAddress, copyPastEnd_fst_length]; exact hcurr
  have hC2 := hC _ hlen
  rw [HvCreateNic_generic_eq env s nicParam alloc a hact hfind hgen]
  simp only [HvCreateNic_init, OvsInitVportWithNicParam, emit_mem, hmem, hport, hstate,
    decide_True, ASSERT_true, store_mem_same]
  by_cases hno : e.portNo = OVS_DPPORT_NUMBER_INVALID <;>
  cases hN : nicParam.NicState <;>
  by_cases hT : (nicParam.NicType = NDIS_SWITCH_NIC_TYPE.NdisSwitchNicTypeSynthetic ∨
      nicParam.NicType = NDIS_SWITCH_NIC_TYPE.NdisSwitchNicTypeEmulated) <;>
  simp [hT, hno, hstate, HvCreateNic_done, OVS_EVENT_CONNECT, OVS_EVENT_LINK_UP, hP, hC2]

/-- C7, a worked instance: the internal port 10 with port number 5 receives a NIC in
state Connected whose address arrays hold 32 bytes; the first six bytes of each are
stored, and one event with mask Connect|LinkUp is posted for port number 5. -/
theorem HvCreateNic_generic_witness :
    ∃ s' e', HvCreateNic sampleEnv numberedInternalStore
        (paddedNic 10 0 NDIS_SWITCH_NIC_TYPE.NdisSwitchNicTypeInternal
          NDIS_SWITCH_NIC_STATE.NdisSwitchNicStateConnected) none =
        some (NDIS_STATUS.NDIS_STATUS_SUCCESS, s') ∧
      s'.mem 1 = some e' ∧
      e'.permMacAddress = [2, 0, 0, 0, 0, 1] ∧
      e'.currMacAddress = [2, 0, 0, 0, 0, 1] ∧
      e'.mtu = 1500 ∧
      e'.ovsState = OVS_VPORT_STATE.OVS_STATE_CONNECTED ∧
      s'.trace = numberedInternalStore.trace ++
        [Effect.NdisAcquireRWLockWrite, Effect.NdisReleaseRWLock,
         Effect.OvsPostEvent 5 (OVS_EVENT_CONNECT ||| OVS_EVENT_LINK_UP)] := by
  obtain ⟨s', e', h, hm, hp, hc, hmtu, hconn, _⟩ :=
    HvCreateNic_generic sampleEnv numberedInternalStore
      (paddedNic 10 0 NDIS_SWITCH_NIC_TYPE.NdisSwitchNicTypeInternal
        NDIS_SWITCH_NIC_STATE.NdisSwitchNicStateConnected) none 1 _
      rfl (by decide) rfl rfl rfl (by decide) (by decide) (by decide) (by decide)
      (by decide)
  exact ⟨s', e', h, hm, hp, hc, hmtu, (hconn rfl).1, (hconn rfl).2⟩

/-- C7 fails as stated on its own Scenario A: after `HvCreatePort` of the internal port 10
the entry is in state PortCreated with port number `OVS_DPPORT_NUMBER_INVALID`; the
following `HvCreateNic` with NIC state Connected returns success and sets the state to
Connected, and the trace holds the two lock pairs only: no event is posted. -/
theorem HvCreateNic_scenario_A_posts_nothing :
    OvsFindVportByPortIdAndNicIndex sampleEnv internalStore 10 0 = some (some 1) ∧
    (internalStore.mem 1).map (fun e => (e.portId, e.ovsState, e.portNo)) =
      some (10, OVS_VPORT_STATE.OVS_STATE_PORT_CREATED, OVS_DPPORT_NUMBER_INVALID) ∧
    (HvCreateNic sampleEnv internalStore
        (sampleNic 10 0 NDIS_SWITCH_NIC_TYPE.NdisSwitchNicTypeInternal
          NDIS_SWITCH_NIC_STATE.NdisSwitchNicStateConnected) none).map
      (fun r => (r.1, (r.2.mem 1).map (fun e => e.ovsState), r.2.trace)) =
      some (NDIS_STATUS.NDIS_STATUS_SUCCESS, some OVS_VPORT_STATE.OVS_STATE_CONNECTED,
        [Effect.NdisAcquireRWLockWrite, Effect.NdisReleaseRWLock,
         Effect.NdisAcquireRWLockWrite, Effect.NdisReleaseRWLock]) := by
  decide

/-- The copies of `OvsInitVportWithNicParam` past the address fields: the internal port 10
is created with the port name `p1`; `HvCreateNic` with address arrays of 32 bytes stores
the first six bytes of the permanent and of the current array, and the copy of the
current array goes on into `vmMacAddress` (bytes 7 to 12 of the array) and into
`hvPortName` (bytes 13 and 14 become its length, bytes 15 to 32 its first nine wide
characters); for a Synthetic NIC the copy of the VM array then fills `vmMacAddress` and
runs over the length and the first twelve wide characters of `hvPortName`. -/
theorem HvCreateNic_copies_past_address_fields :
    ((afterCreatePort emptyState namedInternalPort 1).mem 1).map
      (fun e => (e.vmMacAddress, e.hvPortName.Length, e.hvPortName.String.take 3)) =
      some ([0, 0, 0, 0, 0, 0], 4, [112, 49, 0]) ∧
    ((HvCreateNic sampleEnv (afterCreatePort emptyState namedInternalPort 1)
        (countingNic NDIS_SWITCH_NIC_TYPE.NdisSwitchNicTypeInternal) none).bind
      (fun r => r.2.mem 1)).map
      (fun e => (e.permMacAddress, e.currMacAddress, e.vmMacAddress)) =
      some ([1, 2, 3, 4, 5, 6], [101, 102, 103, 104, 105, 106],
        [107, 108, 109, 110, 111, 112]) ∧
    ((HvCreateNic sampleEnv (afterCreatePort emptyState namedInternalPort 1)
        (countingNic NDIS_SWITCH_NIC_TYPE.NdisSwitchNicTypeInternal) none).bind
      (fun r => r.2.mem 1)).map
      (fun e => (e.hvPortName.Length, e.hvPortName.String.take 10)) =
      some (113 + 256 * 114,
        [115 + 256 * 116, 117 + 256 * 118, 119 + 256 * 120, 121 + 256 * 122,
         123 + 256 * 124, 125 + 256 * 126, 127 + 256 * 128, 129 + 256 * 130,
         131 + 256 * 132, 0]) ∧
    ((HvCreateNic sampleEnv (afterCreatePort emptyState namedInternalPort 1)
        (countingNic NDIS_SWITCH_NIC_TYPE.NdisSwitchNicTypeSynthetic) none).bind
      (fun r => r.2.mem 1)).map
      (fun e => (e.currMacAddress, e.vmMacAddress, e.hvPortName.Length,
        e.hvPortName.String.drop 11 |>.take 2)) =
      some ([101, 102, 103, 104, 105, 106], [201, 202, 203, 204, 205, 206],
        207 + 256 * 208, [231 + 256 * 232, 0]) := by
  decide

/-- C8, the code at the failing input (Scenario B): on the store holding the external
port 20 at address 1, `HvCreateNic` for the physical NIC (20, 1) returns success, links
the new sub-entry (address 2, identity (20, 1)) in the port-id index and raises
`numPhysicalNics` from 0 to 1; but the following lookup of (20, 1) returns address 1,
the external singleton whose nicIndex is 0, not the sub-entry. -/
theorem HvCreateNic_physical_lookup_returns_singleton :
    externalStore.switchContext.numPhysicalNics = 0 ∧
    (HvCreateNic sampleEnv externalStore
        (sampleNic 20 1 NDIS_SWITCH_NIC_TYPE.NdisSwitchNicTypeExternal
          NDIS_SWITCH_NIC_STATE.NdisSwitchNicStateConnected) (some 2)).map
      (fun r => (r.1,
        r.2.switchContext.portIdHashArray
          (sampleEnv.OvsJhashWords 20 &&& sampleEnv.OVS_VPORT_MASK),
        (r.2.mem 2).map (fun e => (e.portId, e.nicIndex)),
        r.2.switchContext.numPhysicalNics)) =
      some (NDIS_STATUS.NDIS_STATUS_SUCCESS, [2], some (20, 1), 1) ∧
    (HvCreateNic sampleEnv externalStore
        (sampleNic 20 1 NDIS_SWITCH_NIC_TYPE.NdisSwitchNicTypeExternal
          NDIS_SWITCH_NIC_STATE.NdisSwitchNicStateConnected) (some 2)).map
      (fun r => (OvsFindVportByPortIdAndNicIndex sampleEnv r.2 20 1,
        (r.2.mem 1).map (fun e => (e.portId, e.nicIndex)))) =
      some (some (some 1), some (20, 0)) := by
  decide

/-- C9, the code at the failing input (Scenario B): with the external port 20 at address 1
and the physical-NIC sub-entry (20, 1) at address 2, `HvDeleteNic` for (20, 1) leaves the
sub-entry allocated and linked in the port-id index and leaves `numPhysicalNics` at 1;
the following `HvDeletePort` of port 20 runs into the failed assertion
`ASSERT(switchContext->numPhysicalNics == 0)` with the count still 1. -/
theorem HvDeleteNic_physical_not_removed :
    (HvDeleteNic sampleEnv physNicStore
        (sampleNic 20 1 NDIS_SWITCH_NIC_TYPE.NdisSwitchNicTypeExternal
          NDIS_SWITCH_NIC_STATE.NdisSwitchNicStateConnected)).map
      (fun s => (s.switchContext.portIdHashArray
          (sampleEnv.OvsJhashWords 20 &&& sampleEnv.OVS_VPORT_MASK),
        (s.mem 2).map (fun e => (e.portId, e.nicIndex)),
        s.switchContext.numPhysicalNics)) = some ([2], some (20, 1), 1) ∧
    ((HvDeleteNic sampleEnv physNicStore
        (sampleNic 20 1 NDIS_SWITCH_NIC_TYPE.NdisSwitchNicTypeExternal
          NDIS_SWITCH_NIC_STATE.NdisSwitchNicStateConnected)).bind
      (fun s => HvDeletePort sampleEnv s
        (samplePort 20 NDIS_SWITCH_PORT_TYPE.NdisSwitchPortTypeExternal
          NDIS_SWITCH_PORT_STATE.NdisSwitchPortStateCreated))).map
      (fun s => (s.switchContext.numPhysicalNics,
        s.switchContext.portIdHashArray
          (sampleEnv.OvsJhashWords 20 &&& sampleEnv.OVS_VPORT_MASK),
        decide (Effect.AssertFailed ∈ s.trace))) = some (1, [2], true) := by
  decide

/-! ## The physical-NIC count -/

theorem isPhysNic_congr (o o' : Option OVS_VPORT_ENTRY)
    (h : o'.map entryKey = o.map entryKey) : isPhysNic o' = isPhysNic o := by
  cases o with
  | none => cases o' with
    | none => rfl
    | some e' => simp at h
  | some e => cases o' with
    | none => simp at h
    | some e' =>
      simp only [Option.map_some', Option.some.injEq, entryKey, Prod.mk.injEq] at h
      simp [isPhysNic, h.1, h.2.1]

/-- The count reads the port-id index and, of the linked entries, the key fields only. -/
theorem physNicsInIndex_congr (env : Env) (s s' : KernelState)
    (hidx : s'.switchContext.portIdHashArray = s.switchContext.portIdHashArray)
    (hmem : ∀ b, b < env.OVS_MAX_VPORT_ARRAY_SIZE → ∀ a ∈ s.switchContext.portIdHashArray b,
      isPhysNic (s'.mem a) = isPhysNic (s.mem a)) :
    physNicsInIndex env s' = physNicsInIndex env s := by
  unfold physNicsInIndex
  rw [hidx]
  congr 1
  apply List.map_congr_left
  intro b hb
  rw [List.mem_range] at hb
  congr 1
  apply List.filter_congr
  intro a ha
  exact hmem b hb a ha

/-- Summing a per-bucket quantity that is raised by `d` in the single bucket `b0`. -/
theorem sum_range_bump (f g : Nat → Nat) (b0 d N : Nat)
    (h0 : g b0 = f b0 + d) (hne : ∀ b, b < N → b ≠ b0 → g b = f b) (n : Nat) (hn : n ≤ N) :
    ((List.range n).map g).sum = ((List.range n).map f).sum + (if b0 < n then d else 0) := by
  induction n with
  | zero => simp
  | succ n ih =>
    rw [List.range_succ, List.map_append, List.map_append, List.sum_append, List.sum_append,
      ih (by omega)]
    simp only [List.map_cons, List.map_nil, List.sum_cons, List.sum_nil, add_zero]
    by_cases hlt : b0 < n
    · have : n ≠ b0 := by omega
      have h1 : b0 < n + 1 := by omega
      simp [hlt, h1, hne n (by omega) this]
      omega
    · by_cases heq : b0 = n
      · subst heq
        simp [h0]
        omega
      · have h1 : ¬ b0 < n + 1 := by omega
        simp [hlt, h1, hne n (by omega) (Ne.symm heq)]

/-- The bucket loop returns when every linked address is allocated. -/
theorem findPortIdLink_total (mem : Nat → Option OVS_VPORT_ENTRY) (portId index : Nat)
    (l : List Nat) (hvalid : ∀ a ∈ l, mem a ≠ none) :
    ∃ r, findPortIdLink mem portId index l = some r := by
  induction l with
  | nil => exact ⟨none, rfl⟩
  | cons x rest ih =>
    cases hx : mem x with
    | none => exact absurd hx (hvalid x (List.mem_cons_self _ _))
    | some v =>
      by_cases hmatch : portId = v.portId ∧ index = v.nicIndex
      · exact ⟨some x, by simp [findPortIdLink, hx, hmatch]⟩
      · obtain ⟨r, hr⟩ := ih (fun y hy => hvalid y (List.mem_cons_of_mem _ hy))
        exact ⟨r, by simp [findPortIdLink, hx, hmatch, hr]⟩

theorem bucket_lt (env : Env) (hmask : env.OVS_VPORT_MASK < env.OVS_MAX_VPORT_ARRAY_SIZE)
    (h : Nat) : h &&& env.OVS_VPORT_MASK < env.OVS_MAX_VPORT_ARRAY_SIZE :=
  Nat.lt_of_le_of_lt Nat.and_le_right hmask

/-- Under the invariant the lookup returns, and what it returns is an allocated entry. For
a nic index other than 0 the entry it returns is not a physical-NIC entry. -/
theorem find_of_inv (env : Env) (s : KernelState)
    (hmask : env.OVS_VPORT_MASK < env.OVS_MAX_VPORT_ARRAY_SIZE)
    (hinv : PhysNicInv env s) (portId index : Nat) :
    ∃ r, OvsFindVportByPortIdAndNicIndex env s portId index = some r ∧
      ∀ a, r = some a → ∃ e, s.mem a = some e ∧ isPhysNic (some e) = false := by
  obtain ⟨a0, e0, hx, hm0, ht0, hi0, hp0⟩ := hinv.ext
  unfold OvsFindVportByPortIdAndNicIndex
  by_cases h1 : portId = s.switchContext.externalPortId
  · refine ⟨s.switchContext.externalVport, by simp [h1], ?_⟩
    intro a ha
    rw [hx] at ha
    cases ha
    exact ⟨e0, hm0, by simp [isPhysNic, hi0]⟩
  · by_cases h2 : s.switchContext.internalPortId = portId
    · refine ⟨s.switchContext.internalVport, by simp [h1, h2], ?_⟩
      intro a ha
      exact hinv.int a ha
    · simp only [h1, h2, if_false]
      have hb := bucket_lt env hmask (env.OvsJhashWords portId)
      have hvalid : ∀ a ∈ s.switchContext.portIdHashArray
          (env.OvsJhashWords portId &&& env.OVS_VPORT_MASK), s.mem a ≠ none := by
        intro a ha
        obtain ⟨e, he, _⟩ := hinv.idx _ hb a ha
        simp [he]
      obtain ⟨r, hr⟩ := findPortIdLink_total s.mem portId index _ hvalid
      refine ⟨r, hr, ?_⟩
      intro a ha
      subst ha
      obtain ⟨hmem, e, he, hp, _⟩ := findPortIdLink_sound s.mem portId index _ a hr
      obtain ⟨e', he', hphys⟩ := hinv.idx _ hb a hmem
      rw [he] at he'
      cases he'
      refine ⟨e, he, ?_⟩
      cases hph : isPhysNic (some e) with
      | false => rfl
      | true => exact absurd (hp.symm.trans (hphys hph)) h1

/-- The invariant reads the switch context and the key fields of the entries only. -/
theorem PhysNicInv_congr (env : Env) (s s' : KernelState)
    (hctx : s'.switchContext = s.switchContext)
    (hkey : ∀ c, (s'.mem c).map entryKey = (s.mem c).map entryKey)
    (hinv : PhysNicInv env s) : PhysNicInv env s' := by
  have hsome : ∀ c e, s.mem c = some e → ∃ e', s'.mem c = some e' ∧ entryKey e' = entryKey e := by
    intro c e he
    have h := hkey c
    rw [he] at h
    cases h' : s'.mem c with
    | none => simp [h'] at h
    | some e' => exact ⟨e', rfl, by simpa [h'] using h⟩
  have hphys : ∀ c, isPhysNic (s'.mem c) = isPhysNic (s.mem c) :=
    fun c => isPhysNic_congr _ _ (hkey c)
  obtain ⟨a0, e0, hx, hm0, ht0, hi0, hp0⟩ := hinv.ext
  obtain ⟨e0', hm0', hk0⟩ := hsome a0 e0 hm0
  simp only [entryKey, Prod.mk.injEq] at hk0
  refine ⟨⟨a0, e0', by rw [hctx]; exact hx, hm0', hk0.1.trans ht0, hk0.2.1.trans hi0,
    by rw [hctx]; exact hk0.2.2.trans hp0⟩, ?_, ?_, ?_, by rw [hctx]; exact hinv.act⟩
  · rw [hctx, hinv.count]
    congr 1
    exact (physNicsInIndex_congr env s s' (by rw [hctx]) (fun _ _ a _ => hphys a)).symm
  · intro b hb a ha
    rw [hctx] at ha
    obtain ⟨e, he, hph⟩ := hinv.idx b hb a ha
    obtain ⟨e', he', hk⟩ := hsome a e he
    refine ⟨e', he', ?_⟩
    intro h
    have h2 : isPhysNic (some e) = true := by
      have := hphys a
      rw [he, he'] at this
      rw [← this]; exact h
    simp only [entryKey, Prod.mk.injEq] at hk
    rw [hctx, hk.2.2]
    exact hph h2
  · intro ai hai
    rw [hctx] at hai
    obtain ⟨e, he, hph⟩ := hinv.int ai hai
    obtain ⟨e', he', _⟩ := hsome ai e he
    refine ⟨e', he', ?_⟩
    have := hphys ai
    rw [he, he'] at this
    rw [this]; exact hph

/-- Under the invariant `HvDeleteNic` returns, leaves the switch context as it was and
changes no key field of any entry: no physical-NIC entry is ever removed by it. -/
theorem HvDeleteNic_keeps (env : Env) (s : KernelState)
    (nicParam : NDIS_SWITCH_NIC_PARAMETERS)
    (hmask : env.OVS_VPORT_MASK < env.OVS_MAX_VPORT_ARRAY_SIZE)
    (hinv : PhysNicInv env s) :
    ∃ s', HvDeleteNic env s nicParam = some s' ∧
      s'.switchContext = s.switchContext ∧
      ∀ c, (s'.mem c).map entryKey = (s.mem c).map entryKey := by
  unfold HvDeleteNic OvsWaitActivate
  cases hact : s.switchContext.isActivated with
  | false =>
    have hf : s.switchContext.isActivateFailed = true := by
      rcases hinv.act with h | h
      · rw [hact] at h; cases h
      · exact h
    simp [hf, hact]
  | true =>
    simp only [hact, Bool.not_true, Bool.false_and, Bool.false_eq_true, if_false]
    obtain ⟨r, hr, hrspec⟩ := find_of_inv env s hmask hinv nicParam.PortId nicParam.NicIndex
    have hr2 : OvsFindVportByPortIdAndNicIndex env (s.emit Effect.NdisAcquireRWLockWrite)
        nicParam.PortId nicParam.NicIndex = some r := by
      rw [find_congr env s (s.emit Effect.NdisAcquireRWLockWrite) _ _ rfl rfl]; exact hr
    simp only [hr2]
    cases r with
    | none => exact ⟨_, rfl, rfl, fun _ => rfl⟩
    | some a =>
      obtain ⟨e, he, hph⟩ := hrspec a rfl
      have hnot : ¬ (e.portType = NDIS_SWITCH_PORT_TYPE.NdisSwitchPortTypeExternal ∧
          e.nicIndex ≠ 0) := by
        simpa [isPhysNic] using hph
      simp only [emit_mem, he, hnot, if_false]
      refine ⟨_, rfl, rfl, ?_⟩
      intro c
      by_cases hc : c = a
      · subst hc
        simp [store_mem, he, entryKey]
      · simp [store_mem, hc]

/-- The function `OvsInitVportWithNicParam` on an allocated entry returns, leaves the switch context
and every other address, and in the entry keeps the port type and port id and sets the
nic index to that of the notification. -/
theorem OvsInitVportWithNicParam_spec (s : KernelState) (a : Nat) (v : OVS_VPORT_ENTRY)
    (nicParam : NDIS_SWITCH_NIC_PARAMETERS) (h : s.mem a = some v) :
    ∃ s' v', OvsInitVportWithNicParam s a nicParam = some s' ∧
      s'.switchContext = s.switchContext ∧
      (∀ c, c ≠ a → s'.mem c = s.mem c) ∧
      s'.mem a = some v' ∧ v'.portType = v.portType ∧ v'.portId = v.portId ∧
      v'.nicIndex = nicParam.NicIndex := by
  simp only [OvsInitVportWithNicParam, h]
  cases hN : nicParam.NicState <;>
  by_cases hT : (nicParam.NicType = NDIS_SWITCH_NIC_TYPE.NdisSwitchNicTypeSynthetic ∨
      nicParam.NicType = NDIS_SWITCH_NIC_TYPE.NdisSwitchNicTypeEmulated) <;>
  simp only [hT, if_true, if_false] <;>
  exact ⟨_, _, rfl, by simp, fun c hc => by simp [store_mem, hc], store_mem_same _ _ _,
    rfl, rfl, rfl⟩

theorem HvCreateNic_done_switchContext (s : KernelState) (st : NDIS_STATUS)
    (portNo event : Nat) :
    (HvCreateNic_done s st portNo event).2.switchContext = s.switchContext := by
  unfold HvCreateNic_done
  split <;> rfl

theorem HvCreateNic_done_mem (s : KernelState) (st : NDIS_STATUS) (portNo event : Nat) :
    (HvCreateNic_done s st portNo event).2.mem = s.mem := by
  unfold HvCreateNic_done
  split <;> rfl

/-- The part of `HvCreateNic` from `OvsInitVportWithNicParam` on, for an allocated entry:
it returns, leaves the switch context and every other address, and in the entry keeps the
port type and port id and sets the nic index to that of the notification. -/
theorem HvCreateNic_init_spec (s : KernelState) (a : Nat) (v : OVS_VPORT_ENTRY)
    (nicParam : NDIS_SWITCH_NIC_PARAMETERS) (h : s.mem a = some v) :
    ∃ r, HvCreateNic_init s a nicParam = some r ∧
      r.2.switchContext = s.switchContext ∧
      (∀ c, c ≠ a → r.2.mem c = s.mem c) ∧
      ∃ v', r.2.mem a = some v' ∧ v'.portType = v.portType ∧ v'.portId = v.portId ∧
        v'.nicIndex = nicParam.NicIndex := by
  obtain ⟨s1, v', h1, hctx, hoth, hm, hv⟩ := OvsInitVportWithNicParam_spec s a v nicParam h
  simp only [HvCreateNic_init, h1, hm]
  refine ⟨_, rfl, ?_, ?_, ?_⟩
  · rw [HvCreateNic_done_switchContext]; exact hctx
  · intro c hc
    rw [HvCreateNic_done_mem]; exact hoth c hc
  · rw [HvCreateNic_done_mem]; exact ⟨v', hm, hv⟩

/-- The handler `HvCreateNic` for a physical NIC on an activated store whose lookup of the port finds
an entry, with a fresh block at address `a` and the external slot holding the allocated
External-type entry `e0`: the handler returns; the new sub-entry is linked at the head of
the bucket of the port id of `e0`, both counters go up by one, no other address changes,
and the sub-entry has port type External, the port id of `e0` and the nic index of the
notification. -/
theorem HvCreateNic_phys_spec (env : Env) (s : KernelState)
    (nicParam : NDIS_SWITCH_NIC_PARAMETERS) (a found a0 : Nat) (e0 : OVS_VPORT_ENTRY)
    (hact : s.switchContext.isActivated = true)
    (hfind : OvsFindVportByPortIdAndNicIndex env s nicParam.PortId 0 = some (some found))
    (hphys : nicParam.NicType = NDIS_SWITCH_NIC_TYPE.NdisSwitchNicTypeExternal ∧
      nicParam.NicIndex ≠ 0)
    (hx : s.switchContext.externalVport = some a0) (hm0 : s.mem a0 = some e0)
    (ht0 : e0.portType = NDIS_SWITCH_PORT_TYPE.NdisSwitchPortTypeExternal)
    (hfresh : s.mem a = none) :
    ∃ r, HvCreateNic env s nicParam (some a) = some r ∧
      r.2.switchContext =
        { s.switchContext with
          numPhysicalNics := s.switchContext.numPhysicalNics + 1
          portIdHashArray := InsertHeadList s.switchContext.portIdHashArray
            (env.OvsJhashWords e0.portId &&& env.OVS_VPORT_MASK) a
          numVports := s.switchContext.numVports + 1 } ∧
      (∀ c, c ≠ a → r.2.mem c = s.mem c) ∧
      ∃ v', r.2.mem a = some v' ∧
        v'.portType = NDIS_SWITCH_PORT_TYPE.NdisSwitchPortTypeExternal ∧
        v'.portId = e0.portId ∧ v'.nicIndex = nicParam.NicIndex := by
  have hne : a0 ≠ a := by
    intro h; rw [h, hfresh] at hm0; cases hm0
  have h2 : OvsFindVportByPortIdAndNicIndex env (s.emit Effect.NdisAcquireRWLockWrite)
      nicParam.PortId 0 = some (some found) := by
    rw [find_congr env s (s.emit Effect.NdisAcquireRWLockWrite) _ _ rfl rfl]; exact hfind
  have hv0 : ((s.emit Effect.NdisAcquireRWLockWrite).store a (freshVport env)).mem a0 =
      some e0 := by
    rw [store_mem_other _ _ _ _ hne]; exact hm0
  obtain ⟨s3, hc3, _, hoth3, ⟨name, hname3⟩, hctx3⟩ :=
    OvsInitVportCommon_spec env
      ((s.emit Effect.NdisAcquireRWLockWrite).store a
        (OvsInitPhysNicVport (freshVport env) e0 nicParam.NicIndex)) a
      (OvsInitPhysNicVport (freshVport env) e0 nicParam.NicIndex)
      (store_mem_same _ _ _) rfl
  have hidx : (OvsInitPhysNicVport (freshVport env) e0 nicParam.NicIndex).nicIndex ≠ 0 :=
    hphys.2
  have hty : (OvsInitPhysNicVport (freshVport env) e0 nicParam.NicIndex).portType =
      NDIS_SWITCH_PORT_TYPE.NdisSwitchPortTypeExternal := ht0
  simp only [hty, hidx, and_false, if_false, if_true, store_switchContext,
    emit_switchContext] at hctx3
  obtain ⟨r, hr, hrctx, hroth, v', hrm, hrty, hrid, hridx⟩ :=
    HvCreateNic_init_spec s3 a _ nicParam hname3
  refine ⟨r, ?_, ?_, ?_, v', hrm, hrty.trans ht0, hrid, hridx⟩
  · simp only [HvCreateNic, OvsWaitActivate, hact, Bool.not_true, Bool.false_and,
      Bool.false_eq_true, if_false, h2, hphys, ne_eq, not_false_eq_true, and_self, if_true,
      OvsAllocateVport, emit_switchContext, store_switchContext, hx, Option.some_bind, hv0,
      store_mem_same, store_store, hc3]
    simpa using hr
  · rw [hrctx, hctx3]
    rfl
  · intro c hc
    rw [hroth c hc, hoth3 c hc, store_mem_other _ _ _ _ hc, emit_mem]

/-- A physical-NIC create keeps the invariant, provided the block the allocator gives (if
any) was not allocated before; addresses it does not allocate stay unallocated. -/
theorem HvCreateNic_phys_keeps (env : Env) (s : KernelState)
    (nicParam : NDIS_SWITCH_NIC_PARAMETERS) (alloc : Option Nat)
    (hmask : env.OVS_VPORT_MASK < env.OVS_MAX_VPORT_ARRAY_SIZE)
    (hinv : PhysNicInv env s)
    (hphys : nicParam.NicType = NDIS_SWITCH_NIC_TYPE.NdisSwitchNicTypeExternal ∧
      nicParam.NicIndex ≠ 0)
    (hfresh : ∀ a, alloc = some a → s.mem a = none) :
    ∃ r, HvCreateNic env s nicParam alloc = some r ∧ PhysNicInv env r.2 ∧
      ∀ c, s.mem c = none → alloc ≠ some c → r.2.mem c = none := by
  cases hact : s.switchContext.isActivated with
  | false =>
    have hf : s.switchContext.isActivateFailed = true := by
      rcases hinv.act with h | h
      · rw [hact] at h; cases h
      · exact h
    exact ⟨(NDIS_STATUS.NDIS_STATUS_NOT_SUPPORTED, s),
      by simp [HvCreateNic, OvsWaitActivate, hf, hact], hinv, fun c hc _ => hc⟩
  | true =>
    obtain ⟨r, hr, hrspec⟩ := find_of_inv env s hmask hinv nicParam.PortId 0
    have hr2 : OvsFindVportByPortIdAndNicIndex env (s.emit Effect.NdisAcquireRWLockWrite)
        nicParam.PortId 0 = some r := by
      rw [find_congr env s (s.emit Effect.NdisAcquireRWLockWrite) _ _ rfl rfl]; exact hr
    cases r with
    | none =>
      refine ⟨HvCreateNic_done (s.emit Effect.NdisAcquireRWLockWrite)
        NDIS_STATUS.NDIS_STATUS_INVALID_PARAMETER 0 0,
        by simp [HvCreateNic, OvsWaitActivate, hact, hr2], ?_, ?_⟩
      · exact PhysNicInv_congr env s _ (by rw [HvCreateNic_done_switchContext]; rfl)
          (fun c => by rw [HvCreateNic_done_mem]; rfl) hinv
      · intro c hc _
        rw [HvCreateNic_done_mem]; exact hc
    | some found =>
      cases alloc with
      | none =>
        refine ⟨HvCreateNic_done (s.emit Effect.NdisAcquireRWLockWrite)
          NDIS_STATUS.NDIS_STATUS_RESOURCES 0 0,
          by simp [HvCreateNic, OvsWaitActivate, hact, hr2, hphys, OvsAllocateVport], ?_, ?_⟩
        · exact PhysNicInv_congr env s _ (by rw [HvCreateNic_done_switchContext]; rfl)
            (fun c => by rw [HvCreateNic_done_mem]; rfl) hinv
        · intro c hc _
          rw [HvCreateNic_done_mem]; exact hc
      | some a =>
        have hfa := hfresh a rfl
        obtain ⟨a0, e0, hx, hm0, ht0, hi0, hp0⟩ := hinv.ext
        obtain ⟨r, hrun, hctx, hoth, v', hv', hvty, hvid, hvidx⟩ :=
          HvCreateNic_phys_spec env s nicParam a found a0 e0 hact hr hphys hx hm0 ht0 hfa
        have hvphys : isPhysNic (some v') = true := by
          simp [isPhysNic, hvty, hvidx, hphys.2]
        have hb0 := bucket_lt env hmask (env.OvsJhashWords e0.portId)
        have hold : ∀ b, b < env.OVS_MAX_VPORT_ARRAY_SIZE →
            ∀ c ∈ s.switchContext.portIdHashArray b, c ≠ a := by
          intro b hb c hc heq
          obtain ⟨e, he, _⟩ := hinv.idx b hb c hc
          rw [heq, hfa] at he; cases he
        refine ⟨r, hrun, ⟨?_, ?_, ?_, ?_, ?_⟩, ?_⟩
        · refine ⟨a0, e0, by rw [hctx]; exact hx, ?_, ht0, hi0, by rw [hctx]; exact hp0⟩
          rw [hoth a0 (fun h => by rw [h, hfa] at hm0; cases hm0)]; exact hm0
        · rw [hctx]
          simp only []
          rw [hinv.count]
          have hsum := sum_range_bump
            (fun b => ((s.switchContext.portIdHashArray b).filter
              (fun c => isPhysNic (s.mem c))).length)
            (fun b => ((InsertHeadList s.switchContext.portIdHashArray
              (env.OvsJhashWords e0.portId &&& env.OVS_VPORT_MASK) a b).filter
              (fun c => isPhysNic (r.2.mem c))).length)
            (env.OvsJhashWords e0.portId &&& env.OVS_VPORT_MASK) 1
            env.OVS_MAX_VPORT_ARRAY_SIZE ?_ ?_ env.OVS_MAX_VPORT_ARRAY_SIZE (le_refl _)
          · simp only [hb0, if_true] at hsum
            unfold physNicsInIndex
            rw [hctx]
            simp only []
            rw [hsum]
            push_cast
            rfl
          · simp only [InsertHeadList, if_true, List.filter_cons, hv', hvphys, List.length_cons]
            congr 2
            apply List.filter_congr
            intro c hc
            rw [hoth c (hold _ hb0 c hc)]
          · intro b hb hne
            simp only [InsertHeadList, hne, if_false]
            congr 1
            apply List.filter_congr
            intro c hc
            rw [hoth c (hold _ hb c hc)]
        · intro b hb c hc
          rw [hctx] at hc
          simp only [InsertHeadList] at hc
          by_cases hbb : b = env.OvsJhashWords e0.portId &&& env.OVS_VPORT_MASK
          · simp only [hbb, if_true, List.mem_cons] at hc
            rcases hc with hca | hc
            · subst hca
              exact ⟨v', hv', fun _ => by rw [hctx]; exact hvid.trans hp0⟩
            · obtain ⟨e, he, hph⟩ := hinv.idx _ hb0 c hc
              refine ⟨e, ?_, fun h => by rw [hctx]; exact hph h⟩
              rw [hoth c (hold _ hb0 c hc)]; exact he
          · simp only [hbb, if_false] at hc
            obtain ⟨e, he, hph⟩ := hinv.idx b hb c hc
            refine ⟨e, ?_, fun h => by rw [hctx]; exact hph h⟩
            rw [hoth c (hold b hb c hc)]; exact he
        · intro ai hai
          rw [hctx] at hai
          obtain ⟨e, he, hph⟩ := hinv.int ai hai
          refine ⟨e, ?_, hph⟩
          rw [hoth ai (fun h => by rw [h, hfa] at he; cases he)]; exact he
        · rw [hctx]; exact hinv.act
        · intro c hc hca
          rw [hoth c (fun h => hca (by rw [h]))]; exact hc

/-- A store with an external singleton and count 0 satisfies the invariant. -/
theorem PhysNicInv_of_start (env : Env) (s : KernelState) (h : PhysNicStart env s) :
    PhysNicInv env s := by
  refine ⟨h.ext, ?_, ?_, ?_, h.act⟩
  · rw [h.count]
    have hz : physNicsInIndex env s = 0 := by
      unfold physNicsInIndex
      apply List.sum_eq_zero
      intro n hn
      rw [List.mem_map] at hn
      obtain ⟨b, hb, rfl⟩ := hn
      rw [List.mem_range] at hb
      rw [List.length_eq_zero, List.filter_eq_nil_iff]
      intro a ha
      simp [(h.idx b hb a ha).2]
    rw [hz]; rfl
  · intro b hb a ha
    obtain ⟨hsome, hph⟩ := h.idx b hb a ha
    cases he : s.mem a with
    | none => rw [he] at hsome; cases hsome
    | some e =>
      refine ⟨e, rfl, fun hp => ?_⟩
      rw [he, hp] at hph; cases hph
  · intro ai hai
    obtain ⟨hsome, hph⟩ := h.int ai hai
    cases he : s.mem ai with
    | none => rw [he] at hsome; cases hsome
    | some e => exact ⟨e, rfl, by rw [he] at hph; exact hph⟩

/-- Every sequence of physical-NIC notifications with fresh allocations runs to the end
and keeps the invariant. -/
theorem runPhysNicOps_keeps (env : Env)
    (hmask : env.OVS_VPORT_MASK < env.OVS_MAX_VPORT_ARRAY_SIZE) (ops : List PhysNicOp) :
    ∀ s, PhysNicInv env s → (∀ op ∈ ops, op.isPhysical) → (allocsOf ops).Nodup →
      (∀ a ∈ allocsOf ops, s.mem a = none) →
      ∃ s', runPhysNicOps env s ops = some s' ∧ PhysNicInv env s' := by
  induction ops with
  | nil => intro s hinv _ _ _; exact ⟨s, rfl, hinv⟩
  | cons op rest ih =>
    intro s hinv hops hnodup hfresh
    have hrest : ∀ op ∈ rest, op.isPhysical := fun o ho => hops o (List.mem_cons_of_mem _ ho)
    cases op with
    | delete nicParam =>
      obtain ⟨s1, h1, hctx, hkey⟩ := HvDeleteNic_keeps env s nicParam hmask hinv
      have hinv1 := PhysNicInv_congr env s s1 hctx hkey hinv
      have hfresh1 : ∀ a ∈ allocsOf rest, s1.mem a = none := by
        intro a ha
        have h0 : s.mem a = none := hfresh a (by simpa [allocsOf] using ha)
        have := hkey a
        rw [h0] at this
        simpa using this
      obtain ⟨s', hs', hinv'⟩ := ih s1 hinv1 hrest (by simpa [allocsOf] using hnodup) hfresh1
      exact ⟨s', by simp [runPhysNicOps, h1, hs'], hinv'⟩
    | create nicParam alloc =>
      have hphys : nicParam.NicType = NDIS_SWITCH_NIC_TYPE.NdisSwitchNicTypeExternal ∧
          nicParam.NicIndex ≠ 0 := hops _ (List.mem_cons_self _ _)
      cases alloc with
      | none =>
        obtain ⟨r, h1, hinv1, hnone⟩ :=
          HvCreateNic_phys_keeps env s nicParam none hmask hinv hphys (fun a h => by cases h)
        have hfresh1 : ∀ a ∈ allocsOf rest, r.2.mem a = none := fun a ha =>
          hnone a (hfresh a (by simpa [allocsOf] using ha)) (by simp)
        obtain ⟨s', hs', hinv'⟩ :=
          ih r.2 hinv1 hrest (by simpa [allocsOf] using hnodup) hfresh1
        exact ⟨s', by simp [runPhysNicOps, h1, hs'], hinv'⟩
      | some a =>
        simp only [allocsOf, List.nodup_cons] at hnodup
        obtain ⟨r, h1, hinv1, hnone⟩ :=
          HvCreateNic_phys_keeps env s nicParam (some a) hmask hinv hphys
            (fun b h => by cases h; exact hfresh a (by simp [allocsOf]))
        have hfresh1 : ∀ c ∈ allocsOf rest, r.2.mem c = none := by
          intro c hc
          refine hnone c (hfresh c (by simp [allocsOf, hc])) ?_
          intro h
          cases h
          exact hnodup.1 hc
        obtain ⟨s', hs', hinv'⟩ := ih r.2 hinv1 hrest hnodup.2 hfresh1
        exact ⟨s', by simp [runPhysNicOps, h1, hs'], hinv'⟩

/-- C10: starting from a store with an external singleton and physical-NIC count 0, every
sequence of physical-NIC create notifications (`HvCreateNic` with NicType External and
NicIndex ≠ 0) and NIC delete notifications (`HvDeleteNic`), in which the allocator never
hands out a block that is in use, runs to the end, and afterwards
`switchContext.numPhysicalNics` equals the number of entries linked in the port-id index
whose port type is External and whose nicIndex is non-zero. -/
theorem numPhysicalNics_counts_physical_nics (env : Env) (s0 : KernelState)
    (ops : List PhysNicOp)
    (hmask : env.OVS_VPORT_MASK < env.OVS_MAX_VPORT_ARRAY_SIZE)
    (hstart : PhysNicStart env s0)
    (hops : ∀ op ∈ ops, op.isPhysical)
    (hnodup : (allocsOf ops).Nodup)
    (hfresh : ∀ a ∈ allocsOf ops, s0.mem a = none) :
    ∃ s, runPhysNicOps env s0 ops = some s ∧
      s.switchContext.numPhysicalNics = (physNicsInIndex env s : Int) := by
  obtain ⟨s, hs, hinv⟩ := runPhysNicOps_keeps env hmask ops s0
    (PhysNicInv_of_start env s0 hstart) hops hnodup hfresh
  exact ⟨s, hs, hinv.count⟩

/-- C10, a worked instance: on the store holding the external port 20, the sequence
create NIC (20, 1), delete NIC (20, 1), create NIC (20, 2). -/
theorem numPhysicalNics_counts_physical_nics_witness :
    ∃ s, runPhysNicOps sampleEnv externalStore samplePhysNicOps = some s ∧
      s.switchContext.numPhysicalNics = (physNicsInIndex sampleEnv s : Int) :=
  numPhysicalNics_counts_physical_nics sampleEnv externalStore samplePhysNicOps
    (by decide)
    ⟨⟨1, _, rfl, rfl, rfl, rfl, rfl⟩, rfl, by decide, fun ai h => absurd (show (none : Option Nat) = some ai from h) (by simp),
      Or.inl rfl⟩
    (by
      intro op hop
      simp only [samplePhysNicOps, List.mem_cons, List.mem_singleton, List.not_mem_nil,
        or_false] at hop
      rcases hop with rfl | rfl | rfl <;> simp [PhysNicOp.isPhysical, sampleNic])
    (by decide) (by decide)

/-! ## The handlers after the lookup -/

theorem find_emit (env : Env) (s : KernelState) (e : Effect) (portId index : Nat) :
    OvsFindVportByPortIdAndNicIndex env (s.emit e) portId index =
      OvsFindVportByPortIdAndNicIndex env s portId index :=
  find_congr env s (s.emit e) portId index rfl rfl

/-- The handler `HvTeardownPort` when the lookup finds an allocated entry. -/
theorem HvTeardownPort_found (env : Env) (s : KernelState)
    (portParam : NDIS_SWITCH_PORT_PARAMETERS) (a : Nat) (e : OVS_VPORT_ENTRY)
    (hfind : OvsFindVportByPortIdAndNicIndex env s portParam.PortId 0 = some (some a))
    (hmem : s.mem a = some e) :
    HvTeardownPort env s portParam =
      some (((s.emit Effect.NdisAcquireRWLockWrite).store a { e with
        portState := NDIS_SWITCH_PORT_STATE.NdisSwitchPortStateTeardown
        ovsState := OVS_VPORT_STATE.OVS_STATE_PORT_TEAR_DOWN }).emit
          Effect.NdisReleaseRWLock) := by
  simp [HvTeardownPort, find_emit, hfind, hmem]

/-- The handler `HvConnectNic` on an activated store when the lookup finds an allocated
entry. -/
theorem HvConnectNic_found (env : Env) (s : KernelState)
    (nicParam : NDIS_SWITCH_NIC_PARAMETERS) (a : Nat) (e : OVS_VPORT_ENTRY)
    (hact : s.switchContext.isActivated = true)
    (hfind : OvsFindVportByPortIdAndNicIndex env s nicParam.PortId nicParam.NicIndex =
      some (some a))
    (hmem : s.mem a = some e) :
    HvConnectNic env s nicParam =
      some (
        if nicParam.NicType = NDIS_SWITCH_NIC_TYPE.NdisSwitchNicTypeInternal then
          ((((s.emit Effect.NdisAcquireRWLockWrite).store a { e with
            ovsState := OVS_VPORT_STATE.OVS_STATE_CONNECTED
            nicState := NDIS_SWITCH_NIC_STATE.NdisSwitchNicStateConnected }).emit
              Effect.NdisReleaseRWLock).emit
              (Effect.OvsPostEvent e.portNo OVS_EVENT_LINK_UP)).emit
              (Effect.OvsInternalAdapterUp e.portNo nicParam.NetCfgInstanceId)
        else
          (((s.emit Effect.NdisAcquireRWLockWrite).store a { e with
            ovsState := OVS_VPORT_STATE.OVS_STATE_CONNECTED
            nicState := NDIS_SWITCH_NIC_STATE.NdisSwitchNicStateConnected }).emit
              Effect.NdisReleaseRWLock).emit
              (Effect.OvsPostEvent e.portNo OVS_EVENT_LINK_UP)) := by
  simp only [HvConnectNic, OvsWaitActivate, hact, Bool.not_true, Bool.false_and,
    Bool.false_eq_true, if_false, find_emit, hfind, emit_mem, hmem]
  split <;> rfl

/-- The handler `HvDisconnectNic` on an activated store when the lookup finds an allocated
entry. -/
theorem HvDisconnectNic_found (env : Env) (s : KernelState)
    (nicParam : NDIS_SWITCH_NIC_PARAMETERS) (a : Nat) (e : OVS_VPORT_ENTRY)
    (hact : s.switchContext.isActivated = true)
    (hfind : OvsFindVportByPortIdAndNicIndex env s nicParam.PortId nicParam.NicIndex =
      some (some a))
    (hmem : s.mem a = some e) :
    HvDisconnectNic env s nicParam =
      some (
        if e.ovsType = OVS_VPORT_TYPE.OVS_VPORT_TYPE_INTERNAL then
          ((((s.emit Effect.NdisAcquireRWLockWrite).store a { e with
            nicState := NDIS_SWITCH_NIC_STATE.NdisSwitchNicStateDisconnected
            ovsState := OVS_VPORT_STATE.OVS_STATE_NIC_CREATED }).emit
              Effect.NdisReleaseRWLock).emit
              (Effect.OvsPostEvent e.portNo OVS_EVENT_LINK_DOWN)).emit
              Effect.OvsInternalAdapterDown
        else
          (((s.emit Effect.NdisAcquireRWLockWrite).store a { e with
            nicState := NDIS_SWITCH_NIC_STATE.NdisSwitchNicStateDisconnected
            ovsState := OVS_VPORT_STATE.OVS_STATE_NIC_CREATED }).emit
              Effect.NdisReleaseRWLock).emit
              (Effect.OvsPostEvent e.portNo OVS_EVENT_LINK_DOWN)) := by
  simp only [HvDisconnectNic, OvsWaitActivate, hact, Bool.not_true, Bool.false_and,
    Bool.false_eq_true, if_false, find_emit, hfind, emit_mem, hmem]
  by_cases h : e.ovsType = OVS_VPORT_TYPE.OVS_VPORT_TYPE_INTERNAL <;> simp [h]

/-- The handler `HvDeleteNic` on an activated store when the lookup finds an allocated
entry that is not a physical-NIC sub-entry. -/
theorem HvDeleteNic_found_generic (env : Env) (s : KernelState)
    (nicParam : NDIS_SWITCH_NIC_PARAMETERS) (a : Nat) (e : OVS_VPORT_ENTRY)
    (hact : s.switchContext.isActivated = true)
    (hfind : OvsFindVportByPortIdAndNicIndex env s nicParam.PortId nicParam.NicIndex =
      some (some a))
    (hmem : s.mem a = some e)
    (hgen : ¬ (e.portType = NDIS_SWITCH_PORT_TYPE.NdisSwitchPortTypeExternal ∧ e.nicIndex ≠ 0)) :
    HvDeleteNic env s nicParam =
      some ((((s.emit Effect.NdisAcquireRWLockWrite).store a { e with
        nicState := NDIS_SWITCH_NIC_STATE.NdisSwitchNicStateUnknown
        ovsState := OVS_VPORT_STATE.OVS_STATE_PORT_CREATED }).emit
          Effect.NdisReleaseRWLock).emit
          (Effect.OvsPostEvent e.portNo OVS_EVENT_DISCONNECT)) := by
  simp only [HvDeleteNic, OvsWaitActivate, hact, Bool.not_true, Bool.false_and,
    Bool.false_eq_true, if_false, find_emit, hfind, emit_mem, hmem, hgen]

/-- The handler `HvUpdateNic` on an activated store when the lookup finds an allocated
entry. -/
theorem HvUpdateNic_found (env : Env) (s : KernelState)
    (nicParam : NDIS_SWITCH_NIC_PARAMETERS) (a : Nat) (e : OVS_VPORT_ENTRY)
    (hact : s.switchContext.isActivated = true)
    (hfind : OvsFindVportByPortIdAndNicIndex env s nicParam.PortId nicParam.NicIndex =
      some (some a))
    (hmem : s.mem a = some e) :
    HvUpdateNic env s nicParam =
      some (
        if (HvUpdateNic_fields e nicParam).2 ≠ 0 ∧ (HvUpdateNic_fields e nicParam).1.portNo ≠ 0
        then
          (((s.emit Effect.NdisAcquireRWLockWrite).store a
            (HvUpdateNic_fields e nicParam).1).emit Effect.NdisReleaseRWLock).emit
            (Effect.OvsPostEvent (HvUpdateNic_fields e nicParam).1.portNo
              (HvUpdateNic_fields e nicParam).2)
        else
          ((s.emit Effect.NdisAcquireRWLockWrite).store a
            (HvUpdateNic_fields e nicParam).1).emit Effect.NdisReleaseRWLock) := by
  simp only [HvUpdateNic, OvsWaitActivate, hact, Bool.not_true, Bool.false_and,
    Bool.false_eq_true, if_false, find_emit, hfind, emit_mem, hmem]
  split <;> rfl

theorem emit_emit_eq (s : KernelState) (e1 e2 : Effect) :
    (s.emit e1).emit e2 = { s with trace := s.trace ++ [e1, e2] } := by
  simp [KernelState.emit]

theorem emit_eq (s : KernelState) (e1 : Effect) :
    s.emit e1 = { s with trace := s.trace ++ [e1] } := rfl

/-! ## The handlers when the lookup finds nothing -/

theorem HvTeardownPort_notfound (env : Env) (s : KernelState)
    (portParam : NDIS_SWITCH_PORT_PARAMETERS)
    (h : OvsFindVportByPortIdAndNicIndex env s portParam.PortId 0 = some none) :
    HvTeardownPort env s portParam =
      some { s with trace := s.trace ++
        [Effect.NdisAcquireRWLockWrite, Effect.NdisReleaseRWLock] } := by
  simp only [HvTeardownPort, find_emit, h]
  simp [KernelState.emit]

theorem HvDeletePort_notfound (env : Env) (s : KernelState)
    (portParam : NDIS_SWITCH_PORT_PARAMETERS)
    (h : OvsFindVportByPortIdAndNicIndex env s portParam.PortId 0 = some none) :
    HvDeletePort env s portParam =
      some { s with trace := s.trace ++
        [Effect.NdisAcquireRWLockWrite, Effect.NdisReleaseRWLock] } := by
  simp only [HvDeletePort, find_emit, h]
  simp [KernelState.emit]

theorem HvCreateNic_notfound (env : Env) (s : KernelState)
    (nicParam : NDIS_SWITCH_NIC_PARAMETERS) (alloc : Option Nat)
    (hact : s.switchContext.isActivated = true)
    (h : OvsFindVportByPortIdAndNicIndex env s nicParam.PortId 0 = some none) :
    HvCreateNic env s nicParam alloc =
      some (NDIS_STATUS.NDIS_STATUS_INVALID_PARAMETER,
        { s with trace := s.trace ++
          [Effect.NdisAcquireRWLockWrite, Effect.NdisReleaseRWLock] }) := by
  simp only [HvCreateNic, OvsWaitActivate, hact, Bool.not_true, Bool.false_and,
    Bool.false_eq_true, if_false, find_emit, h]
  simp [HvCreateNic_done, KernelState.emit, OVS_DPPORT_NUMBER_INVALID]

theorem HvConnectNic_notfound (env : Env) (s : KernelState)
    (nicParam : NDIS_SWITCH_NIC_PARAMETERS)
    (hact : s.switchContext.isActivated = true)
    (h : OvsFindVportByPortIdAndNicIndex env s nicParam.PortId nicParam.NicIndex =
      some none) :
    HvConnectNic env s nicParam =
      some { s with trace := s.trace ++
        [Effect.NdisAcquireRWLockWrite, Effect.NdisReleaseRWLock, Effect.AssertFailed] } := by
  simp only [HvConnectNic, OvsWaitActivate, hact, Bool.not_true, Bool.false_and,
    Bool.false_eq_true, if_false, find_emit, h]
  simp [KernelState.emit, ASSERT]

theorem HvUpdateNic_notfound (env : Env) (s : KernelState)
    (nicParam : NDIS_SWITCH_NIC_PARAMETERS)
    (hact : s.switchContext.isActivated = true)
    (h : OvsFindVportByPortIdAndNicIndex env s nicParam.PortId nicParam.NicIndex =
      some none) :
    HvUpdateNic env s nicParam =
      some { s with trace := s.trace ++ [Effect.NdisAcquireRWLockWrite] } := by
  simp only [HvUpdateNic, OvsWaitActivate, hact, Bool.not_true, Bool.false_and,
    Bool.false_eq_true, if_false, find_emit, h]
  simp [KernelState.emit]

theorem HvDisconnectNic_notfound (env : Env) (s : KernelState)
    (nicParam : NDIS_SWITCH_NIC_PARAMETERS)
    (hact : s.switchContext.isActivated = true)
    (h : OvsFindVportByPortIdAndNicIndex env s nicParam.PortId nicParam.NicIndex =
      some none) :
    HvDisconnectNic env s nicParam =
      some { s with trace := s.trace ++
        [Effect.NdisAcquireRWLockWrite, Effect.NdisReleaseRWLock] } := by
  simp only [HvDisconnectNic, OvsWaitActivate, hact, Bool.not_true, Bool.false_and,
    Bool.false_eq_true, if_false, find_emit, h]
  simp [KernelState.emit]

theorem HvDeleteNic_notfound (env : Env) (s : KernelState)
    (nicParam : NDIS_SWITCH_NIC_PARAMETERS)
    (hact : s.switchContext.isActivated = true)
    (h : OvsFindVportByPortIdAndNicIndex env s nicParam.PortId nicParam.NicIndex =
      some none) :
    HvDeleteNic env s nicParam =
      some { s with trace := s.trace ++
        [Effect.NdisAcquireRWLockWrite, Effect.NdisReleaseRWLock] } := by
  simp only [HvDeleteNic, OvsWaitActivate, hact, Bool.not_true, Bool.false_and,
    Bool.false_eq_true, if_false, find_emit, h]
  simp [KernelState.emit]

/-! ## Claims about the delete of the external singleton, connect, disconnect, NIC delete
and teardown -/

/-- C11 (amended): for every store in which the physical-NIC count is non-zero, deleting
the external singleton (`HvDeletePort` with the external port id, the external slot
holding an allocated external port-level entry) runs into the failing assertion
`ASSERT(switchContext->numPhysicalNics == 0)`; the delete is not rejected: past the
assertion the external slot is emptied and its recorded id set to 0, the entry is freed,
and every other entry, index, slot and counter is left as it was. -/
theorem HvDeletePort_external_with_nics (env : Env) (s : KernelState)
    (portParam : NDIS_SWITCH_PORT_PARAMETERS) (a : Nat) (e : OVS_VPORT_ENTRY)
    (hslot : s.switchContext.externalVport = some a)
    (hid : portParam.PortId = s.switchContext.externalPortId)
    (hmem : s.mem a = some e)
    (hext : e.isExternal = true) (hidx : e.nicIndex = 0)
    (hcount : s.switchContext.numPhysicalNics ≠ 0) :
    ∃ s', HvDeletePort env s portParam = some s' ∧
      s'.trace = s.trace ++
        [Effect.NdisAcquireRWLockWrite, Effect.AssertFailed, Effect.NdisReleaseRWLock] ∧
      s'.switchContext =
        { s.switchContext with externalPortId := 0, externalVport := none } ∧
      s'.mem a = none ∧ ∀ c, c ≠ a → s'.mem c = s.mem c := by
  have hfind : OvsFindVportByPortIdAndNicIndex env s portParam.PortId 0 = some (some a) := by
    simp [OvsFindVportByPortIdAndNicIndex, hid, hslot]
  rw [HvDeletePort_found env s portParam a hfind]
  simp only [OvsRemoveAndDeleteVport, emit_mem, hmem, hext, hidx, and_self, if_true,
    emit_switchContext, hcount, decide_False, Option.map_some']
  refine ⟨_, rfl, ?_, ?_, ?_, ?_⟩
  · simp [ASSERT]
  · simp
  · simp
  · intro c hc
    simp [free_mem, hc]

/-- C11, a worked instance: the external port 20 with one physical NIC attached. -/
theorem HvDeletePort_external_with_nics_witness :
    ∃ s', HvDeletePort sampleEnv physNicStore
        (samplePort 20 NDIS_SWITCH_PORT_TYPE.NdisSwitchPortTypeExternal
          NDIS_SWITCH_PORT_STATE.NdisSwitchPortStateCreated) = some s' ∧
      s'.trace = physNicStore.trace ++
        [Effect.NdisAcquireRWLockWrite, Effect.AssertFailed, Effect.NdisReleaseRWLock] ∧
      s'.switchContext =
        { physNicStore.switchContext with externalPortId := 0, externalVport := none } ∧
      s'.mem 1 = none ∧ ∀ c, c ≠ 1 → s'.mem c = physNicStore.mem c :=
  HvDeletePort_external_with_nics sampleEnv physNicStore
    (samplePort 20 NDIS_SWITCH_PORT_TYPE.NdisSwitchPortTypeExternal
      NDIS_SWITCH_PORT_STATE.NdisSwitchPortStateCreated) 1 _ rfl rfl rfl rfl rfl (by decide)

/-- C11 fails as stated: with the external port 20 in the external slot (address 1) and
`numPhysicalNics` equal to 1, `HvDeletePort` for port 20 is not rejected; it records the
failed assertion, empties the external slot and frees the entry. -/
theorem HvDeletePort_external_with_nics_not_rejected :
    physNicStore.switchContext.externalVport = some 1 ∧
    physNicStore.switchContext.externalPortId = 20 ∧
    physNicStore.switchContext.numPhysicalNics = 1 ∧
    (HvDeletePort sampleEnv physNicStore
        (samplePort 20 NDIS_SWITCH_PORT_TYPE.NdisSwitchPortTypeExternal
          NDIS_SWITCH_PORT_STATE.NdisSwitchPortStateCreated)).map
      (fun s' => (s'.switchContext.externalVport, (s'.mem 1).isSome,
        decide (Effect.AssertFailed ∈ s'.trace))) = some (none, false, true) := by
  decide

/-- C12 (amended): for every activated store in which `OvsFindVportByPortIdAndNicIndex`
finds an allocated entry e for the identity of the notification, `HvConnectNic` sets the
state of e to Connected (and its NIC state to Connected), posts exactly one LinkUp event
carrying the port number of e, changes no other entry and nothing in the switch context,
and issues the internal-adapter-up notification if and only if the NIC type of the
notification is Internal. -/
theorem HvConnectNic_connects (env : Env) (s : KernelState)
    (nicParam : NDIS_SWITCH_NIC_PARAMETERS) (a : Nat) (e : OVS_VPORT_ENTRY)
    (hact : s.switchContext.isActivated = true)
    (hfind : OvsFindVportByPortIdAndNicIndex env s nicParam.PortId nicParam.NicIndex =
      some (some a))
    (hmem : s.mem a = some e) :
    ∃ s', HvConnectNic env s nicParam = some s' ∧
      s'.mem a = some { e with
        ovsState := OVS_VPORT_STATE.OVS_STATE_CONNECTED
        nicState := NDIS_SWITCH_NIC_STATE.NdisSwitchNicStateConnected } ∧
      (∀ c, c ≠ a → s'.mem c = s.mem c) ∧
      s'.switchContext = s.switchContext ∧
      s'.trace = s.trace ++
        [Effect.NdisAcquireRWLockWrite, Effect.NdisReleaseRWLock,
         Effect.OvsPostEvent e.portNo OVS_EVENT_LINK_UP] ++
        (if nicParam.NicType = NDIS_SWITCH_NIC_TYPE.NdisSwitchNicTypeInternal then
          [Effect.OvsInternalAdapterUp e.portNo nicParam.NetCfgInstanceId]
         else []) := by
  rw [HvConnectNic_found env s nicParam a e hact hfind hmem]
  by_cases hT : nicParam.NicType = NDIS_SWITCH_NIC_TYPE.NdisSwitchNicTypeInternal
  · simp only [hT, if_true]
    exact ⟨_, rfl, by simp, fun c hc => by simp [store_mem, hc], by simp, by simp⟩
  · simp only [hT, if_false]
    exact ⟨_, rfl, by simp, fun c hc => by simp [store_mem, hc], by simp, by simp⟩

/-- C12, a worked instance: the internal port 10 with port number 5 is connected by a
notification of NIC type Internal. -/
theorem HvConnectNic_connects_witness :
    ∃ s', HvConnectNic sampleEnv numberedInternalStore
        (sampleNic 10 0 NDIS_SWITCH_NIC_TYPE.NdisSwitchNicTypeInternal
          NDIS_SWITCH_NIC_STATE.NdisSwitchNicStateConnected) = some s' ∧
      (s'.mem 1).map (fun e => (e.ovsState, e.nicState, e.portNo)) =
        some (OVS_VPORT_STATE.OVS_STATE_CONNECTED,
          NDIS_SWITCH_NIC_STATE.NdisSwitchNicStateConnected, 5) ∧
      s'.trace = numberedInternalStore.trace ++
        [Effect.NdisAcquireRWLockWrite, Effect.NdisReleaseRWLock,
         Effect.OvsPostEvent 5 OVS_EVENT_LINK_UP, Effect.OvsInternalAdapterUp 5 []] := by
  obtain ⟨s', h, hm, _, _, ht⟩ := HvConnectNic_connects sampleEnv numberedInternalStore
    (sampleNic 10 0 NDIS_SWITCH_NIC_TYPE.NdisSwitchNicTypeInternal
      NDIS_SWITCH_NIC_STATE.NdisSwitchNicStateConnected) 1 _ rfl (by decide) rfl
  exact ⟨s', h, by rw [hm]; rfl, by rw [ht]; rfl⟩

/-- C12 fails as stated when the NIC type of the notification differs from the kind of
the entry: the entry of port 10 is of Internal kind, a connect notification of NIC type
Synthetic for (10, 0) sets it to Connected and posts the LinkUp event, but no
internal-adapter-up notification is issued. -/
theorem HvConnectNic_internal_entry_without_adapter_up :
    OvsFindVportByPortIdAndNicIndex sampleEnv numberedInternalStore 10 0 = some (some 1) ∧
    (numberedInternalStore.mem 1).map (fun e => e.ovsType) =
      some OVS_VPORT_TYPE.OVS_VPORT_TYPE_INTERNAL ∧
    (HvConnectNic sampleEnv numberedInternalStore
        (sampleNic 10 0 NDIS_SWITCH_NIC_TYPE.NdisSwitchNicTypeSynthetic
          NDIS_SWITCH_NIC_STATE.NdisSwitchNicStateConnected)).map
      (fun s' => ((s'.mem 1).map (fun e => e.ovsState), s'.trace)) =
      some (some OVS_VPORT_STATE.OVS_STATE_CONNECTED,
        [Effect.NdisAcquireRWLockWrite, Effect.NdisReleaseRWLock,
         Effect.NdisAcquireRWLockWrite, Effect.NdisReleaseRWLock,
         Effect.OvsPostEvent 5 OVS_EVENT_LINK_UP]) := by
  decide

/-- C13: for every activated store in which an allocated entry e is found for the identity
of the notification, `HvDisconnectNic` sets the state of e to NicCreated whatever state it
was in (and its NIC state to Disconnected), leaves the switch context, hence every index
and slot, and every other entry as they were, posts exactly one LinkDown event carrying
the port number of e, and issues the internal-adapter-down notification if and only if
the kind of e is Internal. -/
theorem HvDisconnectNic_disconnects (env : Env) (s : KernelState)
    (nicParam : NDIS_SWITCH_NIC_PARAMETERS) (a : Nat) (e : OVS_VPORT_ENTRY)
    (hact : s.switchContext.isActivated = true)
    (hfind : OvsFindVportByPortIdAndNicIndex env s nicParam.PortId nicParam.NicIndex =
      some (some a))
    (hmem : s.mem a = some e) :
    ∃ s', HvDisconnectNic env s nicParam = some s' ∧
      s'.mem a = some { e with
        nicState := NDIS_SWITCH_NIC_STATE.NdisSwitchNicStateDisconnected
        ovsState := OVS_VPORT_STATE.OVS_STATE_NIC_CREATED } ∧
      (∀ c, c ≠ a → s'.mem c = s.mem c) ∧
      s'.switchContext = s.switchContext ∧
      s'.trace = s.trace ++
        [Effect.NdisAcquireRWLockWrite, Effect.NdisReleaseRWLock,
         Effect.OvsPostEvent e.portNo OVS_EVENT_LINK_DOWN] ++
        (if e.ovsType = OVS_VPORT_TYPE.OVS_VPORT_TYPE_INTERNAL then
          [Effect.OvsInternalAdapterDown]
         else []) := by
  rw [HvDisconnectNic_found env s nicParam a e hact hfind hmem]
  by_cases hT : e.ovsType = OVS_VPORT_TYPE.OVS_VPORT_TYPE_INTERNAL
  · simp only [hT, if_true]
    exact ⟨_, rfl, by simp, fun c hc => by simp [store_mem, hc], by simp, by simp⟩
  · simp only [hT, if_false]
    exact ⟨_, rfl, by simp, fun c hc => by simp [store_mem, hc], by simp, by simp⟩

/-- C13, a worked instance: the internal port 10 with port number 5, connected and then
disconnected. -/
theorem HvDisconnectNic_disconnects_witness :
    ∃ s', HvDisconnectNic sampleEnv connectedInternalStore
        (sampleNic 10 0 NDIS_SWITCH_NIC_TYPE.NdisSwitchNicTypeInternal
          NDIS_SWITCH_NIC_STATE.NdisSwitchNicStateDisconnected) = some s' ∧
      (connectedInternalStore.mem 1).map (fun e => e.ovsState) =
        some OVS_VPORT_STATE.OVS_STATE_CONNECTED ∧
      (s'.mem 1).map (fun e => (e.ovsState, e.nicState, e.portNo)) =
        some (OVS_VPORT_STATE.OVS_STATE_NIC_CREATED,
          NDIS_SWITCH_NIC_STATE.NdisSwitchNicStateDisconnected, 5) ∧
      s'.switchContext = connectedInternalStore.switchContext ∧
      s'.trace = connectedInternalStore.trace ++
        [Effect.NdisAcquireRWLockWrite, Effect.NdisReleaseRWLock,
         Effect.OvsPostEvent 5 OVS_EVENT_LINK_DOWN, Effect.OvsInternalAdapterDown] := by
  obtain ⟨s', h, hm, _, hc, ht⟩ := HvDisconnectNic_disconnects sampleEnv
    connectedInternalStore
    (sampleNic 10 0 NDIS_SWITCH_NIC_TYPE.NdisSwitchNicTypeInternal
      NDIS_SWITCH_NIC_STATE.NdisSwitchNicStateDisconnected) 1 _ rfl (by decide) rfl
  exact ⟨s', h, by decide, by rw [hm]; rfl, hc, by rw [ht]; rfl⟩

/-- C14: for every activated store in which an allocated entry e that is not a
physical-NIC sub-entry (not of port type External with a non-zero nicIndex) is found for
the identity of the notification, `HvDeleteNic` sets the state of e to PortCreated (and
its NIC state to Unknown), leaves the switch context, hence every index and slot, and
every other entry as they were, and posts exactly one Disconnect event carrying the port
number of e. -/
theorem HvDeleteNic_generic (env : Env) (s : KernelState)
    (nicParam : NDIS_SWITCH_NIC_PARAMETERS) (a : Nat) (e : OVS_VPORT_ENTRY)
    (hact : s.switchContext.isActivated = true)
    (hfind : OvsFindVportByPortIdAndNicIndex env s nicParam.PortId nicParam.NicIndex =
      some (some a))
    (hmem : s.mem a = some e)
    (hgen : ¬ (e.portType = NDIS_SWITCH_PORT_TYPE.NdisSwitchPortTypeExternal ∧
      e.nicIndex ≠ 0)) :
    ∃ s', HvDeleteNic env s nicParam = some s' ∧
      s'.mem a = some { e with
        nicState := NDIS_SWITCH_NIC_STATE.NdisSwitchNicStateUnknown
        ovsState := OVS_VPORT_STATE.OVS_STATE_PORT_CREATED } ∧
      (∀ c, c ≠ a → s'.mem c = s.mem c) ∧
      s'.switchContext = s.switchContext ∧
      s'.trace = s.trace ++
        [Effect.NdisAcquireRWLockWrite, Effect.NdisReleaseRWLock,
         Effect.OvsPostEvent e.portNo OVS_EVENT_DISCONNECT] := by
  rw [HvDeleteNic_found_generic env s nicParam a e hact hfind hmem hgen]
  exact ⟨_, rfl, by simp, fun c hc => by simp [store_mem, hc], by simp, by simp⟩

/-- C14, a worked instance: the NIC of the connected internal port 10 with port number 5
is deleted. -/
theorem HvDeleteNic_generic_witness :
    ∃ s', HvDeleteNic sampleEnv connectedInternalStore
        (sampleNic 10 0 NDIS_SWITCH_NIC_TYPE.NdisSwitchNicTypeInternal
          NDIS_SWITCH_NIC_STATE.NdisSwitchNicStateDeleted) = some s' ∧
      (s'.mem 1).map (fun e => (e.ovsState, e.nicState, e.portNo)) =
        some (OVS_VPORT_STATE.OVS_STATE_PORT_CREATED,
          NDIS_SWITCH_NIC_STATE.NdisSwitchNicStateUnknown, 5) ∧
      s'.switchContext = connectedInternalStore.switchContext ∧
      s'.trace = connectedInternalStore.trace ++
        [Effect.NdisAcquireRWLockWrite, Effect.NdisReleaseRWLock,
         Effect.OvsPostEvent 5 OVS_EVENT_DISCONNECT] := by
  obtain ⟨s', h, hm, _, hc, ht⟩ := HvDeleteNic_generic sampleEnv connectedInternalStore
    (sampleNic 10 0 NDIS_SWITCH_NIC_TYPE.NdisSwitchNicTypeInternal
      NDIS_SWITCH_NIC_STATE.NdisSwitchNicStateDeleted) 1 _ rfl (by decide) rfl (by decide)
  exact ⟨s', h, by rw [hm]; rfl, hc, ht⟩

/-- C15: for every store in which an allocated entry e is found for (P, 0),
`HvTeardownPort` with port id P sets the state of e to PortTearDown whatever state it was
in (and its port state to Teardown), changes no other field of e, in particular none of
`portId`, `nicIndex`, `portNo`, `ovsName` and `ovsNameLen`, changes no other entry and
nothing in the switch context (no index, slot or counter), and posts no event: the trace
grows by the acquire and the release of the lock only. -/
theorem HvTeardownPort_tears_down (env : Env) (s : KernelState)
    (portParam : NDIS_SWITCH_PORT_PARAMETERS) (a : Nat) (e : OVS_VPORT_ENTRY)
    (hfind : OvsFindVportByPortIdAndNicIndex env s portParam.PortId 0 = some (some a))
    (hmem : s.mem a = some e) :
    ∃ s' e', HvTeardownPort env s portParam = some s' ∧
      s'.mem a = some e' ∧
      e' = { e with
        portState := NDIS_SWITCH_PORT_STATE.NdisSwitchPortStateTeardown
        ovsState := OVS_VPORT_STATE.OVS_STATE_PORT_TEAR_DOWN } ∧
      e'.ovsState = OVS_VPORT_STATE.OVS_STATE_PORT_TEAR_DOWN ∧
      e'.portId = e.portId ∧ e'.nicIndex = e.nicIndex ∧ e'.portNo = e.portNo ∧
      e'.ovsName = e.ovsName ∧ e'.ovsNameLen = e.ovsNameLen ∧
      (∀ c, c ≠ a → s'.mem c = s.mem c) ∧
      s'.switchContext = s.switchContext ∧
      s'.trace = s.trace ++ [Effect.NdisAcquireRWLockWrite, Effect.NdisReleaseRWLock] := by
  rw [HvTeardownPort_found env s portParam a e hfind hmem]
  exact ⟨_, _, rfl, by simp, rfl, rfl, rfl, rfl, rfl, rfl, rfl,
    fun c hc => by simp [store_mem, hc], by simp, by simp⟩

/-- C15, a worked instance: teardown of the connected internal port 10. -/
theorem HvTeardownPort_tears_down_witness :
    ∃ s', HvTeardownPort sampleEnv connectedInternalStore
        (samplePort 10 NDIS_SWITCH_PORT_TYPE.NdisSwitchPortTypeInternal
          NDIS_SWITCH_PORT_STATE.NdisSwitchPortStateTeardown) = some s' ∧
      (connectedInternalStore.mem 1).map (fun e => e.ovsState) =
        some OVS_VPORT_STATE.OVS_STATE_CONNECTED ∧
      (s'.mem 1).map (fun e => (e.ovsState, e.portId, e.nicIndex, e.portNo)) =
        some (OVS_VPORT_STATE.OVS_STATE_PORT_TEAR_DOWN, 10, 0, 5) ∧
      s'.switchContext = connectedInternalStore.switchContext ∧
      s'.trace = connectedInternalStore.trace ++
        [Effect.NdisAcquireRWLockWrite, Effect.NdisReleaseRWLock] := by
  obtain ⟨s', e', h, hm, he, _, _, _, _, _, _, _, hc, ht⟩ :=
    HvTeardownPort_tears_down sampleEnv connectedInternalStore
      (samplePort 10 NDIS_SWITCH_PORT_TYPE.NdisSwitchPortTypeInternal
        NDIS_SWITCH_PORT_STATE.NdisSwitchPortStateTeardown) 1 _ (by decide) rfl
  exact ⟨s', h, by decide, by rw [hm, he]; rfl, hc, ht⟩

/-! ## Claims about `HvUpdateNic` -/

/-- C18: for every activated store and each of `HvTeardownPort`, `HvDeletePort`,
`HvCreateNic`, `HvConnectNic`, `HvUpdateNic`, `HvDisconnectNic` and `HvDeleteNic`: when
the lookup the handler makes with `OvsFindVportByPortIdAndNicIndex` (for the port id and
index 0 in the port handlers and in `HvCreateNic`, for the port id and NIC index in the
other NIC handlers) finds no entry, the handler returns a store with the same switch
context (every index, singleton slot and counter) and the same entries, and the trace
grows by lock operations (and, in `HvConnectNic`, the assertion) only: no event is
posted. -/
theorem unknown_identity_ignored (env : Env) (s : KernelState)
    (portParam : NDIS_SWITCH_PORT_PARAMETERS) (nicParam : NDIS_SWITCH_NIC_PARAMETERS)
    (alloc : Option Nat)
    (hact : s.switchContext.isActivated = true) :
    (OvsFindVportByPortIdAndNicIndex env s portParam.PortId 0 = some none →
      HvTeardownPort env s portParam =
        some { s with trace := s.trace ++
          [Effect.NdisAcquireRWLockWrite, Effect.NdisReleaseRWLock] } ∧
      HvDeletePort env s portParam =
        some { s with trace := s.trace ++
          [Effect.NdisAcquireRWLockWrite, Effect.NdisReleaseRWLock] }) ∧
    (OvsFindVportByPortIdAndNicIndex env s nicParam.PortId 0 = some none →
      HvCreateNic env s nicParam alloc =
        some (NDIS_STATUS.NDIS_STATUS_INVALID_PARAMETER,
          { s with trace := s.trace ++
            [Effect.NdisAcquireRWLockWrite, Effect.NdisReleaseRWLock] })) ∧
    (OvsFindVportByPortIdAndNicIndex env s nicParam.PortId nicParam.NicIndex = some none →
      HvConnectNic env s nicParam =
        some { s with trace := s.trace ++
          [Effect.NdisAcquireRWLockWrite, Effect.NdisReleaseRWLock,
           Effect.AssertFailed] } ∧
      HvUpdateNic env s nicParam =
        some { s with trace := s.trace ++ [Effect.NdisAcquireRWLockWrite] } ∧
      HvDisconnectNic env s nicParam =
        some { s with trace := s.trace ++
          [Effect.NdisAcquireRWLockWrite, Effect.NdisReleaseRWLock] } ∧
      HvDeleteNic env s nicParam =
        some { s with trace := s.trace ++
          [Effect.NdisAcquireRWLockWrite, Effect.NdisReleaseRWLock] }) :=
  ⟨fun h => ⟨HvTeardownPort_notfound env s portParam h,
      HvDeletePort_notfound env s portParam h⟩,
    fun h => HvCreateNic_notfound env s nicParam alloc hact h,
    fun h => ⟨HvConnectNic_notfound env s nicParam hact h,
      HvUpdateNic_notfound env s nicParam hact h,
      HvDisconnectNic_notfound env s nicParam hact h,
      HvDeleteNic_notfound env s nicParam hact h⟩⟩

/-- C18, a worked instance: notifications for port 30 and NIC (30, 0) on the store that
holds port 10 only. -/
theorem unknown_identity_ignored_witness :
    HvTeardownPort sampleEnv portTenStore
        (samplePort 30 NDIS_SWITCH_PORT_TYPE.NdisSwitchPortTypeSynthetic
          NDIS_SWITCH_PORT_STATE.NdisSwitchPortStateTeardown) =
      some { portTenStore with trace := portTenStore.trace ++
        [Effect.NdisAcquireRWLockWrite, Effect.NdisReleaseRWLock] } ∧
    HvDeleteNic sampleEnv portTenStore
        (sampleNic 30 0 NDIS_SWITCH_NIC_TYPE.NdisSwitchNicTypeSynthetic
          NDIS_SWITCH_NIC_STATE.NdisSwitchNicStateDeleted) =
      some { portTenStore with trace := portTenStore.trace ++
        [Effect.NdisAcquireRWLockWrite, Effect.NdisReleaseRWLock] } :=
  have h := unknown_identity_ignored sampleEnv portTenStore
    (samplePort 30 NDIS_SWITCH_PORT_TYPE.NdisSwitchPortTypeSynthetic
      NDIS_SWITCH_PORT_STATE.NdisSwitchPortStateTeardown)
    (sampleNic 30 0 NDIS_SWITCH_NIC_TYPE.NdisSwitchNicTypeSynthetic
      NDIS_SWITCH_NIC_STATE.NdisSwitchNicStateDeleted) none rfl
  ⟨(h.1 (by decide)).1, (h.2.2 (by decide)).2.2.2⟩

/-- C19 (amended): for every activated store with no entry for the identity the handler
looks up, each of `HvTeardownPort`, `HvDeletePort`, `HvCreateNic`, `HvUpdateNic`,
`HvDisconnectNic` and `HvDeleteNic` returns and the part of the trace it adds holds no
failed assertion; `HvConnectNic` returns too, but after releasing the lock it reaches the
failing assertion `ASSERT(0)`. -/
theorem unknown_identity_assertions (env : Env) (s : KernelState)
    (portParam : NDIS_SWITCH_PORT_PARAMETERS) (nicParam : NDIS_SWITCH_NIC_PARAMETERS)
    (alloc : Option Nat)
    (hact : s.switchContext.isActivated = true) :
    (OvsFindVportByPortIdAndNicIndex env s portParam.PortId 0 = some none →
      (∃ s' t, HvTeardownPort env s portParam = some s' ∧ s'.trace = s.trace ++ t ∧
        Effect.AssertFailed ∉ t) ∧
      (∃ s' t, HvDeletePort env s portParam = some s' ∧ s'.trace = s.trace ++ t ∧
        Effect.AssertFailed ∉ t)) ∧
    (OvsFindVportByPortIdAndNicIndex env s nicParam.PortId 0 = some none →
      ∃ r t, HvCreateNic env s nicParam alloc = some r ∧ r.2.trace = s.trace ++ t ∧
        Effect.AssertFailed ∉ t) ∧
    (OvsFindVportByPortIdAndNicIndex env s nicParam.PortId nicParam.NicIndex = some none →
      (∃ s' t, HvUpdateNic env s nicParam = some s' ∧ s'.trace = s.trace ++ t ∧
        Effect.AssertFailed ∉ t) ∧
      (∃ s' t, HvDisconnectNic env s nicParam = some s' ∧ s'.trace = s.trace ++ t ∧
        Effect.AssertFailed ∉ t) ∧
      (∃ s' t, HvDeleteNic env s nicParam = some s' ∧ s'.trace = s.trace ++ t ∧
        Effect.AssertFailed ∉ t) ∧
      (∃ s', HvConnectNic env s nicParam = some s' ∧
        s'.trace = s.trace ++
          [Effect.NdisAcquireRWLockWrite, Effect.NdisReleaseRWLock,
           Effect.AssertFailed])) :=
  ⟨fun h => ⟨⟨_, _, HvTeardownPort_notfound env s portParam h, rfl, by decide⟩,
      ⟨_, _, HvDeletePort_notfound env s portParam h, rfl, by decide⟩⟩,
    fun h => ⟨_, _, HvCreateNic_notfound env s nicParam alloc hact h, rfl, by decide⟩,
    fun h => ⟨⟨_, _, HvUpdateNic_notfound env s nicParam hact h, rfl, by decide⟩,
      ⟨_, _, HvDisconnectNic_notfound env s nicParam hact h, rfl, by decide⟩,
      ⟨_, _, HvDeleteNic_notfound env s nicParam hact h, rfl, by decide⟩,
      ⟨_, HvConnectNic_notfound env s nicParam hact h, rfl⟩⟩⟩

/-- C19, a worked instance: NIC notifications for (30, 0) on the store that holds port 10
only; `HvDisconnectNic` adds no failed assertion, `HvConnectNic` adds one. -/
theorem unknown_identity_assertions_witness :
    (∃ s' t, HvDisconnectNic sampleEnv portTenStore
        (sampleNic 30 0 NDIS_SWITCH_NIC_TYPE.NdisSwitchNicTypeSynthetic
          NDIS_SWITCH_NIC_STATE.NdisSwitchNicStateConnected) = some s' ∧
      s'.trace = portTenStore.trace ++ t ∧ Effect.AssertFailed ∉ t) ∧
    (∃ s', HvConnectNic sampleEnv portTenStore
        (sampleNic 30 0 NDIS_SWITCH_NIC_TYPE.NdisSwitchNicTypeSynthetic
          NDIS_SWITCH_NIC_STATE.NdisSwitchNicStateConnected) = some s' ∧
      s'.trace = portTenStore.trace ++
        [Effect.NdisAcquireRWLockWrite, Effect.NdisReleaseRWLock, Effect.AssertFailed]) :=
  have h := unknown_identity_assertions sampleEnv portTenStore
    (samplePort 30 NDIS_SWITCH_PORT_TYPE.NdisSwitchPortTypeSynthetic
      NDIS_SWITCH_PORT_STATE.NdisSwitchPortStateTeardown)
    (sampleNic 30 0 NDIS_SWITCH_NIC_TYPE.NdisSwitchNicTypeSynthetic
      NDIS_SWITCH_NIC_STATE.NdisSwitchNicStateConnected) none rfl
  ⟨(h.2.2 (by decide)).2.1, (h.2.2 (by decide)).2.2.2⟩

/-- C19 fails as stated for `HvConnectNic`: on the activated empty store the lookup of
(10, 0) finds nothing and `HvConnectNic` for (10, 0) records a failed assertion. -/
theorem HvConnectNic_unknown_identity_asserts :
    emptyState.switchContext.isActivated = true ∧
    OvsFindVportByPortIdAndNicIndex sampleEnv emptyState 10 0 = some none ∧
    (HvConnectNic sampleEnv emptyState
        (sampleNic 10 0 NDIS_SWITCH_NIC_TYPE.NdisSwitchNicTypeSynthetic
          NDIS_SWITCH_NIC_STATE.NdisSwitchNicStateConnected)).map (fun s' => s'.trace) =
      some [Effect.NdisAcquireRWLockWrite, Effect.NdisReleaseRWLock,
        Effect.AssertFailed] := by
  decide

/-- C20: for every store with `isActivated` false and `isActivateFailed` true, each of
`HvCreateNic`, `HvConnectNic`, `HvUpdateNic`, `HvDisconnectNic` and `HvDeleteNic` returns
the store exactly as it was (no entry, index, slot or counter changed, nothing added to
the trace, so no event posted and no lock taken), and `HvCreateNic` returns the status
`NDIS_STATUS_NOT_SUPPORTED`. -/
theorem activation_failed_ignored (env : Env) (s : KernelState)
    (nicParam : NDIS_SWITCH_NIC_PARAMETERS) (alloc : Option Nat)
    (hact : s.switchContext.isActivated = false)
    (hfail : s.switchContext.isActivateFailed = true) :
    HvCreateNic env s nicParam alloc = some (NDIS_STATUS.NDIS_STATUS_NOT_SUPPORTED, s) ∧
    HvConnectNic env s nicParam = some s ∧
    HvUpdateNic env s nicParam = some s ∧
    HvDisconnectNic env s nicParam = some s ∧
    HvDeleteNic env s nicParam = some s := by
  refine ⟨?_, ?_, ?_, ?_, ?_⟩
  · simp [HvCreateNic, OvsWaitActivate, hact, hfail]
  · simp [HvConnectNic, OvsWaitActivate, hact, hfail]
  · simp [HvUpdateNic, OvsWaitActivate, hact, hfail]
  · simp [HvDisconnectNic, OvsWaitActivate, hact, hfail]
  · simp [HvDeleteNic, OvsWaitActivate, hact, hfail]

/-- C20, a worked instance: NIC notifications on the store whose activation failed. -/
theorem activation_failed_ignored_witness :
    HvCreateNic sampleEnv failedState
        (sampleNic 10 0 NDIS_SWITCH_NIC_TYPE.NdisSwitchNicTypeSynthetic
          NDIS_SWITCH_NIC_STATE.NdisSwitchNicStateConnected) (some 1) =
      some (NDIS_STATUS.NDIS_STATUS_NOT_SUPPORTED, failedState) ∧
    HvConnectNic sampleEnv failedState
        (sampleNic 10 0 NDIS_SWITCH_NIC_TYPE.NdisSwitchNicTypeSynthetic
          NDIS_SWITCH_NIC_STATE.NdisSwitchNicStateConnected) = some failedState ∧
    HvUpdateNic sampleEnv failedState
        (sampleNic 10 0 NDIS_SWITCH_NIC_TYPE.NdisSwitchNicTypeSynthetic
          NDIS_SWITCH_NIC_STATE.NdisSwitchNicStateConnected) = some failedState ∧
    HvDisconnectNic sampleEnv failedState
        (sampleNic 10 0 NDIS_SWITCH_NIC_TYPE.NdisSwitchNicTypeSynthetic
          NDIS_SWITCH_NIC_STATE.NdisSwitchNicStateConnected) = some failedState ∧
    HvDeleteNic sampleEnv failedState
        (sampleNic 10 0 NDIS_SWITCH_NIC_TYPE.NdisSwitchNicTypeSynthetic
          NDIS_SWITCH_NIC_STATE.NdisSwitchNicStateConnected) = some failedState :=
  activation_failed_ignored sampleEnv failedState
    (sampleNic 10 0 NDIS_SWITCH_NIC_TYPE.NdisSwitchNicTypeSynthetic
      NDIS_SWITCH_NIC_STATE.NdisSwitchNicStateConnected) (some 1) rfl rfl

/-! ## Claims about allocation failure, identity uniqueness, lock balance and the
soundness of the identity lookup -/

/-- C21: when the allocation of the new entry fails, `HvCreatePort` (reached with no
entry for the port id) and `HvCreateNic` on the physical-NIC path (NIC type External,
NicIndex not 0, on an activated store holding the port) return `NDIS_STATUS_RESOURCES`;
the switch context (every index, singleton slot and counter) and every entry are as
before, and the trace grows by the acquire and the release of the lock only: no event is
posted. -/
theorem allocation_failure_atomic (env : Env) (s : KernelState)
    (portParam : NDIS_SWITCH_PORT_PARAMETERS) (nicParam : NDIS_SWITCH_NIC_PARAMETERS)
    (found : Nat) :
    (OvsFindVportByPortIdAndNicIndex env s portParam.PortId 0 = some none →
      HvCreatePort env s portParam none =
        some (NDIS_STATUS.NDIS_STATUS_RESOURCES,
          { s with trace := s.trace ++
            [Effect.NdisAcquireRWLockWrite, Effect.NdisReleaseRWLock] })) ∧
    (s.switchContext.isActivated = true →
      OvsFindVportByPortIdAndNicIndex env s nicParam.PortId 0 = some (some found) →
      nicParam.NicType = NDIS_SWITCH_NIC_TYPE.NdisSwitchNicTypeExternal →
      nicParam.NicIndex ≠ 0 →
      HvCreateNic env s nicParam none =
        some (NDIS_STATUS.NDIS_STATUS_RESOURCES,
          { s with trace := s.trace ++
            [Effect.NdisAcquireRWLockWrite, Effect.NdisReleaseRWLock] })) := by
  refine ⟨fun h => ?_, fun hact h hT hI => ?_⟩
  · simp only [HvCreatePort, find_emit, h, OvsAllocateVport]
    simp [KernelState.emit]
  · simp only [HvCreateNic, OvsWaitActivate, hact, Bool.not_true, Bool.false_and,
      Bool.false_eq_true, if_false, find_emit, h, hT, hI, ne_eq, not_false_eq_true,
      and_self, if_true, OvsAllocateVport]
    simp [HvCreateNic_done, KernelState.emit, OVS_DPPORT_NUMBER_INVALID]

/-- C21, a worked instance: no memory for port 10 on the empty store, and no memory for
the physical NIC (20, 1) on the store holding the external port 20. -/
theorem allocation_failure_atomic_witness :
    HvCreatePort sampleEnv emptyState
        (samplePort 10 NDIS_SWITCH_PORT_TYPE.NdisSwitchPortTypeSynthetic
          NDIS_SWITCH_PORT_STATE.NdisSwitchPortStateCreated) none =
      some (NDIS_STATUS.NDIS_STATUS_RESOURCES,
        { emptyState with trace := emptyState.trace ++
          [Effect.NdisAcquireRWLockWrite, Effect.NdisReleaseRWLock] }) ∧
    HvCreateNic sampleEnv externalStore
        (sampleNic 20 1 NDIS_SWITCH_NIC_TYPE.NdisSwitchNicTypeExternal
          NDIS_SWITCH_NIC_STATE.NdisSwitchNicStateConnected) none =
      some (NDIS_STATUS.NDIS_STATUS_RESOURCES,
        { externalStore with trace := externalStore.trace ++
          [Effect.NdisAcquireRWLockWrite, Effect.NdisReleaseRWLock] }) :=
  ⟨(allocation_failure_atomic sampleEnv emptyState
      (samplePort 10 NDIS_SWITCH_PORT_TYPE.NdisSwitchPortTypeSynthetic
        NDIS_SWITCH_PORT_STATE.NdisSwitchPortStateCreated)
      (sampleNic 20 1 NDIS_SWITCH_NIC_TYPE.NdisSwitchNicTypeExternal
        NDIS_SWITCH_NIC_STATE.NdisSwitchNicStateConnected) 1).1 (by decide),
   (allocation_failure_atomic sampleEnv externalStore
      (samplePort 10 NDIS_SWITCH_PORT_TYPE.NdisSwitchPortTypeSynthetic
        NDIS_SWITCH_PORT_STATE.NdisSwitchPortStateCreated)
      (sampleNic 20 1 NDIS_SWITCH_NIC_TYPE.NdisSwitchNicTypeExternal
        NDIS_SWITCH_NIC_STATE.NdisSwitchNicStateConnected) 1).2 rfl (by decide) rfl
      (by decide)⟩

/-- C25 fails on the run: create the external port 20, create the physical NIC (20, 1),
delete the NIC (20, 1), create the NIC (20, 1) again.  `HvDeleteNic` leaves the sub-entry
at address 2 linked, and the second create links a new sub-entry at address 3: bucket 20
of the port-id index then holds two distinct entries with the pair (20, 1), and the
physical-NIC count is 2. -/
theorem physical_nic_reattached_duplicate_identity :
    reattachedStore.switchContext.portIdHashArray
        (sampleEnv.OvsJhashWords 20 &&& sampleEnv.OVS_VPORT_MASK) = [3, 2] ∧
    (reattachedStore.mem 2).map (fun e => (e.portId, e.nicIndex)) = some (20, 1) ∧
    (reattachedStore.mem 3).map (fun e => (e.portId, e.nicIndex)) = some (20, 1) ∧
    reattachedStore.switchContext.numPhysicalNics = 2 := by
  decide

/-- C28 fails for `HvUpdateNic` on an unknown identity: on the activated empty store the
lookup of (10, 0) finds nothing, `HvUpdateNic` for (10, 0) returns, and its trace is the
acquire of the dispatch lock alone: the lock is still held when the handler returns.
`HvDisconnectNic` on the same input releases the lock before it returns. -/
theorem HvUpdateNic_unknown_identity_keeps_lock :
    OvsFindVportByPortIdAndNicIndex sampleEnv emptyState 10 0 = some none ∧
    (HvUpdateNic sampleEnv emptyState
        (sampleNic 10 0 NDIS_SWITCH_NIC_TYPE.NdisSwitchNicTypeSynthetic
          NDIS_SWITCH_NIC_STATE.NdisSwitchNicStateConnected)).map
      (fun s' => (s'.trace, lockPhaseAfter LockPhase.idle s'.trace)) =
      some ([Effect.NdisAcquireRWLockWrite], LockPhase.held) ∧
    (HvDisconnectNic sampleEnv emptyState
        (sampleNic 10 0 NDIS_SWITCH_NIC_TYPE.NdisSwitchNicTypeSynthetic
          NDIS_SWITCH_NIC_STATE.NdisSwitchNicStateConnected)).map
      (fun s' => (s'.trace, lockPhaseAfter LockPhase.idle s'.trace)) =
      some ([Effect.NdisAcquireRWLockWrite, Effect.NdisReleaseRWLock],
        LockPhase.released) := by
  decide

/-- C29 fails for the port ids of the two singleton slots: on the store holding the
external port 20 the lookup of (20, 5) returns the entry at address 1, whose nicIndex is
0, and on the store holding the internal port 10 the lookup of (10, 3) returns the entry
at address 1, whose nicIndex is 0. -/
theorem OvsFindVportByPortIdAndNicIndex_singleton_ignores_index :
    OvsFindVportByPortIdAndNicIndex sampleEnv externalStore 20 5 = some (some 1) ∧
    (externalStore.mem 1).map (fun e => (e.portId, e.nicIndex)) = some (20, 0) ∧
    OvsFindVportByPortIdAndNicIndex sampleEnv internalStore 10 3 = some (some 1) ∧
    (internalStore.mem 1).map (fun e => (e.portId, e.nicIndex)) = some (10, 0) := by
  decide

/-- The loop of `OvsClearAllSwitchVports` does not end when the bucket array is not empty
and bucket 0 of `portNoHashArray` is: every iteration finds the counter at 0. -/
theorem OvsClearAllSwitchVports_loop_spins (env : Env) (s : KernelState)
    (hsize : 0 < env.OVS_MAX_VPORT_ARRAY_SIZE)
    (hb : s.switchContext.portNoHashArray 0 = []) (fuel : Nat) :
    OvsClearAllSwitchVports_loop env fuel 0 s = none := by
  induction fuel with
  | zero => rfl
  | succ n ih =>
    simp only [OvsClearAllSwitchVports_loop, hsize, if_true, Nat.zero_and, hb,
      OvsClearAllSwitchVports_bucket]
    exact ih

/-- C30 fails on the empty store with the port array (10, 11) when the allocator gives a
block for port 10 and none for port 11: at the label `cleanup` the status is
`NDIS_STATUS_RESOURCES`, the entry of port 10 is allocated and linked in bucket 10 of the
port-id index, and bucket 0 of `portNoHashArray` is empty; the loop of
`OvsClearAllSwitchVports` then does not end, whatever the number of iterations allowed,
so `OvsAddConfiguredSwitchPorts` does not return. -/
theorem OvsAddConfiguredSwitchPorts_allocation_failure_not_undone (fuel : Nat) :
    (OvsAddConfiguredSwitchPorts_loop sampleEnv emptyState samplePortArray
        [some 1, none]).map
      (fun r => (r.1, r.2.switchContext.portIdHashArray 10,
        r.2.switchContext.portNoHashArray 0, (r.2.mem 1).isSome)) =
      some (NDIS_STATUS.NDIS_STATUS_RESOURCES, [1], [], true) ∧
    OvsAddConfiguredSwitchPorts sampleEnv fuel emptyState
      (NDIS_STATUS.NDIS_STATUS_SUCCESS, some samplePortArray) [some 1, none] = none := by
  have h1 : (OvsAddConfiguredSwitchPorts_loop sampleEnv emptyState samplePortArray
        [some 1, none]).map
      (fun r => (r.1, r.2.switchContext.portIdHashArray 10,
        r.2.switchContext.portNoHashArray 0, (r.2.mem 1).isSome)) =
      some (NDIS_STATUS.NDIS_STATUS_RESOURCES, [1], [], true) := by decide
  refine ⟨h1, ?_⟩
  cases hr : OvsAddConfiguredSwitchPorts_loop sampleEnv emptyState samplePortArray
      [some 1, none] with
  | none => simp [hr] at h1
  | some r =>
    obtain ⟨st, s1⟩ := r
    simp only [hr, Option.map_some', Option.some.injEq, Prod.mk.injEq] at h1
    obtain ⟨hst, _, hb, _⟩ := h1
    have hspin := OvsClearAllSwitchVports_loop_spins sampleEnv s1 (by decide) hb fuel
    simp [OvsAddConfiguredSwitchPorts, hr, hst, OvsClearAllSwitchVports, hspin]

/-! ## Lookup by name -/

/-- The bucket loop of the name lookup returns when every linked address is allocated. -/
theorem findOvsNameLink_total (mem : Nat → Option OVS_VPORT_ENTRY) (name : List Nat)
    (len : Nat) (l : List Nat) (hvalid : ∀ a ∈ l, mem a ≠ none) :
    ∃ r, findOvsNameLink mem name len l = some r := by
  induction l with
  | nil => exact ⟨none, rfl⟩
  | cons x rest ih =>
    cases hx : mem x with
    | none => exact absurd hx (hvalid x (List.mem_cons_self _ _))
    | some v =>
      by_cases hm : v.ovsNameLen = len ∧ RtlEqualMemory name v.ovsName len = true
      · exact ⟨some x, by simp [findOvsNameLink, hx, hm]⟩
      · obtain ⟨r, hr⟩ := ih (fun y hy => hvalid y (List.mem_cons_of_mem _ hy))
        exact ⟨r, by simp only [findOvsNameLink, hx, hm, if_false]; exact hr⟩

/-- What the bucket loop of the name lookup returns is linked in the bucket and has the
length and the bytes asked for. -/
theorem findOvsNameLink_sound (mem : Nat → Option OVS_VPORT_ENTRY) (name : List Nat)
    (len : Nat) (l : List Nat) (a : Nat)
    (h : findOvsNameLink mem name len l = some (some a)) :
    a ∈ l ∧ ∃ e, mem a = some e ∧ e.ovsNameLen = len ∧
      e.ovsName.take len = name.take len := by
  induction l with
  | nil => simp [findOvsNameLink] at h
  | cons x rest ih =>
    cases hx : mem x with
    | none => simp [findOvsNameLink, hx] at h
    | some v =>
      by_cases hm : v.ovsNameLen = len ∧ RtlEqualMemory name v.ovsName len = true
      · simp only [findOvsNameLink, hx, hm, and_self, if_true, Option.some.injEq] at h
        subst h
        refine ⟨List.mem_cons_self _ _, v, hx, hm.1, ?_⟩
        have h2 := hm.2
        simp only [RtlEqualMemory, decide_eq_true_eq] at h2
        exact h2.symm
      · simp only [findOvsNameLink, hx, hm, if_false] at h
        obtain ⟨hmem, hrest⟩ := ih h
        exact ⟨List.mem_cons_of_mem _ hmem, hrest⟩

/-- When the bucket loop of the name lookup returns `NULL`, no linked entry has the
length and the bytes asked for. -/
theorem findOvsNameLink_none (mem : Nat → Option OVS_VPORT_ENTRY) (name : List Nat)
    (len : Nat) (l : List Nat)
    (h : findOvsNameLink mem name len l = some none) :
    ∀ a ∈ l, ∀ e, mem a = some e →
      ¬ (e.ovsNameLen = len ∧ e.ovsName.take len = name.take len) := by
  induction l with
  | nil => intro a ha; cases ha
  | cons x rest ih =>
    cases hx : mem x with
    | none => simp [findOvsNameLink, hx] at h
    | some v =>
      by_cases hm : v.ovsNameLen = len ∧ RtlEqualMemory name v.ovsName len = true
      · simp [findOvsNameLink, hx, hm] at h
      · simp only [findOvsNameLink, hx, hm, if_false] at h
        intro a ha e hme
        cases ha with
        | head =>
          rw [hx] at hme
          cases hme
          intro hc
          apply hm
          refine ⟨hc.1, ?_⟩
          simp only [RtlEqualMemory, decide_eq_true_eq]
          exact hc.2.symm
        | tail _ har => exact ih h a har e hme

/-- The name lookup on a store whose name index is placed by the hash of the names and
holds allocated addresses only: it returns, it returns an entry exactly when some entry
of the index has the length and the bytes asked for, and what it returns is such an
entry of the index. -/
theorem OvsFindVportByOvsName_placed (env : Env) (s : KernelState) (name : List Nat)
    (len : Nat)
    (hplace : ∀ b a e, a ∈ s.switchContext.ovsPortNameHashArray b → s.mem a = some e →
      b = env.OvsJhashBytes (e.ovsName.take e.ovsNameLen) &&& env.OVS_VPORT_MASK)
    (halloc : ∀ b a, a ∈ s.switchContext.ovsPortNameHashArray b → s.mem a ≠ none) :
    ∃ r, OvsFindVportByOvsName env s name len = some r ∧
      (r.isSome = true ↔ ∃ b a e, a ∈ s.switchContext.ovsPortNameHashArray b ∧
        s.mem a = some e ∧ e.ovsNameLen = len ∧ e.ovsName.take len = name.take len) ∧
      (∀ a, r = some a → ∃ b e, a ∈ s.switchContext.ovsPortNameHashArray b ∧
        s.mem a = some e ∧ e.ovsNameLen = len ∧ e.ovsName.take len = name.take len) := by
  obtain ⟨r, hr⟩ := findOvsNameLink_total s.mem name len
    (s.switchContext.ovsPortNameHashArray
      (env.OvsJhashBytes (name.take len) &&& env.OVS_VPORT_MASK))
    (fun a ha => halloc _ a ha)
  have hsound : ∀ a, r = some a → ∃ b e, a ∈ s.switchContext.ovsPortNameHashArray b ∧
      s.mem a = some e ∧ e.ovsNameLen = len ∧ e.ovsName.take len = name.take len := by
    intro a ha
    subst ha
    obtain ⟨hin, e, hme, hl, hb⟩ := findOvsNameLink_sound _ _ _ _ _ hr
    exact ⟨_, e, hin, hme, hl, hb⟩
  refine ⟨r, hr, ⟨?_, ?_⟩, hsound⟩
  · intro hs
    cases r with
    | none => simp at hs
    | some a =>
      obtain ⟨b, e, h1, h2, h3, h4⟩ := hsound a rfl
      exact ⟨b, a, e, h1, h2, h3, h4⟩
  · rintro ⟨b, a, e, hin, hme, hl, hb⟩
    cases r with
    | some a' => rfl
    | none =>
      exfalso
      have hbk := hplace b a e hin hme
      rw [hl, hb] at hbk
      subst hbk
      exact findOvsNameLink_none _ _ _ _ hr a hin e hme ⟨hl, hb⟩

/-- C27: on a store in which each entry of the name index sits in the bucket selected by
the hash of its name (and every linked address is allocated), for every byte string n,
`OvsFindVportByOvsName` called with n and its length returns; it returns an entry if and
only if some entry of the name index has `ovsNameLen` equal to the length of n and its
first name bytes equal to n; and any entry it returns is in the name index and has
exactly that length and those bytes, so a stored name of which n is only the beginning
does not match. -/
theorem OvsFindVportByOvsName_spec (env : Env) (s : KernelState) (n : List Nat)
    (hplace : ∀ b a e, a ∈ s.switchContext.ovsPortNameHashArray b → s.mem a = some e →
      b = env.OvsJhashBytes (e.ovsName.take e.ovsNameLen) &&& env.OVS_VPORT_MASK)
    (halloc : ∀ b a, a ∈ s.switchContext.ovsPortNameHashArray b → s.mem a ≠ none) :
    ∃ r, OvsFindVportByOvsName env s n n.length = some r ∧
      (r.isSome = true ↔ ∃ b a e, a ∈ s.switchContext.ovsPortNameHashArray b ∧
        s.mem a = some e ∧ e.ovsNameLen = n.length ∧ e.ovsName.take n.length = n) ∧
      (∀ a, r = some a → ∃ b e, a ∈ s.switchContext.ovsPortNameHashArray b ∧
        s.mem a = some e ∧ e.ovsNameLen = n.length ∧ e.ovsName.take n.length = n) := by
  have h := OvsFindVportByOvsName_placed env s n n.length hplace halloc
  simp only [List.take_length] at h
  exact h

/-- The name index of `namedStore`: the entry at address 1 in bucket 54. -/
theorem namedStore_index (b : Nat) :
    namedStore.switchContext.ovsPortNameHashArray b = if b = 54 then [1] else [] := rfl

/-- The name index of `namedStore` is placed by the hash of the names. -/
theorem namedStore_placed (b a : Nat) (e : OVS_VPORT_ENTRY)
    (ha : a ∈ namedStore.switchContext.ovsPortNameHashArray b)
    (hm : namedStore.mem a = some e) :
    b = sampleEnv.OvsJhashBytes (e.ovsName.take e.ovsNameLen) &&&
      sampleEnv.OVS_VPORT_MASK := by
  rw [namedStore_index] at ha
  by_cases hb : b = 54
  · simp only [hb, if_true, List.mem_singleton] at ha
    subst ha
    have h1 : (namedStore.mem 1).map (fun e =>
        sampleEnv.OvsJhashBytes (e.ovsName.take e.ovsNameLen) &&&
          sampleEnv.OVS_VPORT_MASK) = some 54 := by decide
    rw [hm] at h1
    simp only [Option.map_some', Option.some.injEq] at h1
    rw [hb, h1]
  · simp [hb] at ha

/-- Every address linked in the name index of `namedStore` is allocated. -/
theorem namedStore_alloc (b a : Nat)
    (ha : a ∈ namedStore.switchContext.ovsPortNameHashArray b) :
    namedStore.mem a ≠ none := by
  rw [namedStore_index] at ha
  by_cases hb : b = 54
  · simp only [hb, if_true, List.mem_singleton] at ha
    subst ha
    decide
  · simp [hb] at ha

/-- C27, a worked instance: on the store whose name index holds the entry named `vif1`,
the lookup of `vif1` returns the entry at address 1 and the lookup of `vif` returns
`NULL`. -/
theorem OvsFindVportByOvsName_spec_witness :
    (∃ r, OvsFindVportByOvsName sampleEnv namedStore (chars "vif1") 4 = some r ∧
      (r.isSome = true ↔ ∃ b a e, a ∈ namedStore.switchContext.ovsPortNameHashArray b ∧
        namedStore.mem a = some e ∧ e.ovsNameLen = 4 ∧
        e.ovsName.take 4 = chars "vif1") ∧
      (∀ a, r = some a → ∃ b e, a ∈ namedStore.switchContext.ovsPortNameHashArray b ∧
        namedStore.mem a = some e ∧ e.ovsNameLen = 4 ∧
        e.ovsName.take 4 = chars "vif1")) ∧
    OvsFindVportByOvsName sampleEnv namedStore (chars "vif1") 4 = some (some 1) ∧
    OvsFindVportByOvsName sampleEnv namedStore (chars "vif") 3 = some none :=
  ⟨OvsFindVportByOvsName_spec sampleEnv namedStore (chars "vif1") namedStore_placed
    namedStore_alloc, by decide, by decide⟩

/-! ## The dispatch lock along the traces of the handlers -/

theorem ASSERT_trace (s : KernelState) (c : Bool) :
    (ASSERT s c).trace = s.trace ++ (if c then [] else [Effect.AssertFailed]) := by
  cases c <;> simp [ASSERT]

theorem assert_list_quiet (c : Bool) :
    ∀ e ∈ (if c then [] else [Effect.AssertFailed] : List Effect),
      e = Effect.AssertFailed := by
  cases c <;> simp

/-- Failed assertions do not change whether the posts of a trace come after the release
of the lock. -/
theorem postsAfterRelease_asserts (p : LockPhase) (q t : List Effect)
    (hq : ∀ e ∈ q, e = Effect.AssertFailed) :
    postsAfterRelease p (q ++ t) = postsAfterRelease p t := by
  induction q with
  | nil => rfl
  | cons x rest ih =>
    have hx : x = Effect.AssertFailed := hq x (List.mem_cons_self _ _)
    subst hx
    simp only [List.cons_append, postsAfterRelease]
    exact ih (fun e he => hq e (List.mem_cons_of_mem _ he))

/-- A trace made of the acquire of the lock, failed assertions, the release of the lock
and then at most one posted event posts after the release only. -/
theorem postsAfterRelease_shape (q ps : List Effect)
    (hq : ∀ e ∈ q, e = Effect.AssertFailed)
    (hps : ps = [] ∨ ∃ p e, ps = [Effect.OvsPostEvent p e]) :
    postsAfterRelease LockPhase.idle
      (Effect.NdisAcquireRWLockWrite :: (q ++ Effect.NdisReleaseRWLock :: ps)) = true := by
  simp only [postsAfterRelease]
  rw [postsAfterRelease_asserts _ _ _ hq]
  rcases hps with h | ⟨p, e, h⟩ <;> subst h <;> simp [postsAfterRelease]

theorem OvsWaitActivate_some (s s0 : KernelState) (h : OvsWaitActivate s = some s0) :
    s0 = s ∧
      (s.switchContext.isActivated = true ∨ s.switchContext.isActivateFailed = true) := by
  unfold OvsWaitActivate at h
  cases ha : s.switchContext.isActivated <;> cases hf : s.switchContext.isActivateFailed <;>
    simp [ha, hf] at h <;> simp [h]

theorem OvsInitVportWithNicParam_trace (s s' : KernelState) (a : Nat)
    (nicParam : NDIS_SWITCH_NIC_PARAMETERS)
    (h : OvsInitVportWithNicParam s a nicParam = some s') :
    ∃ q, s'.trace = s.trace ++ q ∧ ∀ e ∈ q, e = Effect.AssertFailed := by
  unfold OvsInitVportWithNicParam at h
  cases hm : s.mem a with
  | none => simp [hm] at h
  | some v =>
    simp only [hm, Option.some.injEq] at h
    subst h
    simp only [store_trace, ASSERT_trace, List.append_assoc]
    refine ⟨_, rfl, ?_⟩
    intro e he
    rcases List.mem_append.1 he with h1 | h1
    · exact assert_list_quiet _ e h1
    · exact assert_list_quiet _ e h1

theorem OvsInitVportCommon_trace (env : Env) (s s' : KernelState) (a : Nat)
    (st : NDIS_STATUS) (h : OvsInitVportCommon env s a = some (st, s')) :
    ∃ q, s'.trace = s.trace ++ q ∧ ∀ e ∈ q, e = Effect.AssertFailed := by
  unfold OvsInitVportCommon at h
  cases hm : s.mem a with
  | none => simp [hm] at h
  | some v =>
    simp only [hm] at h
    refine ⟨_, ?_, assert_list_quiet (decide (v.portNo = OVS_DPPORT_NUMBER_INVALID))⟩
    cases hT : v.portType <;> by_cases hI : v.nicIndex = 0 <;>
      simp [hT, hI] at h <;> obtain ⟨_, h⟩ := h <;> subst h <;>
      simp [ASSERT_trace]

theorem HvCreateNic_done_trace (s : KernelState) (st : NDIS_STATUS) (portNo event : Nat) :
    ∃ ps, (HvCreateNic_done s st portNo event).2.trace =
        s.trace ++ Effect.NdisReleaseRWLock :: ps ∧
      (ps = [] ∨ ∃ p e, ps = [Effect.OvsPostEvent p e]) := by
  unfold HvCreateNic_done
  split
  · exact ⟨[Effect.OvsPostEvent portNo event], by simp, Or.inr ⟨_, _, rfl⟩⟩
  · exact ⟨[], by simp, Or.inl rfl⟩

theorem HvCreateNic_init_trace (s : KernelState) (a : Nat)
    (nicParam : NDIS_SWITCH_NIC_PARAMETERS) (r : NDIS_STATUS × KernelState)
    (h : HvCreateNic_init s a nicParam = some r) :
    ∃ q ps, r.2.trace = s.trace ++ (q ++ Effect.NdisReleaseRWLock :: ps) ∧
      (∀ e ∈ q, e = Effect.AssertFailed) ∧
      (ps = [] ∨ ∃ p e, ps = [Effect.OvsPostEvent p e]) := by
  unfold HvCreateNic_init at h
  cases hi : OvsInitVportWithNicParam s a nicParam with
  | none => simp [hi] at h
  | some s1 =>
    obtain ⟨q, hq, hquiet⟩ := OvsInitVportWithNicParam_trace s s1 a nicParam hi
    cases hm : s1.mem a with
    | none => simp [hi, hm] at h
    | some v =>
      simp only [hi, hm, Option.some.injEq] at h
      subst h
      obtain ⟨ps, hps, hshape⟩ := HvCreateNic_done_trace s1 NDIS_STATUS.NDIS_STATUS_SUCCESS
        v.portNo
        (if v.ovsState = OVS_VPORT_STATE.OVS_STATE_CONNECTED then
          OVS_EVENT_CONNECT ||| OVS_EVENT_LINK_UP
        else if v.ovsState = OVS_VPORT_STATE.OVS_STATE_NIC_CREATED then
          OVS_EVENT_CONNECT
        else 0)
      exact ⟨q, ps, by rw [hps, hq, List.append_assoc], hquiet, hshape⟩

/-- The trace `HvCreateNic` adds is empty, or is the acquire of the lock, failed
assertions, the release of the lock and then at most one posted event. -/
theorem HvCreateNic_trace (env : Env) (s : KernelState)
    (nicParam : NDIS_SWITCH_NIC_PARAMETERS) (alloc : Option Nat)
    (r : NDIS_STATUS × KernelState) (h : HvCreateNic env s nicParam alloc = some r) :
    r.2.trace = s.trace ∨
    ∃ q ps, r.2.trace =
        s.trace ++ Effect.NdisAcquireRWLockWrite :: (q ++ Effect.NdisReleaseRWLock :: ps) ∧
      (∀ e ∈ q, e = Effect.AssertFailed) ∧
      (ps = [] ∨ ∃ p e, ps = [Effect.OvsPostEvent p e]) := by
  unfold HvCreateNic at h
  cases hw : OvsWaitActivate s with
  | none => simp [hw] at h
  | some s0 =>
    obtain ⟨hs0, _⟩ := OvsWaitActivate_some s s0 hw
    subst hs0
    simp only [hw] at h
    cases hact : s0.switchContext.isActivated with
    | false =>
      simp only [hact, Bool.not_false, if_true, Option.some.injEq] at h
      subst h
      exact Or.inl rfl
    | true =>
      right
      simp only [hact, Bool.not_true, Bool.false_eq_true, if_false, find_emit] at h
      cases hfind : OvsFindVportByPortIdAndNicIndex env s0 nicParam.PortId 0 with
      | none => simp [hfind] at h
      | some found =>
        cases found with
        | none =>
          simp only [hfind, Option.some.injEq] at h
          subst h
          obtain ⟨ps, hps, hshape⟩ := HvCreateNic_done_trace
            (s0.emit Effect.NdisAcquireRWLockWrite)
            NDIS_STATUS.NDIS_STATUS_INVALID_PARAMETER 0 0
          exact ⟨[], ps, by rw [hps]; simp, by simp, hshape⟩
        | some v =>
          simp only [hfind] at h
          by_cases hphys : nicParam.NicType = NDIS_SWITCH_NIC_TYPE.NdisSwitchNicTypeExternal ∧
              nicParam.NicIndex ≠ 0
          · simp only [hphys, ne_eq, not_false_eq_true, and_self, if_true] at h
            cases alloc with
            | none =>
              simp only [OvsAllocateVport, Option.some.injEq] at h
              subst h
              obtain ⟨ps, hps, hshape⟩ := HvCreateNic_done_trace
                (s0.emit Effect.NdisAcquireRWLockWrite)
                NDIS_STATUS.NDIS_STATUS_RESOURCES 0 0
              exact ⟨[], ps, by rw [hps]; simp, by simp, hshape⟩
            | some a =>
              simp only [OvsAllocateVport] at h
              split at h
              · rename_i virt new hv hn
                rw [store_store] at h
                cases hc : OvsInitVportCommon env
                    ((s0.emit Effect.NdisAcquireRWLockWrite).store a
                      (OvsInitPhysNicVport new virt nicParam.NicIndex)) a with
                | none => simp [hc] at h
                | some rc =>
                  obtain ⟨st, s2⟩ := rc
                  obtain ⟨q0, hq0, hquiet0⟩ := OvsInitVportCommon_trace env _ s2 a st hc
                  simp only [store_trace, emit_trace] at hq0
                  rw [hc] at h
                  dsimp only at h
                  by_cases hst : st = NDIS_STATUS.NDIS_STATUS_SUCCESS
                  · simp only [hst, not_true_eq_false, if_false] at h
                    obtain ⟨q, ps, ht, hquiet, hshape⟩ :=
                      HvCreateNic_init_trace s2 a nicParam r h
                    refine ⟨q0 ++ q, ps, ?_, ?_, hshape⟩
                    · rw [ht, hq0]; simp
                    · intro e he
                      rcases List.mem_append.1 he with h1 | h1
                      · exact hquiet0 e h1
                      · exact hquiet e h1
                  · simp only [hst, not_false_eq_true, if_true, Option.some.injEq] at h
                    subst h
                    obtain ⟨ps, hps, hshape⟩ := HvCreateNic_done_trace
                      (OvsFreeMemory s2 a) st 0 0
                    refine ⟨q0, ps, ?_, hquiet0, hshape⟩
                    rw [hps, free_trace, hq0]; simp
              · simp at h
          · simp only [hphys, if_false] at h
            obtain ⟨q, ps, ht, hquiet, hshape⟩ :=
              HvCreateNic_init_trace _ v nicParam r h
            exact ⟨q, ps, by rw [ht]; simp, hquiet, hshape⟩

/-- The handler `OvsRemoveAndDeleteVport` frees the entry. -/
theorem OvsRemoveAndDeleteVport_frees (s s' : KernelState) (a : Nat)
    (h : OvsRemoveAndDeleteVport s a = some s') : s'.mem a = none := by
  unfold OvsRemoveAndDeleteVport at h
  cases hm : s.mem a with
  | none => simp [hm] at h
  | some v =>
    simp only [hm] at h
    split at h <;> simp only [Option.some.injEq] at h <;> subst h <;> simp

theorem HvConnectNic_posts (env : Env) (s s' : KernelState)
    (nicParam : NDIS_SWITCH_NIC_PARAMETERS) (h : HvConnectNic env s nicParam = some s') :
    ∃ t, s'.trace = s.trace ++ t ∧ postsAfterRelease LockPhase.idle t = true := by
  cases hact : s.switchContext.isActivated with
  | false =>
    cases hfail : s.switchContext.isActivateFailed with
    | false => simp [HvConnectNic, OvsWaitActivate, hact, hfail] at h
    | true =>
      simp only [HvConnectNic, OvsWaitActivate, hact, hfail, Bool.not_false, Bool.not_true,
        Bool.and_false, Bool.false_eq_true, if_false, if_true, Option.some.injEq] at h
      subst h
      exact ⟨[], by simp, rfl⟩
  | true =>
    cases hfind : OvsFindVportByPortIdAndNicIndex env s nicParam.PortId nicParam.NicIndex with
    | none =>
      simp only [HvConnectNic, OvsWaitActivate, hact, Bool.not_true, Bool.false_and,
        Bool.false_eq_true, if_false, find_emit, hfind] at h
      cases h
    | some found =>
      cases found with
      | none =>
        rw [HvConnectNic_notfound env s nicParam hact hfind] at h
        cases h
        exact ⟨_, rfl, rfl⟩
      | some a =>
        cases hmem : s.mem a with
        | none =>
          simp only [HvConnectNic, OvsWaitActivate, hact, Bool.not_true, Bool.false_and,
            Bool.false_eq_true, if_false, find_emit, hfind, emit_mem, hmem] at h
          cases h
        | some e =>
          rw [HvConnectNic_found env s nicParam a e hact hfind hmem] at h
          simp only [Option.some.injEq] at h
          subst h
          split
          · exact ⟨[Effect.NdisAcquireRWLockWrite, Effect.NdisReleaseRWLock,
              Effect.OvsPostEvent e.portNo OVS_EVENT_LINK_UP,
              Effect.OvsInternalAdapterUp e.portNo nicParam.NetCfgInstanceId],
              by simp, rfl⟩
          · exact ⟨[Effect.NdisAcquireRWLockWrite, Effect.NdisReleaseRWLock,
              Effect.OvsPostEvent e.portNo OVS_EVENT_LINK_UP], by simp, rfl⟩

theorem HvDisconnectNic_posts (env : Env) (s s' : KernelState)
    (nicParam : NDIS_SWITCH_NIC_PARAMETERS) (h : HvDisconnectNic env s nicParam = some s') :
    ∃ t, s'.trace = s.trace ++ t ∧ postsAfterRelease LockPhase.idle t = true := by
  cases hact : s.switchContext.isActivated with
  | false =>
    cases hfail : s.switchContext.isActivateFailed with
    | false => simp [HvDisconnectNic, OvsWaitActivate, hact, hfail] at h
    | true =>
      simp only [HvDisconnectNic, OvsWaitActivate, hact, hfail, Bool.not_false,
        Bool.not_true, Bool.and_false, Bool.false_eq_true, if_false, if_true,
        Option.some.injEq] at h
      subst h
      exact ⟨[], by simp, rfl⟩
  | true =>
    cases hfind : OvsFindVportByPortIdAndNicIndex env s nicParam.PortId nicParam.NicIndex with
    | none =>
      simp only [HvDisconnectNic, OvsWaitActivate, hact, Bool.not_true, Bool.false_and,
        Bool.false_eq_true, if_false, find_emit, hfind] at h
      cases h
    | some found =>
      cases found with
      | none =>
        rw [HvDisconnectNic_notfound env s nicParam hact hfind] at h
        cases h
        exact ⟨_, rfl, rfl⟩
      | some a =>
        cases hmem : s.mem a with
        | none =>
          simp only [HvDisconnectNic, OvsWaitActivate, hact, Bool.not_true, Bool.false_and,
            Bool.false_eq_true, if_false, find_emit, hfind, emit_mem, hmem] at h
          cases h
        | some e =>
          rw [HvDisconnectNic_found env s nicParam a e hact hfind hmem] at h
          simp only [Option.some.injEq] at h
          subst h
          split
          · exact ⟨[Effect.NdisAcquireRWLockWrite, Effect.NdisReleaseRWLock,
              Effect.OvsPostEvent e.portNo OVS_EVENT_LINK_DOWN,
              Effect.OvsInternalAdapterDown], by simp, rfl⟩
          · exact ⟨[Effect.NdisAcquireRWLockWrite, Effect.NdisReleaseRWLock,
              Effect.OvsPostEvent e.portNo OVS_EVENT_LINK_DOWN], by simp, rfl⟩

theorem HvUpdateNic_posts (env : Env) (s s' : KernelState)
    (nicParam : NDIS_SWITCH_NIC_PARAMETERS) (h : HvUpdateNic env s nicParam = some s') :
    ∃ t, s'.trace = s.trace ++ t ∧ postsAfterRelease LockPhase.idle t = true := by
  cases hact : s.switchContext.isActivated with
  | false =>
    cases hfail : s.switchContext.isActivateFailed with
    | false => simp [HvUpdateNic, OvsWaitActivate, hact, hfail] at h
    | true =>
      simp only [HvUpdateNic, OvsWaitActivate, hact, hfail, Bool.not_false,
        Bool.not_true, Bool.and_false, Bool.false_eq_true, if_false, if_true,
        Option.some.injEq] at h
      subst h
      exact ⟨[], by simp, rfl⟩
  | true =>
    cases hfind : OvsFindVportByPortIdAndNicIndex env s nicParam.PortId nicParam.NicIndex with
    | none =>
      simp only [HvUpdateNic, OvsWaitActivate, hact, Bool.not_true, Bool.false_and,
        Bool.false_eq_true, if_false, find_emit, hfind] at h
      cases h
    | some found =>
      cases found with
      | none =>
        rw [HvUpdateNic_notfound env s nicParam hact hfind] at h
        cases h
        exact ⟨_, rfl, rfl⟩
      | some a =>
        cases hmem : s.mem a with
        | none =>
          simp only [HvUpdateNic, OvsWaitActivate, hact, Bool.not_true, Bool.false_and,
            Bool.false_eq_true, if_false, find_emit, hfind, emit_mem, hmem] at h
          cases h
        | some e =>
          rw [HvUpdateNic_found env s nicParam a e hact hfind hmem] at h
          simp only [Option.some.injEq] at h
          subst h
          split
          · exact ⟨[Effect.NdisAcquireRWLockWrite, Effect.NdisReleaseRWLock,
              Effect.OvsPostEvent (HvUpdateNic_fields e nicParam).1.portNo
                (HvUpdateNic_fields e nicParam).2], by simp, rfl⟩
          · exact ⟨[Effect.NdisAcquireRWLockWrite, Effect.NdisReleaseRWLock],
              by simp, rfl⟩

theorem HvDeleteNic_posts (env : Env) (s s' : KernelState)
    (nicParam : NDIS_SWITCH_NIC_PARAMETERS) (h : HvDeleteNic env s nicParam = some s') :
    ∃ t, s'.trace = s.trace ++ t ∧ postsAfterRelease LockPhase.idle t = true := by
  cases hact : s.switchContext.isActivated with
  | false =>
    cases hfail : s.switchContext.isActivateFailed with
    | false => simp [HvDeleteNic, OvsWaitActivate, hact, hfail] at h
    | true =>
      simp only [HvDeleteNic, OvsWaitActivate, hact, hfail, Bool.not_false,
        Bool.not_true, Bool.and_false, Bool.false_eq_true, if_false, if_true,
        Option.some.injEq] at h
      subst h
      exact ⟨[], by simp, rfl⟩
  | true =>
    cases hfind : OvsFindVportByPortIdAndNicIndex env s nicParam.PortId nicParam.NicIndex with
    | none =>
      simp only [HvDeleteNic, OvsWaitActivate, hact, Bool.not_true, Bool.false_and,
        Bool.false_eq_true, if_false, find_emit, hfind] at h
      cases h
    | some found =>
      cases found with
      | none =>
        rw [HvDeleteNic_notfound env s nicParam hact hfind] at h
        cases h
        exact ⟨_, rfl, rfl⟩
      | some a =>
        cases hmem : s.mem a with
        | none =>
          simp only [HvDeleteNic, OvsWaitActivate, hact, Bool.not_true, Bool.false_and,
            Bool.false_eq_true, if_false, find_emit, hfind, emit_mem, hmem] at h
          cases h
        | some e =>
          by_cases hgen : e.portType = NDIS_SWITCH_PORT_TYPE.NdisSwitchPortTypeExternal ∧
              e.nicIndex ≠ 0
          · exfalso
            simp only [HvDeleteNic, OvsWaitActivate, hact, Bool.not_true, Bool.false_and,
              Bool.false_eq_true, if_false, find_emit, hfind, emit_mem, hmem, hgen,
              ne_eq, not_false_eq_true, and_self, if_true] at h
            cases hr : OvsRemoveAndDeleteVport (s.emit Effect.NdisAcquireRWLockWrite) a with
            | none => simp [hr] at h
            | some s1 =>
              have hfree := OvsRemoveAndDeleteVport_frees _ s1 a hr
              simp [hr, hfree] at h
          · rw [HvDeleteNic_found_generic env s nicParam a e hact hfind hmem hgen] at h
            simp only [Option.some.injEq] at h
            subst h
            exact ⟨[Effect.NdisAcquireRWLockWrite, Effect.NdisReleaseRWLock,
              Effect.OvsPostEvent e.portNo OVS_EVENT_DISCONNECT], by simp, rfl⟩

/-! ## Claims about the order of posts and the release of the lock -/

/-- C26: in every run of `HvCreateNic`, `HvConnectNic`, `HvUpdateNic`, `HvDisconnectNic`
and `HvDeleteNic` that returns, the trace the handler adds has every call of
`OvsPostEvent` after the release of the dispatch lock the handler acquired, and none
while the lock is held. -/
theorem events_posted_after_release (env : Env) (s : KernelState)
    (nicParam : NDIS_SWITCH_NIC_PARAMETERS) (alloc : Option Nat) :
    (∀ r, HvCreateNic env s nicParam alloc = some r →
      ∃ t, r.2.trace = s.trace ++ t ∧ postsAfterRelease LockPhase.idle t = true) ∧
    (∀ s', HvConnectNic env s nicParam = some s' →
      ∃ t, s'.trace = s.trace ++ t ∧ postsAfterRelease LockPhase.idle t = true) ∧
    (∀ s', HvUpdateNic env s nicParam = some s' →
      ∃ t, s'.trace = s.trace ++ t ∧ postsAfterRelease LockPhase.idle t = true) ∧
    (∀ s', HvDisconnectNic env s nicParam = some s' →
      ∃ t, s'.trace = s.trace ++ t ∧ postsAfterRelease LockPhase.idle t = true) ∧
    (∀ s', HvDeleteNic env s nicParam = some s' →
      ∃ t, s'.trace = s.trace ++ t ∧ postsAfterRelease LockPhase.idle t = true) := by
  refine ⟨fun r h => ?_, fun s' h => HvConnectNic_posts env s s' nicParam h,
    fun s' h => HvUpdateNic_posts env s s' nicParam h,
    fun s' h => HvDisconnectNic_posts env s s' nicParam h,
    fun s' h => HvDeleteNic_posts env s s' nicParam h⟩
  rcases HvCreateNic_trace env s nicParam alloc r h with h0 | ⟨q, ps, ht, hq, hps⟩
  · exact ⟨[], by simp [h0], rfl⟩
  · exact ⟨_, ht, postsAfterRelease_shape q ps hq hps⟩

/-- C26, a worked instance: `HvConnectNic` for the internal NIC (10, 0) of the store
whose entry has port number 5 returns, and the trace it adds, the lock pair followed by
the LinkUp event and the adapter notification, posts after the release. -/
theorem events_posted_after_release_witness :
    ∃ s' t, HvConnectNic sampleEnv numberedInternalStore
        (sampleNic 10 0 NDIS_SWITCH_NIC_TYPE.NdisSwitchNicTypeInternal
          NDIS_SWITCH_NIC_STATE.NdisSwitchNicStateConnected) = some s' ∧
      s'.trace = numberedInternalStore.trace ++ t ∧
      Effect.OvsPostEvent 5 OVS_EVENT_LINK_UP ∈ s'.trace ∧
      postsAfterRelease LockPhase.idle t = true := by
  have hrun : (HvConnectNic sampleEnv numberedInternalStore
      (sampleNic 10 0 NDIS_SWITCH_NIC_TYPE.NdisSwitchNicTypeInternal
        NDIS_SWITCH_NIC_STATE.NdisSwitchNicStateConnected)).map
        (fun s' => decide (Effect.OvsPostEvent 5 OVS_EVENT_LINK_UP ∈ s'.trace)) =
      some true := by decide
  cases hc : HvConnectNic sampleEnv numberedInternalStore
      (sampleNic 10 0 NDIS_SWITCH_NIC_TYPE.NdisSwitchNicTypeInternal
        NDIS_SWITCH_NIC_STATE.NdisSwitchNicStateConnected) with
  | none => simp [hc] at hrun
  | some s' =>
    obtain ⟨t, ht, hp⟩ := (events_posted_after_release sampleEnv numberedInternalStore
      (sampleNic 10 0 NDIS_SWITCH_NIC_TYPE.NdisSwitchNicTypeInternal
        NDIS_SWITCH_NIC_STATE.NdisSwitchNicStateConnected) none).2.1 s' hc
    simp only [hc, Option.map_some', Option.some.injEq, decide_eq_true_eq] at hrun
    exact ⟨s', t, rfl, ht, hrun, hp⟩

/-! ## The query `OvsGetExtInfoIoctl` -/

theorem OvsGetExtInfoIoctl_find_emit (env : Env) (s : KernelState) (e : Effect)
    (vportGet : OVS_VPORT_GET) :
    OvsGetExtInfoIoctl_find env (s.emit e) vportGet =
      OvsGetExtInfoIoctl_find env s vportGet := rfl

/-- The conversion changes neither the switch context nor the entries, and its status and
the buffer it leaves do not depend on the state. -/
theorem OvsConvertIfCountedStrToAnsiStr_frame (qenv : QueryEnv) (s t : KernelState)
    (wStr : IF_COUNTED_STRING) (str : List Nat) (maxStrLen : Nat) :
    (OvsConvertIfCountedStrToAnsiStr qenv s wStr str maxStrLen).2.2.switchContext =
      s.switchContext ∧
    (OvsConvertIfCountedStrToAnsiStr qenv s wStr str maxStrLen).2.2.mem = s.mem ∧
    (OvsConvertIfCountedStrToAnsiStr qenv s wStr str maxStrLen).1 =
      (OvsConvertIfCountedStrToAnsiStr qenv t wStr str maxStrLen).1 ∧
    (OvsConvertIfCountedStrToAnsiStr qenv s wStr str maxStrLen).2.1 =
      (OvsConvertIfCountedStrToAnsiStr qenv t wStr str maxStrLen).2.1 := by
  rcases hr : qenv.RtlUnicodeStringToAnsiString wStr maxStrLen with ⟨st, astr⟩
  simp only [OvsConvertIfCountedStrToAnsiStr, hr]
  by_cases h1 : qenv.RtlUnicodeStringToAnsiSize wStr > maxStrLen
  · simp [h1]
  · by_cases h2 : st = NTSTATUS.STATUS_SUCCESS
    · simp [h1, h2]
    · simp [h1, h2]

/-- The status of the conversion does not depend on the buffer either. -/
theorem OvsConvertIfCountedStrToAnsiStr_status (qenv : QueryEnv) (s t : KernelState)
    (wStr : IF_COUNTED_STRING) (str str2 : List Nat) (maxStrLen : Nat) :
    (OvsConvertIfCountedStrToAnsiStr qenv s wStr str maxStrLen).1 =
      (OvsConvertIfCountedStrToAnsiStr qenv t wStr str2 maxStrLen).1 := by
  rcases hr : qenv.RtlUnicodeStringToAnsiString wStr maxStrLen with ⟨st, astr⟩
  simp only [OvsConvertIfCountedStrToAnsiStr, hr]
  by_cases h1 : qenv.RtlUnicodeStringToAnsiSize wStr > maxStrLen
  · simp [h1]
  · by_cases h2 : st = NTSTATUS.STATUS_SUCCESS
    · simp [h1, h2]
    · simp [h1, h2]

/-- A buffer that is not empty is not empty after the conversion. -/
theorem OvsConvertIfCountedStrToAnsiStr_nonempty (qenv : QueryEnv) (s : KernelState)
    (wStr : IF_COUNTED_STRING) (str : List Nat) (maxStrLen : Nat) (h : str ≠ []) :
    (OvsConvertIfCountedStrToAnsiStr qenv s wStr str maxStrLen).2.1 ≠ [] := by
  have hcopy : ∀ astr : List Nat, RtlCopyMemory str astr astr.length ≠ [] := by
    intro astr
    cases astr with
    | nil => simpa [RtlCopyMemory] using h
    | cons x rest => simp [RtlCopyMemory]
  rcases hr : qenv.RtlUnicodeStringToAnsiString wStr maxStrLen with ⟨st, astr⟩
  simp only [OvsConvertIfCountedStrToAnsiStr, hr]
  by_cases h1 : qenv.RtlUnicodeStringToAnsiSize wStr > maxStrLen
  · simpa [h1] using h
  · by_cases h2 : st = NTSTATUS.STATUS_SUCCESS
    · simp only [h1, h2, if_false, ne_eq, not_true_eq_false]
      intro hc
      exact hcopy astr (by simpa using hc)
    · simp only [h1, h2, if_false, ne_eq, not_false_eq_true, if_true]
      exact hcopy astr

/-- Writing 0 at index 0 of a buffer that is not empty makes its first byte 0. -/
theorem set_zero_head (l : List Nat) (h : l ≠ []) : (l.set 0 0).head? = some 0 := by
  cases l with
  | nil => exact absurd rfl h
  | cons x rest => rfl

/-- The query when the lookup returns `NULL`. -/
theorem OvsGetExtInfoIoctl_unknown (env : Env) (qenv : QueryEnv) (s : KernelState)
    (vportGet : OVS_VPORT_GET) (extInfo : OVS_VPORT_EXT_INFO)
    (hfind : OvsGetExtInfoIoctl_find env s vportGet = some none) :
    OvsGetExtInfoIoctl env qenv s vportGet extInfo =
      some (NTSTATUS.STATUS_DEVICE_DOES_NOT_EXIST, extInfo,
        { s with trace := s.trace ++ [Effect.NdisAcquireRWLockRead,
          Effect.NdisReleaseRWLock, Effect.NdisReleaseSpinLock] }) := by
  simp only [OvsGetExtInfoIoctl, OvsGetExtInfoIoctl_find_emit, hfind,
    OvsGetExtInfoIoctl_absent]
  simp [KernelState.emit]

/-- The query when the lookup returns an entry that is neither Connected nor
NicCreated. -/
theorem OvsGetExtInfoIoctl_wrong_state (env : Env) (qenv : QueryEnv) (s : KernelState)
    (vportGet : OVS_VPORT_GET) (extInfo : OVS_VPORT_EXT_INFO) (a : Nat)
    (e : OVS_VPORT_ENTRY)
    (hfind : OvsGetExtInfoIoctl_find env s vportGet = some (some a))
    (hmem : s.mem a = some e)
    (hst : e.ovsState ≠ OVS_VPORT_STATE.OVS_STATE_CONNECTED ∧
      e.ovsState ≠ OVS_VPORT_STATE.OVS_STATE_NIC_CREATED) :
    OvsGetExtInfoIoctl env qenv s vportGet extInfo =
      some (NTSTATUS.STATUS_DEVICE_DOES_NOT_EXIST, extInfo,
        { s with trace := s.trace ++ [Effect.NdisAcquireRWLockRead,
          Effect.NdisReleaseRWLock, Effect.NdisReleaseSpinLock] }) := by
  simp only [OvsGetExtInfoIoctl, OvsGetExtInfoIoctl_find_emit, hfind, emit_mem, hmem,
    OvsGetExtInfoIoctl_absent, hst, ne_eq, not_false_eq_true, and_self, if_true]
  simp [KernelState.emit]

/-- The record after the writes made under the lock, for an entry that is Connected or
NicCreated. -/
theorem OvsGetExtInfoIoctl_fill_spec (vportGet : OVS_VPORT_GET)
    (extInfo : OVS_VPORT_EXT_INFO) (e : OVS_VPORT_ENTRY)
    (hst : e.ovsState = OVS_VPORT_STATE.OVS_STATE_CONNECTED ∨
      e.ovsState = OVS_VPORT_STATE.OVS_STATE_NIC_CREATED) :
    (OvsGetExtInfoIoctl_fill vportGet extInfo e).2 =
      decide (e.ovsType = OVS_VPORT_TYPE.OVS_VPORT_TYPE_NETDEV) ∧
    (OvsGetExtInfoIoctl_fill vportGet extInfo e).1 =
      { dpNo := vportGet.dpNo
        portNo := e.portNo
        macAddress := e.currMacAddress
        permMACAddress := e.permMacAddress
        vmMACAddress :=
          if e.ovsType = OVS_VPORT_TYPE.OVS_VPORT_TYPE_NETDEV then e.vmMacAddress
          else extInfo.vmMACAddress
        nicIndex := e.nicIndex
        portId := e.portId
        type := e.ovsType
        mtu := e.mtu
        name := RtlCopyMemory extInfo.name e.ovsName (e.ovsNameLen + 1)
        status :=
          if e.ovsState = OVS_VPORT_STATE.OVS_STATE_NIC_CREATED then
            OVS_EVENT_CONNECT ||| OVS_EVENT_LINK_DOWN
          else OVS_EVENT_CONNECT ||| OVS_EVENT_LINK_UP
        vmUUID :=
          if e.ovsType = OVS_VPORT_TYPE.OVS_VPORT_TYPE_NETDEV then extInfo.vmUUID
          else extInfo.vmUUID.set 0 0
        vifUUID :=
          if e.ovsType = OVS_VPORT_TYPE.OVS_VPORT_TYPE_NETDEV then extInfo.vifUUID
          else extInfo.vifUUID.set 0 0 } := by
  unfold OvsGetExtInfoIoctl_fill
  by_cases hT : e.ovsType = OVS_VPORT_TYPE.OVS_VPORT_TYPE_NETDEV <;>
    rcases hst with h | h <;> simp [hT, h]

/-- The record after the two conversions, and the frame of the conversions. -/
theorem OvsGetExtInfoIoctl_convert_spec (qenv : QueryEnv) (s t : KernelState)
    (extInfo : OVS_VPORT_EXT_INFO) (e : OVS_VPORT_ENTRY) :
    (OvsGetExtInfoIoctl_convert qenv s extInfo e).1 =
      { extInfo with
        vmUUID :=
          if (OvsConvertIfCountedStrToAnsiStr qenv t e.vmName extInfo.vmUUID
                qenv.OVS_MAX_VM_UUID_LEN).1 ≠ NTSTATUS.STATUS_SUCCESS then
            (OvsConvertIfCountedStrToAnsiStr qenv t e.vmName extInfo.vmUUID
                qenv.OVS_MAX_VM_UUID_LEN).2.1.set 0 0
          else (OvsConvertIfCountedStrToAnsiStr qenv t e.vmName extInfo.vmUUID
                qenv.OVS_MAX_VM_UUID_LEN).2.1
        vifUUID :=
          if (OvsConvertIfCountedStrToAnsiStr qenv t e.nicName extInfo.vifUUID
                qenv.OVS_MAX_VIF_UUID_LEN).1 ≠ NTSTATUS.STATUS_SUCCESS then
            (OvsConvertIfCountedStrToAnsiStr qenv t e.nicName extInfo.vifUUID
                qenv.OVS_MAX_VIF_UUID_LEN).2.1.set 0 0
          else (OvsConvertIfCountedStrToAnsiStr qenv t e.nicName extInfo.vifUUID
                qenv.OVS_MAX_VIF_UUID_LEN).2.1 } ∧
    (OvsGetExtInfoIoctl_convert qenv s extInfo e).2.switchContext = s.switchContext ∧
    (OvsGetExtInfoIoctl_convert qenv s extInfo e).2.mem = s.mem := by
  have f1 := OvsConvertIfCountedStrToAnsiStr_frame qenv s t e.vmName extInfo.vmUUID
    qenv.OVS_MAX_VM_UUID_LEN
  rcases hc1 : OvsConvertIfCountedStrToAnsiStr qenv s e.vmName extInfo.vmUUID
      qenv.OVS_MAX_VM_UUID_LEN with ⟨st1, u1, s1⟩
  rw [hc1] at f1
  have f2 := OvsConvertIfCountedStrToAnsiStr_frame qenv s1 t e.nicName extInfo.vifUUID
    qenv.OVS_MAX_VIF_UUID_LEN
  rcases hc2 : OvsConvertIfCountedStrToAnsiStr qenv s1 e.nicName extInfo.vifUUID
      qenv.OVS_MAX_VIF_UUID_LEN with ⟨st2, u2, s2⟩
  rw [hc2] at f2
  simp only at f1 f2
  obtain ⟨f1c, f1m, f1s, f1b⟩ := f1
  obtain ⟨f2c, f2m, f2s, f2b⟩ := f2
  rcases extInfo with ⟨dpNo, portNo, mac, perm, vmMac, nicIndex, portId, type, mtu, name,
    status, vmUUID, vifUUID⟩
  simp only at hc1 hc2 f1s f1b f2s f2b
  simp only [OvsGetExtInfoIoctl_convert]
  by_cases h1 : st1 = NTSTATUS.STATUS_SUCCESS <;>
  by_cases h2 : st2 = NTSTATUS.STATUS_SUCCESS <;>
  simp [hc1, hc2, h1, h2, ← f1s, ← f1b, ← f2s, ← f2b, f2c, f2m, f1c, f1m]

/-- The query when the lookup returns an entry that is Connected or NicCreated: it
succeeds, and the record holds the fields of the entry. -/
theorem OvsGetExtInfoIoctl_resolved (env : Env) (qenv : QueryEnv) (s : KernelState)
    (vportGet : OVS_VPORT_GET) (extInfo : OVS_VPORT_EXT_INFO) (a : Nat)
    (e : OVS_VPORT_ENTRY)
    (hfind : OvsGetExtInfoIoctl_find env s vportGet = some (some a))
    (hmem : s.mem a = some e)
    (hst : e.ovsState = OVS_VPORT_STATE.OVS_STATE_CONNECTED ∨
      e.ovsState = OVS_VPORT_STATE.OVS_STATE_NIC_CREATED) :
    ∃ rec s', OvsGetExtInfoIoctl env qenv s vportGet extInfo =
        some (NTSTATUS.STATUS_SUCCESS, rec, s') ∧
      rec.dpNo = vportGet.dpNo ∧ rec.portNo = e.portNo ∧
      rec.macAddress = e.currMacAddress ∧ rec.permMACAddress = e.permMacAddress ∧
      rec.nicIndex = e.nicIndex ∧ rec.portId = e.portId ∧ rec.type = e.ovsType ∧
      rec.mtu = e.mtu ∧
      rec.name = RtlCopyMemory extInfo.name e.ovsName (e.ovsNameLen + 1) ∧
      rec.status =
        (if e.ovsState = OVS_VPORT_STATE.OVS_STATE_NIC_CREATED then
          OVS_EVENT_CONNECT ||| OVS_EVENT_LINK_DOWN
         else OVS_EVENT_CONNECT ||| OVS_EVENT_LINK_UP) ∧
      (e.ovsType = OVS_VPORT_TYPE.OVS_VPORT_TYPE_NETDEV →
        rec.vmMACAddress = e.vmMacAddress ∧
        rec.vmUUID =
          (if (OvsConvertIfCountedStrToAnsiStr qenv s e.vmName extInfo.vmUUID
                qenv.OVS_MAX_VM_UUID_LEN).1 ≠ NTSTATUS.STATUS_SUCCESS then
            (OvsConvertIfCountedStrToAnsiStr qenv s e.vmName extInfo.vmUUID
                qenv.OVS_MAX_VM_UUID_LEN).2.1.set 0 0
           else (OvsConvertIfCountedStrToAnsiStr qenv s e.vmName extInfo.vmUUID
                qenv.OVS_MAX_VM_UUID_LEN).2.1) ∧
        rec.vifUUID =
          (if (OvsConvertIfCountedStrToAnsiStr qenv s e.nicName extInfo.vifUUID
                qenv.OVS_MAX_VIF_UUID_LEN).1 ≠ NTSTATUS.STATUS_SUCCESS then
            (OvsConvertIfCountedStrToAnsiStr qenv s e.nicName extInfo.vifUUID
                qenv.OVS_MAX_VIF_UUID_LEN).2.1.set 0 0
           else (OvsConvertIfCountedStrToAnsiStr qenv s e.nicName extInfo.vifUUID
                qenv.OVS_MAX_VIF_UUID_LEN).2.1)) ∧
      (e.ovsType ≠ OVS_VPORT_TYPE.OVS_VPORT_TYPE_NETDEV →
        rec.vmMACAddress = extInfo.vmMACAddress ∧
        rec.vmUUID = extInfo.vmUUID.set 0 0 ∧ rec.vifUUID = extInfo.vifUUID.set 0 0) ∧
      s'.switchContext = s.switchContext ∧ s'.mem = s.mem := by
  have hnot : ¬ (e.ovsState ≠ OVS_VPORT_STATE.OVS_STATE_CONNECTED ∧
      e.ovsState ≠ OVS_VPORT_STATE.OVS_STATE_NIC_CREATED) := by
    rintro ⟨h1, h2⟩
    rcases hst with h | h
    · exact h1 h
    · exact h2 h
  obtain ⟨hdc, hrec⟩ := OvsGetExtInfoIoctl_fill_spec vportGet extInfo e hst
  rcases hf : OvsGetExtInfoIoctl_fill vportGet extInfo e with ⟨x1, dc⟩
  rw [hf] at hdc hrec
  simp only at hdc hrec
  simp only [OvsGetExtInfoIoctl, OvsGetExtInfoIoctl_find_emit, hfind, emit_mem, hmem,
    hnot, if_false, hf]
  by_cases hT : e.ovsType = OVS_VPORT_TYPE.OVS_VPORT_TYPE_NETDEV
  · have hdc2 : dc = true := by rw [hdc]; simp [hT]
    obtain ⟨hcv, hcc, hcm⟩ := OvsGetExtInfoIoctl_convert_spec qenv
      (((s.emit Effect.NdisAcquireRWLockRead).emit Effect.NdisReleaseRWLock).emit
        Effect.NdisReleaseSpinLock) s x1 e
    rcases hcr : OvsGetExtInfoIoctl_convert qenv
      (((s.emit Effect.NdisAcquireRWLockRead).emit Effect.NdisReleaseRWLock).emit
        Effect.NdisReleaseSpinLock) x1 e with ⟨x2, s2⟩
    rw [hcr] at hcv hcc hcm
    simp only at hcv hcc hcm
    simp only [hdc2, if_true, hcr]
    refine ⟨x2, s2, rfl, ?_⟩
    rw [hcv, hrec]
    simp [hT, hcc, hcm]
  · have hdc2 : dc = false := by rw [hdc]; simp [hT]
    simp only [hdc2, Bool.false_eq_true, if_false]
    refine ⟨x1, _, rfl, ?_⟩
    rw [hrec]
    simp [hT]

theorem StringCbLengthA_le (psz : List Nat) (cbMax : Nat) :
    StringCbLengthA psz cbMax ≤ psz.length := by
  unfold StringCbLengthA
  split
  · exact le_trans List.indexOf_le_length (by simp only [List.length_take]; omega)
  · exact Nat.zero_le _

/-- The name the query copies into the record begins with the bytes matched by the
lookup. -/
theorem RtlCopyMemory_name_take (dest src name : List Nat) (len : Nat)
    (hlen : len ≤ name.length) (hmatch : src.take len = name.take len) :
    (RtlCopyMemory dest src (len + 1)).take len = name.take len := by
  have hl : len ≤ src.length := by
    have h := congrArg List.length hmatch
    simp only [List.length_take] at h
    omega
  unfold RtlCopyMemory
  rw [List.take_append_of_le_length (by simp only [List.length_take]; omega),
    List.take_take, Nat.min_eq_left (Nat.le_succ len), hmatch]

/-- The name lookup returns `NULL` when every linked address is allocated and no entry
of the index has the length and the bytes asked for. -/
theorem OvsFindVportByOvsName_absent (env : Env) (s : KernelState) (name : List Nat)
    (len : Nat)
    (halloc : ∀ b a, a ∈ s.switchContext.ovsPortNameHashArray b → s.mem a ≠ none)
    (hno : ∀ b a e, a ∈ s.switchContext.ovsPortNameHashArray b → s.mem a = some e →
      ¬ (e.ovsNameLen = len ∧ e.ovsName.take len = name.take len)) :
    OvsFindVportByOvsName env s name len = some none := by
  obtain ⟨r, hr⟩ := findOvsNameLink_total s.mem name len
    (s.switchContext.ovsPortNameHashArray
      (env.OvsJhashBytes (name.take len) &&& env.OVS_VPORT_MASK))
    (fun a ha => halloc _ a ha)
  cases r with
  | none => exact hr
  | some a =>
    obtain ⟨hin, e, hme, hl, hb⟩ := findOvsNameLink_sound _ _ _ _ _ hr
    exact absurd ⟨hl, hb⟩ (hno _ a e hin hme)

/-! ## Claims about the query -/

/-- C22 (amended): for every store whose name index holds allocated addresses only, and
every query with `portNo` 0 whose name measures `len` bytes: (a) when no entry of the
name index has that name, `OvsGetExtInfoIoctl` returns `STATUS_DEVICE_DOES_NOT_EXIST`,
leaves the record as it was and changes nothing in the registry; (b) when the name index
is placed by the hash of the names, holds an entry with that name, and every entry with
that name is in state NicCreated or Connected, the query returns `STATUS_SUCCESS` with a
record whose name is the copy of the first `len + 1` name bytes of such an entry, so its
first `len` bytes are the name asked for; (c) when instead every entry with that name is
in neither of these two states, as an entry is right after the creation of its port, the
query returns `STATUS_DEVICE_DOES_NOT_EXIST`. -/
theorem OvsGetExtInfoIoctl_by_name (env : Env) (qenv : QueryEnv) (s : KernelState)
    (vportGet : OVS_VPORT_GET) (extInfo : OVS_VPORT_EXT_INFO) (len : Nat)
    (hport : vportGet.portNo = 0)
    (hlen : StringCbLengthA vportGet.name (env.OVS_MAX_PORT_NAME_LENGTH - 1) = len)
    (halloc : ∀ b a, a ∈ s.switchContext.ovsPortNameHashArray b → s.mem a ≠ none) :
    ((∀ b a e, a ∈ s.switchContext.ovsPortNameHashArray b → s.mem a = some e →
        ¬ (e.ovsNameLen = len ∧ e.ovsName.take len = vportGet.name.take len)) →
      OvsGetExtInfoIoctl env qenv s vportGet extInfo =
        some (NTSTATUS.STATUS_DEVICE_DOES_NOT_EXIST, extInfo,
          { s with trace := s.trace ++ [Effect.NdisAcquireRWLockRead,
            Effect.NdisReleaseRWLock, Effect.NdisReleaseSpinLock] })) ∧
    ((∀ b a e, a ∈ s.switchContext.ovsPortNameHashArray b → s.mem a = some e →
        b = env.OvsJhashBytes (e.ovsName.take e.ovsNameLen) &&& env.OVS_VPORT_MASK) →
      (∃ b a e, a ∈ s.switchContext.ovsPortNameHashArray b ∧ s.mem a = some e ∧
        e.ovsNameLen = len ∧ e.ovsName.take len = vportGet.name.take len) →
      ((∀ b a e, a ∈ s.switchContext.ovsPortNameHashArray b → s.mem a = some e →
          e.ovsNameLen = len ∧ e.ovsName.take len = vportGet.name.take len →
          e.ovsState = OVS_VPORT_STATE.OVS_STATE_CONNECTED ∨
          e.ovsState = OVS_VPORT_STATE.OVS_STATE_NIC_CREATED) →
        ∃ rec s', OvsGetExtInfoIoctl env qenv s vportGet extInfo =
            some (NTSTATUS.STATUS_SUCCESS, rec, s') ∧
          rec.name.take len = vportGet.name.take len ∧
          ∃ b a e, a ∈ s.switchContext.ovsPortNameHashArray b ∧ s.mem a = some e ∧
            e.ovsNameLen = len ∧ e.ovsName.take len = vportGet.name.take len ∧
            rec.name = RtlCopyMemory extInfo.name e.ovsName (len + 1)) ∧
      ((∀ b a e, a ∈ s.switchContext.ovsPortNameHashArray b → s.mem a = some e →
          e.ovsNameLen = len ∧ e.ovsName.take len = vportGet.name.take len →
          e.ovsState ≠ OVS_VPORT_STATE.OVS_STATE_CONNECTED ∧
          e.ovsState ≠ OVS_VPORT_STATE.OVS_STATE_NIC_CREATED) →
        OvsGetExtInfoIoctl env qenv s vportGet extInfo =
          some (NTSTATUS.STATUS_DEVICE_DOES_NOT_EXIST, extInfo,
            { s with trace := s.trace ++ [Effect.NdisAcquireRWLockRead,
              Effect.NdisReleaseRWLock, Effect.NdisReleaseSpinLock] }))) := by
  have hfindeq : OvsGetExtInfoIoctl_find env s vportGet =
      OvsFindVportByOvsName env s vportGet.name len := by
    simp [OvsGetExtInfoIoctl_find, hport, hlen]
  refine ⟨fun hno => ?_, fun hplace hex => ?_⟩
  · apply OvsGetExtInfoIoctl_unknown
    rw [hfindeq]
    exact OvsFindVportByOvsName_absent env s vportGet.name len halloc hno
  · obtain ⟨r, hr, hiff, hsound⟩ :=
      OvsFindVportByOvsName_placed env s vportGet.name len hplace halloc
    have hsome : r.isSome = true := hiff.2 hex
    cases r with
    | none => simp at hsome
    | some a =>
      obtain ⟨b, e, hin, hme, hl, hb⟩ := hsound a rfl
      refine ⟨fun hok => ?_, fun hbad => ?_⟩
      · obtain ⟨rec, s', hrun, _, _, _, _, _, _, _, _, hname, _⟩ :=
          OvsGetExtInfoIoctl_resolved env qenv s vportGet extInfo a e
            (by rw [hfindeq]; exact hr) hme (hok b a e hin hme ⟨hl, hb⟩)
        rw [hl] at hname
        refine ⟨rec, s', hrun, ?_, b, a, e, hin, hme, hl, hb, hname⟩
        rw [hname]
        exact RtlCopyMemory_name_take _ _ _ _ (hlen ▸ StringCbLengthA_le _ _) hb
      · exact OvsGetExtInfoIoctl_wrong_state env qenv s vportGet extInfo a e
          (by rw [hfindeq]; exact hr) hme (hbad b a e hin hme ⟨hl, hb⟩)

/-- The name index of `namedConnectedStore`: the entry at address 1 in bucket 54. -/
theorem namedConnectedStore_index (b : Nat) :
    namedConnectedStore.switchContext.ovsPortNameHashArray b =
      if b = 54 then [1] else [] := rfl

/-- The entries linked in the name index of `namedConnectedStore`: the address 1 in
bucket 54 only. -/
theorem namedConnectedStore_linked (b a : Nat)
    (ha : a ∈ namedConnectedStore.switchContext.ovsPortNameHashArray b) :
    b = 54 ∧ a = 1 := by
  rw [namedConnectedStore_index] at ha
  by_cases hb : b = 54
  · simp only [hb, if_true, List.mem_singleton] at ha
    exact ⟨hb, ha⟩
  · simp [hb] at ha

/-- The entry at address 1 of `namedConnectedStore`: named `vif1`, hashed to bucket 54,
in state Connected. -/
theorem namedConnectedStore_entry (e : OVS_VPORT_ENTRY)
    (hm : namedConnectedStore.mem 1 = some e) :
    e.ovsNameLen = 4 ∧ e.ovsName.take 4 = chars "vif1" ∧
    sampleEnv.OvsJhashBytes (e.ovsName.take e.ovsNameLen) &&& sampleEnv.OVS_VPORT_MASK = 54 ∧
    e.ovsState = OVS_VPORT_STATE.OVS_STATE_CONNECTED := by
  have h1 : (namedConnectedStore.mem 1).map (fun e => (e.ovsNameLen, e.ovsName.take 4,
      sampleEnv.OvsJhashBytes (e.ovsName.take e.ovsNameLen) &&& sampleEnv.OVS_VPORT_MASK,
      e.ovsState)) =
      some (4, chars "vif1", 54, OVS_VPORT_STATE.OVS_STATE_CONNECTED) := by decide
  rw [hm] at h1
  simp only [Option.map_some', Option.some.injEq, Prod.mk.injEq] at h1
  exact h1

/-- C22, a worked instance: on the store whose entry named `vif1` is Connected, the query
for `vif1` succeeds and the record begins with the four bytes of `vif1`. -/
theorem OvsGetExtInfoIoctl_by_name_witness :
    ∃ rec s', OvsGetExtInfoIoctl sampleEnv sampleQueryEnv namedConnectedStore
        (sampleGet (chars "vif1")) sampleRecord = some (NTSTATUS.STATUS_SUCCESS, rec, s') ∧
      rec.name.take 4 = chars "vif1" := by
  have halloc : ∀ b a, a ∈ namedConnectedStore.switchContext.ovsPortNameHashArray b →
      namedConnectedStore.mem a ≠ none := by
    intro b a ha
    rw [(namedConnectedStore_linked b a ha).2]
    decide
  have hplace : ∀ b a e, a ∈ namedConnectedStore.switchContext.ovsPortNameHashArray b →
      namedConnectedStore.mem a = some e →
      b = sampleEnv.OvsJhashBytes (e.ovsName.take e.ovsNameLen) &&&
        sampleEnv.OVS_VPORT_MASK := by
    intro b a e ha hm
    obtain ⟨hb, h1⟩ := namedConnectedStore_linked b a ha
    subst h1
    rw [hb, (namedConnectedStore_entry e hm).2.2.1]
  have hex : ∃ b a e, a ∈ namedConnectedStore.switchContext.ovsPortNameHashArray b ∧
      namedConnectedStore.mem a = some e ∧ e.ovsNameLen = 4 ∧
      e.ovsName.take 4 = (sampleGet (chars "vif1")).name.take 4 := by
    cases hm : namedConnectedStore.mem 1 with
    | none => exact absurd hm (by decide)
    | some e =>
      obtain ⟨h1, h2, _, _⟩ := namedConnectedStore_entry e hm
      exact ⟨54, 1, e, by decide, hm, h1, h2⟩
  have hok : ∀ b a e, a ∈ namedConnectedStore.switchContext.ovsPortNameHashArray b →
      namedConnectedStore.mem a = some e →
      e.ovsNameLen = 4 ∧ e.ovsName.take 4 = (sampleGet (chars "vif1")).name.take 4 →
      e.ovsState = OVS_VPORT_STATE.OVS_STATE_CONNECTED ∨
      e.ovsState = OVS_VPORT_STATE.OVS_STATE_NIC_CREATED := by
    intro b a e ha hm _
    obtain ⟨_, h1⟩ := namedConnectedStore_linked b a ha
    subst h1
    exact Or.inl (namedConnectedStore_entry e hm).2.2.2
  obtain ⟨rec, s', hrun, hname, _⟩ :=
    ((OvsGetExtInfoIoctl_by_name sampleEnv sampleQueryEnv namedConnectedStore
      (sampleGet (chars "vif1")) sampleRecord 4 rfl (by decide) halloc).2 hplace hex).1 hok
  exact ⟨rec, s', hrun, hname⟩

/-- C22 fails as stated right after the creation of the port: the entry of port 10 has
been created by `HvCreatePort`, is named `vif1` and is linked in the name index, its
state is PortCreated, and the query by the name `vif1` returns
`STATUS_DEVICE_DOES_NOT_EXIST`. -/
theorem OvsGetExtInfoIoctl_named_port_created_not_found :
    namedStore.switchContext.ovsPortNameHashArray
      (sampleEnv.OvsJhashBytes (chars "vif1") &&& sampleEnv.OVS_VPORT_MASK) = [1] ∧
    (namedStore.mem 1).map (fun e => (e.ovsNameLen, e.ovsName.take 5, e.ovsState)) =
      some (4, chars "vif1" ++ [0], OVS_VPORT_STATE.OVS_STATE_PORT_CREATED) ∧
    (sampleGet (chars "vif1")).name.take 5 = chars "vif1" ++ [0] ∧
    (OvsGetExtInfoIoctl sampleEnv sampleQueryEnv namedStore (sampleGet (chars "vif1"))
      sampleRecord).map (fun r => r.1) =
      some NTSTATUS.STATUS_DEVICE_DOES_NOT_EXIST := by
  decide

/-- C23: for every store and every query, a run of `OvsGetExtInfoIoctl` that returns
leaves the switch context and every entry as they were; when it returns
`STATUS_SUCCESS`, the lookup has resolved an allocated entry e that is Connected or
NicCreated, the fields `portNo`, `macAddress` (current MAC), `permMACAddress`, `nicIndex`,
`portId`, `type` and `mtu` of the record equal the fields of e, `dpNo` is the `dpNo` of
the request, and `status` is Connect|LinkUp when e is Connected and Connect|LinkDown when
e is NicCreated. -/
theorem OvsGetExtInfoIoctl_projection (env : Env) (qenv : QueryEnv) (s s' : KernelState)
    (vportGet : OVS_VPORT_GET) (extInfo rec : OVS_VPORT_EXT_INFO) (st : NTSTATUS)
    (h : OvsGetExtInfoIoctl env qenv s vportGet extInfo = some (st, rec, s')) :
    s'.switchContext = s.switchContext ∧ s'.mem = s.mem ∧
    (st = NTSTATUS.STATUS_SUCCESS →
      ∃ a e, OvsGetExtInfoIoctl_find env s vportGet = some (some a) ∧ s.mem a = some e ∧
        rec.portNo = e.portNo ∧ rec.macAddress = e.currMacAddress ∧
        rec.permMACAddress = e.permMacAddress ∧ rec.nicIndex = e.nicIndex ∧
        rec.portId = e.portId ∧ rec.type = e.ovsType ∧ rec.mtu = e.mtu ∧
        rec.dpNo = vportGet.dpNo ∧
        (e.ovsState = OVS_VPORT_STATE.OVS_STATE_CONNECTED ∨
          e.ovsState = OVS_VPORT_STATE.OVS_STATE_NIC_CREATED) ∧
        (e.ovsState = OVS_VPORT_STATE.OVS_STATE_CONNECTED →
          rec.status = OVS_EVENT_CONNECT ||| OVS_EVENT_LINK_UP) ∧
        (e.ovsState = OVS_VPORT_STATE.OVS_STATE_NIC_CREATED →
          rec.status = OVS_EVENT_CONNECT ||| OVS_EVENT_LINK_DOWN)) := by
  cases hfind : OvsGetExtInfoIoctl_find env s vportGet with
  | none =>
    simp only [OvsGetExtInfoIoctl, OvsGetExtInfoIoctl_find_emit, hfind] at h
    cases h
  | some found =>
    cases found with
    | none =>
      rw [OvsGetExtInfoIoctl_unknown env qenv s vportGet extInfo hfind] at h
      simp only [Option.some.injEq, Prod.mk.injEq] at h
      obtain ⟨h1, _, h3⟩ := h
      subst h1
      subst h3
      exact ⟨rfl, rfl, fun hc => by cases hc⟩
    | some a =>
      cases hmem : s.mem a with
      | none =>
        simp only [OvsGetExtInfoIoctl, OvsGetExtInfoIoctl_find_emit, hfind, emit_mem,
          hmem] at h
        cases h
      | some e =>
        by_cases hst : e.ovsState = OVS_VPORT_STATE.OVS_STATE_CONNECTED ∨
            e.ovsState = OVS_VPORT_STATE.OVS_STATE_NIC_CREATED
        · obtain ⟨rec2, s2, hrun, hdp, hpn, hmac, hperm, hidx, hpid, hty, hmtu, _, hstat,
            _, _, hctx, hm⟩ :=
            OvsGetExtInfoIoctl_resolved env qenv s vportGet extInfo a e hfind hmem hst
          rw [hrun] at h
          simp only [Option.some.injEq, Prod.mk.injEq] at h
          obtain ⟨_, h2, h3⟩ := h
          subst h2
          subst h3
          refine ⟨hctx, hm, fun _ => ⟨a, e, rfl, hmem, hpn, hmac, hperm, hidx, hpid, hty,
            hmtu, hdp, hst, ?_, ?_⟩⟩
          · intro hc
            rw [hstat]
            simp [hc]
          · intro hc
            rw [hstat]
            simp [hc]
        · have hbad : e.ovsState ≠ OVS_VPORT_STATE.OVS_STATE_CONNECTED ∧
              e.ovsState ≠ OVS_VPORT_STATE.OVS_STATE_NIC_CREATED :=
            ⟨fun hc => hst (Or.inl hc), fun hc => hst (Or.inr hc)⟩
          rw [OvsGetExtInfoIoctl_wrong_state env qenv s vportGet extInfo a e hfind hmem
            hbad] at h
          simp only [Option.some.injEq, Prod.mk.injEq] at h
          obtain ⟨h1, _, h3⟩ := h
          subst h1
          subst h3
          exact ⟨rfl, rfl, fun hc => by cases hc⟩

/-- C23, a worked instance: the query for `vif1` on the store whose entry named `vif1`,
for the synthetic NIC (10, 0) with MTU 1500, is Connected. -/
theorem OvsGetExtInfoIoctl_projection_witness :
    ∃ rec s', OvsGetExtInfoIoctl sampleEnv sampleQueryEnv namedConnectedStore
        (sampleGet (chars "vif1")) sampleRecord = some (NTSTATUS.STATUS_SUCCESS, rec, s') ∧
      s'.switchContext = namedConnectedStore.switchContext ∧
      s'.mem = namedConnectedStore.mem ∧
      rec.dpNo = 7 ∧
      (rec.portNo, rec.portId, rec.nicIndex, rec.mtu) = (65535, 10, 0, 1500) ∧
      rec.status = OVS_EVENT_CONNECT ||| OVS_EVENT_LINK_UP := by
  have hrun : (OvsGetExtInfoIoctl sampleEnv sampleQueryEnv namedConnectedStore
      (sampleGet (chars "vif1")) sampleRecord).map (fun r => r.1) =
      some NTSTATUS.STATUS_SUCCESS := by decide
  have hfind : OvsGetExtInfoIoctl_find sampleEnv namedConnectedStore
      (sampleGet (chars "vif1")) = some (some 1) := by decide
  have hent : (namedConnectedStore.mem 1).map
      (fun e => (e.portNo, e.portId, e.nicIndex, e.mtu)) = some (65535, 10, 0, 1500) := by
    decide
  have hstate : (namedConnectedStore.mem 1).map (fun e => e.ovsState) =
      some OVS_VPORT_STATE.OVS_STATE_CONNECTED := by decide
  cases hc : OvsGetExtInfoIoctl sampleEnv sampleQueryEnv namedConnectedStore
      (sampleGet (chars "vif1")) sampleRecord with
  | none => simp [hc] at hrun
  | some r =>
    obtain ⟨st, rec, s'⟩ := r
    simp only [hc, Option.map_some', Option.some.injEq] at hrun
    subst hrun
    obtain ⟨hctx, hm, hfields⟩ := OvsGetExtInfoIoctl_projection sampleEnv sampleQueryEnv
      namedConnectedStore s' (sampleGet (chars "vif1")) sampleRecord rec _ hc
    obtain ⟨a, e, hf, hme, hpn, _, _, hidx, hpid, _, hmtu, hdp, _, hup, _⟩ := hfields rfl
    rw [hfind] at hf
    simp only [Option.some.injEq] at hf
    subst hf
    rw [hme] at hent hstate
    simp only [Option.map_some', Option.some.injEq, Prod.mk.injEq] at hent hstate
    refine ⟨rec, s', rfl, hctx, hm, hdp, ?_, hup hstate⟩
    rw [hpn, hpid, hidx, hmtu, hent.1, hent.2.1, hent.2.2.1, hent.2.2.2]

/-- C24: for every entry e resolved by the lookup of `OvsGetExtInfoIoctl` that is in
state NicCreated or Connected, and every record whose two identifier buffers are not
empty, the query returns `STATUS_SUCCESS` whether or not the conversion of the VM name or
of the NIC name fails; the fields `portNo`, `type`, `macAddress`, `permMACAddress` and
`mtu` of the record are those of e; for an entry of kind NETDEV, the only kind whose
names are converted, `vmMACAddress` is that of e and each of `vmUUID` and `vifUUID`
whose conversion fails has 0 as its first byte; for an entry of another kind both have 0
as their first byte. -/
theorem OvsGetExtInfoIoctl_conversion_failure (env : Env) (qenv : QueryEnv)
    (s : KernelState) (vportGet : OVS_VPORT_GET) (extInfo : OVS_VPORT_EXT_INFO) (a : Nat)
    (e : OVS_VPORT_ENTRY)
    (hfind : OvsGetExtInfoIoctl_find env s vportGet = some (some a))
    (hmem : s.mem a = some e)
    (hst : e.ovsState = OVS_VPORT_STATE.OVS_STATE_CONNECTED ∨
      e.ovsState = OVS_VPORT_STATE.OVS_STATE_NIC_CREATED)
    (hvm : extInfo.vmUUID ≠ []) (hvif : extInfo.vifUUID ≠ []) :
    ∃ rec s', OvsGetExtInfoIoctl env qenv s vportGet extInfo =
        some (NTSTATUS.STATUS_SUCCESS, rec, s') ∧
      rec.portNo = e.portNo ∧ rec.type = e.ovsType ∧
      rec.macAddress = e.currMacAddress ∧ rec.permMACAddress = e.permMacAddress ∧
      rec.mtu = e.mtu ∧
      (e.ovsType = OVS_VPORT_TYPE.OVS_VPORT_TYPE_NETDEV →
        rec.vmMACAddress = e.vmMacAddress ∧
        ((OvsConvertIfCountedStrToAnsiStr qenv s e.vmName extInfo.vmUUID
            qenv.OVS_MAX_VM_UUID_LEN).1 ≠ NTSTATUS.STATUS_SUCCESS →
          rec.vmUUID.head? = some 0) ∧
        ((OvsConvertIfCountedStrToAnsiStr qenv s e.nicName extInfo.vifUUID
            qenv.OVS_MAX_VIF_UUID_LEN).1 ≠ NTSTATUS.STATUS_SUCCESS →
          rec.vifUUID.head? = some 0)) ∧
      (e.ovsType ≠ OVS_VPORT_TYPE.OVS_VPORT_TYPE_NETDEV →
        rec.vmUUID.head? = some 0 ∧ rec.vifUUID.head? = some 0) := by
  obtain ⟨rec, s', hrun, _, hpn, hmac, hperm, _, _, hty, hmtu, _, _, hnet, hother, _, _⟩ :=
    OvsGetExtInfoIoctl_resolved env qenv s vportGet extInfo a e hfind hmem hst
  refine ⟨rec, s', hrun, hpn, hty, hmac, hperm, hmtu, fun hT => ?_, fun hT => ?_⟩
  · obtain ⟨h1, h2, h3⟩ := hnet hT
    refine ⟨h1, fun hf => ?_, fun hf => ?_⟩
    · rw [h2, if_pos hf]
      exact set_zero_head _ (OvsConvertIfCountedStrToAnsiStr_nonempty _ _ _ _ _ hvm)
    · rw [h3, if_pos hf]
      exact set_zero_head _ (OvsConvertIfCountedStrToAnsiStr_nonempty _ _ _ _ _ hvif)
  · obtain ⟨_, h2, h3⟩ := hother hT
    rw [h2, h3]
    exact ⟨set_zero_head _ hvm, set_zero_head _ hvif⟩

/-- C24, a worked instance: the entry named `vif1` is Connected, of kind NETDEV, its VM
name is 512 bytes long and does not fit the identifier buffer of 8 bytes, its NIC name
does; the query succeeds, `vmUUID` has 0 as its first byte and `vifUUID` holds the
converted NIC name. -/
theorem OvsGetExtInfoIoctl_conversion_failure_witness :
    (OvsConvertIfCountedStrToAnsiStr sampleQueryEnv longVmNameStore ⟨512, []⟩
      sampleRecord.vmUUID sampleQueryEnv.OVS_MAX_VM_UUID_LEN).1 =
      NTSTATUS.STATUS_BUFFER_OVERFLOW ∧
    ∃ rec s', OvsGetExtInfoIoctl sampleEnv sampleQueryEnv longVmNameStore
        (sampleGet (chars "vif1")) sampleRecord = some (NTSTATUS.STATUS_SUCCESS, rec, s') ∧
      rec.vmUUID.head? = some 0 ∧ rec.mtu = 1500 := by
  have hent : (longVmNameStore.mem 1).map
      (fun e => (e.ovsState, e.ovsType, e.vmName, e.mtu)) =
      some (OVS_VPORT_STATE.OVS_STATE_CONNECTED, OVS_VPORT_TYPE.OVS_VPORT_TYPE_NETDEV,
        ⟨512, []⟩, 1500) := by decide
  refine ⟨by decide, ?_⟩
  cases hm : longVmNameStore.mem 1 with
  | none => simp [hm] at hent
  | some e =>
    rw [hm] at hent
    simp only [Option.map_some', Option.some.injEq, Prod.mk.injEq] at hent
    obtain ⟨hs, hT, hv, hmtu⟩ := hent
    obtain ⟨rec, s', hrun, _, _, _, _, hrm, hnet, _⟩ :=
      OvsGetExtInfoIoctl_conversion_failure sampleEnv sampleQueryEnv longVmNameStore
        (sampleGet (chars "vif1")) sampleRecord 1 e (by decide) hm (Or.inl hs)
        (by decide) (by decide)
    refine ⟨rec, s', hrun, (hnet hT).2.1 ?_, by rw [hrm, hmtu]⟩
    rw [hv]
    decide

/-! ## Claims about the undoing of the population, the internal slot and tunnel vports -/

/-- The loop of `OvsClearAllSwitchVports` started at 0 does not end when the bucket array
is not empty: an empty bucket 0 leaves the counter at 0 for the next iteration, and a
bucket 0 that links an entry is walked past an entry that has been freed. -/
theorem OvsClearAllSwitchVports_loop_never_ends (env : Env)
    (hsize : 0 < env.OVS_MAX_VPORT_ARRAY_SIZE) (fuel : Nat) :
    ∀ s, OvsClearAllSwitchVports_loop env fuel 0 s = none := by
  induction fuel with
  | zero => intro s; rfl
  | succ n ih =>
    intro s
    simp only [OvsClearAllSwitchVports_loop, hsize, if_true, Nat.zero_and]
    cases hb : s.switchContext.portNoHashArray 0 with
    | nil =>
      simp only [OvsClearAllSwitchVports_bucket]
      exact ih s
    | cons a rest =>
      simp only [OvsClearAllSwitchVports_bucket]
      cases OvsRemoveAndDeleteVport s a <;> rfl

/-- C32 fails on every store when the bucket array has 64 buckets: whatever the number
of iterations allowed, `OvsClearAllSwitchVports` does not return; on the empty store
every iteration of its loop finds the counter `hash` at 0 and bucket 0 empty, so the
second iteration starts from the same counter and store as the first. -/
theorem OvsClearAllSwitchVports_never_returns (s : KernelState) (fuel : Nat) :
    OvsClearAllSwitchVports sampleEnv fuel s = none ∧
    OvsClearAllSwitchVports_loop sampleEnv (fuel + 1) 0 emptyState =
      OvsClearAllSwitchVports_loop sampleEnv fuel 0 emptyState := by
  refine ⟨?_, rfl⟩
  simp [OvsClearAllSwitchVports,
    OvsClearAllSwitchVports_loop_never_ends sampleEnv (by decide) fuel s]

/-- C33 (amended): for every store and every port id P whose allocated entry e is found
by `HvDeletePort`: if the kind of e is not Internal, or e is an external port-level entry
(`isExternal` set and nicIndex 0), then `HvDeletePort` returns and `internalVport` and
`internalPortId` are the same after the call as before; if the kind of e is Internal and
e is not an external port-level entry, then `HvDeletePort` returns with `internalVport`
set to `NULL` and `internalPortId` to 0, whether or not e was the occupant of the
internal slot. -/
theorem HvDeletePort_internal_slot (env : Env) (s : KernelState)
    (portParam : NDIS_SWITCH_PORT_PARAMETERS) (a : Nat) (e : OVS_VPORT_ENTRY)
    (hfind : OvsFindVportByPortIdAndNicIndex env s portParam.PortId 0 = some (some a))
    (hmem : s.mem a = some e) :
    (e.ovsType ≠ OVS_VPORT_TYPE.OVS_VPORT_TYPE_INTERNAL ∨
        (e.isExternal = true ∧ e.nicIndex = 0) →
      ∃ s', HvDeletePort env s portParam = some s' ∧
        s'.switchContext.internalVport = s.switchContext.internalVport ∧
        s'.switchContext.internalPortId = s.switchContext.internalPortId) ∧
    (e.ovsType = OVS_VPORT_TYPE.OVS_VPORT_TYPE_INTERNAL ∧
        ¬ (e.isExternal = true ∧ e.nicIndex = 0) →
      ∃ s', HvDeletePort env s portParam = some s' ∧
        s'.switchContext.internalVport = none ∧
        s'.switchContext.internalPortId = 0) := by
  rw [HvDeletePort_found env s portParam a hfind]
  unfold OvsRemoveAndDeleteVport
  simp only [emit_mem, hmem]
  by_cases hE : e.isExternal = true ∧ e.nicIndex = 0
  · simp only [hE, and_self, if_true, Option.map_some', or_true, true_implies,
      not_true_eq_false, and_false, false_implies, and_true]
    exact ⟨_, rfl, by simp, by simp⟩
  · simp only [hE, if_false, Option.map_some', or_false, not_false_eq_true, and_true]
    by_cases hT : e.ovsType = OVS_VPORT_TYPE.OVS_VPORT_TYPE_INTERNAL
    · refine ⟨fun h => absurd hT h, fun _ => ?_⟩
      cases hX : e.isExternal <;> simp only [hT, hX] <;> exact ⟨_, rfl, by simp, by simp⟩
    · refine ⟨fun _ => ?_, fun h => absurd h hT⟩
      cases hX : e.isExternal <;> cases hT2 : e.ovsType <;>
        first
          | exact absurd hT2 hT
          | (simp only [hX]
             exact ⟨_, rfl, by simp, by simp⟩)

/-- C33, a worked instance: deleting the synthetic port 10 leaves the internal slot as it
is, and deleting the internal port 10 that occupies the slot empties it. -/
theorem HvDeletePort_internal_slot_witness :
    (∃ s', HvDeletePort sampleEnv portTenStore
        (samplePort 10 NDIS_SWITCH_PORT_TYPE.NdisSwitchPortTypeSynthetic
          NDIS_SWITCH_PORT_STATE.NdisSwitchPortStateCreated) = some s' ∧
      s'.switchContext.internalVport = portTenStore.switchContext.internalVport ∧
      s'.switchContext.internalPortId = portTenStore.switchContext.internalPortId) ∧
    (∃ s', HvDeletePort sampleEnv internalStore
        (samplePort 10 NDIS_SWITCH_PORT_TYPE.NdisSwitchPortTypeInternal
          NDIS_SWITCH_PORT_STATE.NdisSwitchPortStateCreated) = some s' ∧
      s'.switchContext.internalVport = none ∧ s'.switchContext.internalPortId = 0) :=
  ⟨(HvDeletePort_internal_slot sampleEnv portTenStore
      (samplePort 10 NDIS_SWITCH_PORT_TYPE.NdisSwitchPortTypeSynthetic
        NDIS_SWITCH_PORT_STATE.NdisSwitchPortStateCreated) 1 _ (by decide) rfl).1
      (Or.inl (by decide)),
   (HvDeletePort_internal_slot sampleEnv internalStore
      (samplePort 10 NDIS_SWITCH_PORT_TYPE.NdisSwitchPortTypeInternal
        NDIS_SWITCH_PORT_STATE.NdisSwitchPortStateCreated) 1 _ (by decide) rfl).2
      ⟨by decide, by decide⟩⟩

/-- C33 fails as stated when a second entry of Internal kind exists: the internal slot
holds the entry of port 11 at address 2, the entry `HvDeletePort` finds for port 10 is
the one at address 1, which is not the occupant, and after the call the slot is empty
and its recorded port id is 0, although the entry at address 2 is still allocated and
linked in the port-id index. -/
theorem HvDeletePort_non_occupant_empties_internal_slot :
    (twoInternalStore.switchContext.internalVport,
      twoInternalStore.switchContext.internalPortId) = (some 2, 11) ∧
    OvsFindVportByPortIdAndNicIndex sampleEnv twoInternalStore 10 0 = some (some 1) ∧
    (HvDeletePort sampleEnv twoInternalStore
        (samplePort 10 NDIS_SWITCH_PORT_TYPE.NdisSwitchPortTypeInternal
          NDIS_SWITCH_PORT_STATE.NdisSwitchPortStateCreated)).map
      (fun s' => (s'.switchContext.internalVport, s'.switchContext.internalPortId,
        (s'.mem 2).isSome, s'.switchContext.portIdHashArray 11)) =
      some (none, 0, true, [2]) := by
  decide

/-- The name buffer after the copy of the request's name and the write of the final NUL:
its first `N - 1` bytes are those of the request's name, and byte `N - 1` is 0. -/
theorem tunnel_name_buffer (dest name : List Nat) (N : Nat) (hN : N ≤ name.length) :
    ((RtlCopyMemory dest name N).set (N - 1) 0).take (N - 1) = name.take (N - 1) ∧
    (0 < N → ((RtlCopyMemory dest name N).set (N - 1) 0).get? (N - 1) = some 0) := by
  have hlen : (name.take N).length = N := by simp [List.length_take, hN]
  refine ⟨?_, fun hpos => ?_⟩
  · rw [List.set_take, List.set_eq_of_length_le (List.length_take_le _ _)]
    unfold RtlCopyMemory
    rw [List.take_append_of_le_length (by rw [hlen]; omega), List.take_take,
      Nat.min_eq_left (Nat.sub_le _ _)]
  · rw [List.get?_eq_getElem?, List.getElem?_set_self]
    unfold RtlCopyMemory
    rw [List.length_append, hlen]
    omega

/-- The length measured in a buffer whose first `cb` bytes hold a NUL: the index of the
first NUL, which is below `cb`, and the byte at that index is 0. -/
theorem StringCbLengthA_found (psz : List Nat) (cb : Nat) (h : 0 ∈ psz.take cb) :
    StringCbLengthA psz cb = (psz.take cb).indexOf 0 ∧
    StringCbLengthA psz cb < cb ∧
    psz.get? (StringCbLengthA psz cb) = some 0 := by
  have hlt : (psz.take cb).indexOf 0 < (psz.take cb).length := List.indexOf_lt_length.2 h
  have hlt2 : (psz.take cb).indexOf 0 < cb := by
    have := List.length_take_le cb psz
    omega
  have hval : StringCbLengthA psz cb = (psz.take cb).indexOf 0 := by
    simp [StringCbLengthA, h]
  refine ⟨hval, by rw [hval]; exact hlt2, ?_⟩
  rw [hval]
  have h1 : (psz.take cb).get? ((psz.take cb).indexOf 0) = some 0 := by
    rw [List.get?_eq_getElem?, List.getElem?_eq_getElem hlt]
    simp
  rw [List.get?_eq_getElem?, List.getElem?_take_of_lt hlt2] at h1
  rw [List.get?_eq_getElem?]
  exact h1

/-- C31: for every add request whose name buffer holds `OVS_MAX_PORT_NAME_LENGTH` bytes
with a NUL among the first `OVS_MAX_PORT_NAME_LENGTH - 1`, and every allocated entry,
`OvsInitTunnelVport` returns; the kind of the entry is the type of the request and its
state is PortCreated; the first `OVS_MAX_PORT_NAME_LENGTH - 1` bytes of `ovsName` are
those of the request's name and `ovsName[OVS_MAX_PORT_NAME_LENGTH - 1]` is 0;
`ovsNameLen` is the number of name bytes before the first NUL, it is below
`OVS_MAX_PORT_NAME_LENGTH - 1`, and `ovsName[ovsNameLen]` is 0. -/
theorem OvsInitTunnelVport_spec (env : Env) (tenv : TunnelEnv) (s : KernelState)
    (a : Nat) (e : OVS_VPORT_ENTRY) (addReq : OVS_VPORT_ADD_REQUEST)
    (hmem : s.mem a = some e)
    (hbuf : env.OVS_MAX_PORT_NAME_LENGTH ≤ addReq.name.length)
    (hnul : 0 ∈ addReq.name.take (env.OVS_MAX_PORT_NAME_LENGTH - 1)) :
    ∃ st s' e', OvsInitTunnelVport env tenv s a addReq = some (st, s') ∧
      s'.mem a = some e' ∧
      e'.ovsType = addReq.type ∧
      e'.ovsState = OVS_VPORT_STATE.OVS_STATE_PORT_CREATED ∧
      e'.ovsName.take (env.OVS_MAX_PORT_NAME_LENGTH - 1) =
        addReq.name.take (env.OVS_MAX_PORT_NAME_LENGTH - 1) ∧
      e'.ovsName.get? (env.OVS_MAX_PORT_NAME_LENGTH - 1) = some 0 ∧
      e'.ovsNameLen =
        (addReq.name.take (env.OVS_MAX_PORT_NAME_LENGTH - 1)).indexOf 0 ∧
      e'.ovsNameLen < env.OVS_MAX_PORT_NAME_LENGTH - 1 ∧
      e'.ovsName.get? e'.ovsNameLen = some 0 := by
  have hpos : 0 < env.OVS_MAX_PORT_NAME_LENGTH := by
    cases hz : env.OVS_MAX_PORT_NAME_LENGTH with
    | zero => rw [hz] at hnul; simp at hnul
    | succ n => exact Nat.succ_pos n
  obtain ⟨htake, hlast⟩ := tunnel_name_buffer e.ovsName addReq.name
    env.OVS_MAX_PORT_NAME_LENGTH hbuf
  have hnul2 : 0 ∈ ((RtlCopyMemory e.ovsName addReq.name
      env.OVS_MAX_PORT_NAME_LENGTH).set (env.OVS_MAX_PORT_NAME_LENGTH - 1) 0).take
      (env.OVS_MAX_PORT_NAME_LENGTH - 1) := by rw [htake]; exact hnul
  obtain ⟨hval, hlt, hzero⟩ := StringCbLengthA_found _ _ hnul2
  rw [htake] at hval
  simp only [OvsInitTunnelVport, hmem]
  cases hT : addReq.type
  · exact ⟨_, _, _, rfl, by rw [ASSERT_mem]; exact store_mem_same _ _ _, rfl, rfl,
      htake, hlast hpos, hval, hlt, hzero⟩
  · exact ⟨_, _, _, rfl, by rw [ASSERT_mem]; exact store_mem_same _ _ _, rfl, rfl,
      htake, hlast hpos, hval, hlt, hzero⟩
  · exact ⟨_, _, _, rfl, by rw [ASSERT_mem]; exact store_mem_same _ _ _, rfl, rfl,
      htake, hlast hpos, hval, hlt, hzero⟩
  · exact ⟨_, _, _, rfl, store_mem_same _ _ _, rfl, rfl, htake, hlast hpos, hval, hlt,
      hzero⟩
  · exact ⟨_, _, _, rfl, store_mem_same _ _ _, rfl, rfl, htake, hlast hpos, hval, hlt,
      hzero⟩
  · exact ⟨_, _, _, rfl, store_mem_same _ _ _, rfl, rfl, htake, hlast hpos, hval, hlt,
      hzero⟩

/-- C31, a worked instance: the request for the VXLAN vport `vxlan0` on a newly allocated
entry. -/
theorem OvsInitTunnelVport_spec_witness :
    ∃ st s' e', OvsInitTunnelVport sampleEnv sampleTunnelEnv freshEntryStore 1
        sampleAddReq = some (st, s') ∧
      s'.mem 1 = some e' ∧
      e'.ovsType = OVS_VPORT_TYPE.OVS_VPORT_TYPE_VXLAN ∧
      e'.ovsState = OVS_VPORT_STATE.OVS_STATE_PORT_CREATED ∧
      e'.ovsName.take 15 = chars "vxlan0" ++ List.replicate 9 0 ∧
      e'.ovsName.get? 15 = some 0 ∧
      e'.ovsNameLen = 6 ∧ e'.ovsNameLen < 15 ∧ e'.ovsName.get? e'.ovsNameLen = some 0 :=
  OvsInitTunnelVport_spec sampleEnv sampleTunnelEnv freshEntryStore 1 _ sampleAddReq rfl
    (by decide) (by decide)

/-! ## The count of vports -/

/-- Summing a per-bucket quantity that splits into two parts in every bucket. -/
theorem sum_range_split (f g c : Nat → Nat) (n : Nat)
    (h : ∀ b, b < n → f b = g b + c b) :
    ((List.range n).map f).sum = ((List.range n).map g).sum + ((List.range n).map c).sum := by
  induction n with
  | zero => simp
  | succ n ih =>
    rw [List.range_succ]
    simp only [List.map_append, List.sum_append, List.map_cons, List.map_nil, List.sum_cons,
      List.sum_nil, add_zero]
    rw [ih (fun b hb => h b (by omega)), h n (by omega)]
    omega

/-- Summing two per-bucket quantities that agree in every bucket. -/
theorem sum_range_congr (f g : Nat → Nat) (n : Nat) (h : ∀ b, b < n → f b = g b) :
    ((List.range n).map f).sum = ((List.range n).map g).sum := by
  congr 1
  apply List.map_congr_left
  intro b hb
  exact h b (List.mem_range.mp hb)

/-- An element of the summed list is at most the sum. -/
theorem le_sum_range (f : Nat → Nat) (n b : Nat) (hb : b < n) :
    f b ≤ ((List.range n).map f).sum := by
  induction n with
  | zero => omega
  | succ n ih =>
    rw [List.range_succ]
    simp only [List.map_append, List.sum_append, List.map_cons, List.map_nil, List.sum_cons,
      List.sum_nil, add_zero]
    by_cases h : b < n
    · have := ih h
      omega
    · have : b = n := by omega
      subst this
      omega

/-- Unlinking the address `a` from a list shortens it by the number of times `a` is
linked there. -/
theorem filter_length_add_count (l : List Nat) (a : Nat) :
    l.length = (l.filter (fun b => b != a)).length + l.count a := by
  induction l with
  | nil => rfl
  | cons x rest ih =>
    by_cases hx : x = a
    · subst hx
      simp only [List.filter_cons, bne_self_eq_false, Bool.false_eq_true, if_false,
        List.length_cons, List.count_cons_self]
      omega
    · have hb : (x != a) = true := by simp [hx]
      simp only [List.filter_cons, hb, if_true, List.length_cons, List.count_cons, beq_iff_eq,
        hx, if_false]
      omega

/-- Unlinking the address `a` from a list leaves the other addresses linked as often as
before. -/
theorem count_filter_ne (l : List Nat) (a c : Nat) :
    (l.filter (fun b => b != a)).count c = if c = a then 0 else l.count c := by
  induction l with
  | nil => simp
  | cons x rest ih =>
    by_cases hx : x = a
    · subst hx
      by_cases hc : c = x
      · subst hc
        simp only [List.filter_cons, bne_self_eq_false, Bool.false_eq_true, if_false, ih,
          if_true]
      · have hxc : ¬ x = c := fun h => hc h.symm
        simp only [List.filter_cons, bne_self_eq_false, Bool.false_eq_true, if_false, ih, hc,
          List.count_cons, beq_iff_eq, hxc]
        omega
    · have hb : (x != a) = true := by simp [hx]
      simp only [List.filter_cons, hb, if_true, List.count_cons, ih]
      by_cases hc : c = a
      · subst hc
        simp [hx]
      · simp [hc]

theorem linkedInIndex_congr (env : Env) (s s' : KernelState)
    (h : s'.switchContext.portIdHashArray = s.switchContext.portIdHashArray) :
    linkedInIndex env s' = linkedInIndex env s := by
  unfold linkedInIndex
  rw [h]

theorem linkCount_congr (env : Env) (s s' : KernelState) (c : Nat)
    (h : s'.switchContext.portIdHashArray = s.switchContext.portIdHashArray) :
    linkCount env s' c = linkCount env s c := by
  unfold linkCount
  rw [h]

/-- Linking an address at the head of a bucket raises the number of linked entries by
one. -/
theorem linkedInIndex_insert (env : Env) (s s' : KernelState) (b0 a : Nat)
    (hb : b0 < env.OVS_MAX_VPORT_ARRAY_SIZE)
    (h : s'.switchContext.portIdHashArray =
      InsertHeadList s.switchContext.portIdHashArray b0 a) :
    linkedInIndex env s' = linkedInIndex env s + 1 := by
  unfold linkedInIndex
  rw [h]
  have := sum_range_bump (fun b => (s.switchContext.portIdHashArray b).length)
    (fun b => (InsertHeadList s.switchContext.portIdHashArray b0 a b).length) b0 1
    env.OVS_MAX_VPORT_ARRAY_SIZE (by simp [InsertHeadList])
    (fun b _ hne => by simp [InsertHeadList, hne]) env.OVS_MAX_VPORT_ARRAY_SIZE (le_refl _)
  simpa [hb] using this

/-- Linking the address `a` at the head of a bucket raises the number of links of `a`
by one and leaves that of the other addresses. -/
theorem linkCount_insert (env : Env) (s s' : KernelState) (b0 a c : Nat)
    (hb : b0 < env.OVS_MAX_VPORT_ARRAY_SIZE)
    (h : s'.switchContext.portIdHashArray =
      InsertHeadList s.switchContext.portIdHashArray b0 a) :
    linkCount env s' c = linkCount env s c + (if c = a then 1 else 0) := by
  unfold linkCount
  rw [h]
  have := sum_range_bump (fun b => (s.switchContext.portIdHashArray b).count c)
    (fun b => (InsertHeadList s.switchContext.portIdHashArray b0 a b).count c) b0
    (if c = a then 1 else 0)
    env.OVS_MAX_VPORT_ARRAY_SIZE
    (by
      by_cases hc : c = a
      · subst hc; simp [InsertHeadList]
      · have hac : ¬ a = c := fun h => hc h.symm
        simp [InsertHeadList, List.count_cons, hc, hac])
    (fun b _ hne => by simp [InsertHeadList, hne]) env.OVS_MAX_VPORT_ARRAY_SIZE (le_refl _)
  simpa [hb] using this

/-- Unlinking the address `a` lowers the number of linked entries by the number of links
of `a`. -/
theorem linkedInIndex_remove (env : Env) (s s' : KernelState) (a : Nat)
    (h : s'.switchContext.portIdHashArray =
      RemoveEntryList s.switchContext.portIdHashArray a) :
    linkedInIndex env s = linkedInIndex env s' + linkCount env s a := by
  unfold linkedInIndex linkCount
  rw [h]
  exact sum_range_split _ _ _ _
    (fun b _ => filter_length_add_count (s.switchContext.portIdHashArray b) a)

/-- Unlinking the address `a` leaves `a` linked nowhere and the other addresses linked
as often as before. -/
theorem linkCount_remove (env : Env) (s s' : KernelState) (a c : Nat)
    (h : s'.switchContext.portIdHashArray =
      RemoveEntryList s.switchContext.portIdHashArray a) :
    linkCount env s' c = if c = a then 0 else linkCount env s c := by
  unfold linkCount
  rw [h]
  by_cases hc : c = a
  · simp only [hc, if_true]
    apply List.sum_eq_zero
    intro n hn
    rw [List.mem_map] at hn
    obtain ⟨b, _, rfl⟩ := hn
    simp [RemoveEntryList, count_filter_ne]
  · simp only [hc, if_false]
    apply sum_range_congr
    intro b _
    simp [RemoveEntryList, count_filter_ne, hc]

/-- An address linked in a bucket of the index has at least one link. -/
theorem linkCount_pos (env : Env) (s : KernelState) (a b : Nat)
    (hb : b < env.OVS_MAX_VPORT_ARRAY_SIZE) (ha : a ∈ s.switchContext.portIdHashArray b) :
    1 ≤ linkCount env s a := by
  unfold linkCount
  have h1 : 1 ≤ (s.switchContext.portIdHashArray b).count a :=
    List.count_pos_iff.mpr ha
  have h2 := le_sum_range (fun b => (s.switchContext.portIdHashArray b).count a)
    env.OVS_MAX_VPORT_ARRAY_SIZE b hb
  exact le_trans h1 h2

/-- An address linked in no bucket of the index has no link. -/
theorem linkCount_zero (env : Env) (s : KernelState) (a : Nat)
    (h : ∀ b, b < env.OVS_MAX_VPORT_ARRAY_SIZE → a ∉ s.switchContext.portIdHashArray b) :
    linkCount env s a = 0 := by
  unfold linkCount
  apply List.sum_eq_zero
  intro n hn
  rw [List.mem_map] at hn
  obtain ⟨b, hb, rfl⟩ := hn
  exact List.count_eq_zero_of_not_mem (h b (List.mem_range.mp hb))

/-- Unlinking an address keeps the addresses linked in a bucket among those linked
before, and removes the address itself. -/
theorem mem_RemoveEntryList (array : Nat → List Nat) (a b c : Nat)
    (h : c ∈ RemoveEntryList array a b) : c ∈ array b ∧ c ≠ a := by
  simp only [RemoveEntryList, List.mem_filter, bne_iff_ne, ne_eq] at h
  exact h

/-- The invariant reads the switch context and the key fields of the entries only. -/
theorem VportCountInv_congr (env : Env) (s s' : KernelState)
    (hctx : s'.switchContext = s.switchContext)
    (hkey : ∀ c, (s'.mem c).map countKey = (s.mem c).map countKey)
    (hinv : VportCountInv env s) : VportCountInv env s' := by
  have hsome : ∀ c e, s.mem c = some e →
      ∃ e', s'.mem c = some e' ∧ countKey e' = countKey e := by
    intro c e he
    have h := hkey c
    rw [he] at h
    cases h' : s'.mem c with
    | none => simp [h'] at h
    | some e' => exact ⟨e', rfl, by simpa [h'] using h⟩
  have hl : linkedInIndex env s' = linkedInIndex env s :=
    linkedInIndex_congr env s s' (by rw [hctx])
  have hc : ∀ c, linkCount env s' c = linkCount env s c :=
    fun c => linkCount_congr env s s' c (by rw [hctx])
  refine ⟨?_, ?_, ?_, ?_, ?_⟩
  · rw [hctx, hl]; exact hinv.count
  · intro b hb a ha
    rw [hctx] at ha
    obtain ⟨e, he, h⟩ := hinv.idx b hb a ha
    obtain ⟨e', he', hk⟩ := hsome a e he
    simp only [countKey, Prod.mk.injEq] at hk
    exact ⟨e', he', by rw [hk.1, hk.2.1]; exact h⟩
  · intro a
    rw [hc]; exact hinv.once a
  · intro a0 h0
    rw [hctx] at h0
    obtain ⟨e0, he, ht, hx, hi⟩ := hinv.ext a0 h0
    obtain ⟨e', he', hk⟩ := hsome a0 e0 he
    simp only [countKey, Prod.mk.injEq] at hk
    exact ⟨e', he', hk.2.2.2.trans ht, hk.1.trans hx, hk.2.1.trans hi⟩
  · intro ai h0
    rw [hctx] at h0
    obtain ⟨e, he, ht, hx, hi, hlc⟩ := hinv.int ai h0
    obtain ⟨e', he', hk⟩ := hsome ai e he
    simp only [countKey, Prod.mk.injEq] at hk
    exact ⟨e', he', hk.2.2.1.trans ht, hk.1.trans hx, hk.2.1.trans hi, by rw [hc]; exact hlc⟩

/-- The empty store satisfies the invariant. -/
theorem VportCountInv_emptyState (env : Env) : VportCountInv env emptyState := by
  have hl : linkedInIndex env emptyState = 0 := by
    unfold linkedInIndex
    apply List.sum_eq_zero
    intro n hn
    rw [List.mem_map] at hn
    obtain ⟨b, _, rfl⟩ := hn
    rfl
  refine ⟨by rw [hl]; rfl, ?_, ?_, ?_, ?_⟩
  · intro b _ a ha
    simp [emptyState] at ha
  · intro a
    rw [linkCount_zero env emptyState a (fun b _ h => by simp [emptyState] at h)]
    omega
  · intro a0 h
    simp [emptyState] at h
  · intro ai h
    simp [emptyState] at h

/-- Under the invariant, what the lookup with nic index 0 returns is an allocated entry
with nicIndex 0 that is either an external port-level entry or an entry linked once into
the port-id index. -/
theorem find_zero_of_count_inv (env : Env) (s : KernelState)
    (hmask : env.OVS_VPORT_MASK < env.OVS_MAX_VPORT_ARRAY_SIZE)
    (hinv : VportCountInv env s) (portId a : Nat)
    (h : OvsFindVportByPortIdAndNicIndex env s portId 0 = some (some a)) :
    ∃ e, s.mem a = some e ∧ e.nicIndex = 0 ∧
      (e.isExternal = true ∨ (e.isExternal = false ∧ linkCount env s a = 1)) := by
  unfold OvsFindVportByPortIdAndNicIndex at h
  by_cases h1 : portId = s.switchContext.externalPortId
  · rw [if_pos h1] at h
    simp only [Option.some.injEq] at h
    obtain ⟨e0, he, _, hx, hi⟩ := hinv.ext a h
    exact ⟨e0, he, hi, Or.inl hx⟩
  · rw [if_neg h1] at h
    by_cases h2 : s.switchContext.internalPortId = portId
    · rw [if_pos h2] at h
      simp only [Option.some.injEq] at h
      obtain ⟨e, he, _, hx, hi, hl⟩ := hinv.int a h
      exact ⟨e, he, hi, Or.inr ⟨hx, hl⟩⟩
    · rw [if_neg h2] at h
      obtain ⟨hmem, e, he, _, hi⟩ := findPortIdLink_sound s.mem portId 0 _ a h
      have hb := bucket_lt env hmask (env.OvsJhashWords portId)
      obtain ⟨e', he', hx⟩ := hinv.idx _ hb a hmem
      rw [he] at he'
      cases he'
      refine ⟨e, he, hi, Or.inr ⟨?_, ?_⟩⟩
      · cases hxe : e.isExternal with
        | false => rfl
        | true => exact absurd hi (hx hxe)
      · exact le_antisymm (hinv.once a) (linkCount_pos env s a _ hb hmem)

/-- The function `OvsRemoveAndDeleteVport` on an allocated entry returns and frees the
entry. For an external port-level entry it empties the external slot and leaves the
port-id index, the count and the internal slot; for any other entry it unlinks the entry
from the port-id index, lowers the count by one, leaves the external slot, and empties
the internal slot when the kind of the entry is Internal. -/
theorem OvsRemoveAndDeleteVport_spec (s : KernelState) (a : Nat) (e : OVS_VPORT_ENTRY)
    (h : s.mem a = some e) :
    ∃ s1, OvsRemoveAndDeleteVport s a = some s1 ∧
      (∀ c, s1.mem c = if c = a then none else s.mem c) ∧
      (e.isExternal = true ∧ e.nicIndex = 0 →
        s1.switchContext.portIdHashArray = s.switchContext.portIdHashArray ∧
        s1.switchContext.numVports = s.switchContext.numVports ∧
        s1.switchContext.externalVport = none ∧
        s1.switchContext.internalVport = s.switchContext.internalVport) ∧
      (¬ (e.isExternal = true ∧ e.nicIndex = 0) →
        s1.switchContext.portIdHashArray =
          RemoveEntryList s.switchContext.portIdHashArray a ∧
        s1.switchContext.numVports = s.switchContext.numVports - 1 ∧
        s1.switchContext.externalVport = s.switchContext.externalVport ∧
        s1.switchContext.internalVport =
          (if e.ovsType = OVS_VPORT_TYPE.OVS_VPORT_TYPE_INTERNAL then none
           else s.switchContext.internalVport)) := by
  unfold OvsRemoveAndDeleteVport
  simp only [h]
  by_cases hE : e.isExternal = true ∧ e.nicIndex = 0
  · rw [if_pos hE]
    refine ⟨_, rfl, ?_, ?_, fun hn => absurd hE hn⟩
    · intro c
      simp [free_mem]
    · intro _
      simp
  · rw [if_neg hE]
    refine ⟨_, rfl, ?_, fun hp => absurd hp hE, ?_⟩
    · intro c
      cases e.isExternal <;> cases e.ovsType <;> simp [free_mem]
    · intro _
      cases e.isExternal <;> cases e.ovsType <;> simp

/-- The function `OvsRemoveAndDeleteVport` keeps the invariant when the entry it removes
has nicIndex 0 and is either an external port-level entry or an entry linked once into
the port-id index. -/
theorem OvsRemoveAndDeleteVport_keeps_count (env : Env) (s s1 : KernelState) (a : Nat)
    (e : OVS_VPORT_ENTRY) (hinv : VportCountInv env s) (he : s.mem a = some e)
    (hi : e.nicIndex = 0)
    (hkind : e.isExternal = true ∨ (e.isExternal = false ∧ linkCount env s a = 1))
    (h : OvsRemoveAndDeleteVport s a = some s1) : VportCountInv env s1 := by
  obtain ⟨s2, h2, hmem, hsing, hgen⟩ := OvsRemoveAndDeleteVport_spec s a e he
  have hs : s2 = s1 := by
    rw [h2] at h
    exact Option.some.inj h
  subst hs
  have hother : ∀ c, c ≠ a → s2.mem c = s.mem c := by
    intro c hc
    rw [hmem c, if_neg hc]
  by_cases hE : e.isExternal = true
  · obtain ⟨harr, hnv, hxv, hiv⟩ := hsing ⟨hE, hi⟩
    have hnl : ∀ b, b < env.OVS_MAX_VPORT_ARRAY_SIZE →
        ∀ c ∈ s.switchContext.portIdHashArray b, c ≠ a := by
      intro b hb c hc hca
      subst hca
      obtain ⟨e', he', hx⟩ := hinv.idx b hb c hc
      rw [he] at he'
      cases he'
      exact hx hE hi
    refine ⟨?_, ?_, ?_, ?_, ?_⟩
    · rw [hnv, linkedInIndex_congr env s s2 harr]; exact hinv.count
    · intro b hb c hc
      rw [harr] at hc
      obtain ⟨e', he', hx⟩ := hinv.idx b hb c hc
      exact ⟨e', by rw [hother c (hnl b hb c hc)]; exact he', hx⟩
    · intro c
      rw [linkCount_congr env s s2 c harr]; exact hinv.once c
    · intro a0 h0
      rw [hxv] at h0
      cases h0
    · intro ai h0
      rw [hiv] at h0
      obtain ⟨e', he', ht, hx, hi', hl⟩ := hinv.int ai h0
      have hne : ai ≠ a := by
        intro hai
        subst hai
        rw [he] at he'
        cases he'
        rw [hE] at hx
        cases hx
      exact ⟨e', by rw [hother ai hne]; exact he', ht, hx, hi',
        by rw [linkCount_congr env s s2 ai harr]; exact hl⟩
  · have hEf : e.isExternal = false := by
      cases hx : e.isExternal with
      | false => rfl
      | true => exact absurd hx hE
    have hl1 : linkCount env s a = 1 := by
      rcases hkind with hk | hk
      · exact absurd hk hE
      · exact hk.2
    obtain ⟨harr, hnv, hxv, hiv⟩ := hgen (fun hh => hE hh.1)
    refine ⟨?_, ?_, ?_, ?_, ?_⟩
    · have hsum := linkedInIndex_remove env s s2 a harr
      rw [hl1] at hsum
      rw [hnv, hinv.count, hsum]
      push_cast
      ring
    · intro b hb c hc
      rw [harr] at hc
      obtain ⟨hc1, hca⟩ := mem_RemoveEntryList _ a b c hc
      obtain ⟨e', he', hx⟩ := hinv.idx b hb c hc1
      exact ⟨e', by rw [hother c hca]; exact he', hx⟩
    · intro c
      rw [linkCount_remove env s s2 a c harr]
      by_cases hc : c = a
      · simp [hc]
      · simp only [hc, if_false]; exact hinv.once c
    · intro a0 h0
      rw [hxv] at h0
      obtain ⟨e0, he0, ht, hx, hi0⟩ := hinv.ext a0 h0
      have hne : a0 ≠ a := by
        intro hai
        subst hai
        rw [he] at he0
        cases he0
        exact hE hx
      exact ⟨e0, by rw [hother a0 hne]; exact he0, ht, hx, hi0⟩
    · intro ai h0
      rw [hiv] at h0
      by_cases hT : e.ovsType = OVS_VPORT_TYPE.OVS_VPORT_TYPE_INTERNAL
      · rw [if_pos hT] at h0
        cases h0
      · rw [if_neg hT] at h0
        obtain ⟨e', he', ht, hx, hi', hl⟩ := hinv.int ai h0
        have hne : ai ≠ a := by
          intro hai
          subst hai
          rw [he] at he'
          cases he'
          exact hT ht
        exact ⟨e', by rw [hother ai hne]; exact he', ht, hx, hi',
          by rw [linkCount_remove env s s2 a ai harr, if_neg hne]; exact hl⟩

/-- The handler `HvDeletePort` keeps the invariant when it returns. -/
theorem HvDeletePort_keeps_count (env : Env) (s s' : KernelState)
    (portParam : NDIS_SWITCH_PORT_PARAMETERS)
    (hmask : env.OVS_VPORT_MASK < env.OVS_MAX_VPORT_ARRAY_SIZE)
    (hinv : VportCountInv env s) (h : HvDeletePort env s portParam = some s') :
    VportCountInv env s' := by
  cases hfind : OvsFindVportByPortIdAndNicIndex env s portParam.PortId 0 with
  | none => simp [HvDeletePort, find_emit, hfind] at h
  | some r =>
    cases r with
    | none =>
      rw [HvDeletePort_notfound env s portParam hfind] at h
      cases h
      exact VportCountInv_congr env s _ rfl (fun _ => rfl) hinv
    | some a =>
      obtain ⟨e, he, hi, hkind⟩ :=
        find_zero_of_count_inv env s hmask hinv portParam.PortId a hfind
      rw [HvDeletePort_found env s portParam a hfind] at h
      cases h1 : OvsRemoveAndDeleteVport (s.emit Effect.NdisAcquireRWLockWrite) a with
      | none => simp [h1] at h
      | some s1 =>
        rw [h1] at h
        simp only [Option.map_some', Option.some.injEq] at h
        subst h
        have hinv0 : VportCountInv env (s.emit Effect.NdisAcquireRWLockWrite) :=
          VportCountInv_congr env s _ rfl (fun _ => rfl) hinv
        have hinv1 := OvsRemoveAndDeleteVport_keeps_count env
          (s.emit Effect.NdisAcquireRWLockWrite) s1 a e hinv0 he hi hkind h1
        exact VportCountInv_congr env s1 _ rfl (fun _ => rfl) hinv1

/-- The handler `HvDeleteNic`, when it returns, leaves the switch context as it was and
changes no key field of any entry. -/
theorem HvDeleteNic_keeps_keys (env : Env) (s s' : KernelState)
    (nicParam : NDIS_SWITCH_NIC_PARAMETERS) (h : HvDeleteNic env s nicParam = some s') :
    s'.switchContext = s.switchContext ∧
      ∀ c, (s'.mem c).map countKey = (s.mem c).map countKey := by
  cases hact : s.switchContext.isActivated with
  | false =>
    cases hfail : s.switchContext.isActivateFailed with
    | false => simp [HvDeleteNic, OvsWaitActivate, hact, hfail] at h
    | true =>
      simp only [HvDeleteNic, OvsWaitActivate, hact, hfail, Bool.not_false,
        Bool.not_true, Bool.and_false, Bool.false_eq_true, if_false, if_true,
        Option.some.injEq] at h
      subst h
      exact ⟨rfl, fun _ => rfl⟩
  | true =>
    cases hfind : OvsFindVportByPortIdAndNicIndex env s nicParam.PortId nicParam.NicIndex with
    | none =>
      simp only [HvDeleteNic, OvsWaitActivate, hact, Bool.not_true, Bool.false_and,
        Bool.false_eq_true, if_false, find_emit, hfind] at h
      cases h
    | some found =>
      cases found with
      | none =>
        rw [HvDeleteNic_notfound env s nicParam hact hfind] at h
        cases h
        exact ⟨rfl, fun _ => rfl⟩
      | some a =>
        cases hmem : s.mem a with
        | none =>
          simp only [HvDeleteNic, OvsWaitActivate, hact, Bool.not_true, Bool.false_and,
            Bool.false_eq_true, if_false, find_emit, hfind, emit_mem, hmem] at h
          cases h
        | some e =>
          by_cases hgen : e.portType = NDIS_SWITCH_PORT_TYPE.NdisSwitchPortTypeExternal ∧
              e.nicIndex ≠ 0
          · exfalso
            simp only [HvDeleteNic, OvsWaitActivate, hact, Bool.not_true, Bool.false_and,
              Bool.false_eq_true, if_false, find_emit, hfind, emit_mem, hmem, hgen,
              ne_eq, not_false_eq_true, and_self, if_true] at h
            cases hr : OvsRemoveAndDeleteVport (s.emit Effect.NdisAcquireRWLockWrite) a with
            | none => simp [hr] at h
            | some s1 =>
              have hfree := OvsRemoveAndDeleteVport_frees _ s1 a hr
              simp [hr, hfree] at h
          · rw [HvDeleteNic_found_generic env s nicParam a e hact hfind hmem hgen] at h
            simp only [Option.some.injEq] at h
            subst h
            refine ⟨rfl, ?_⟩
            intro c
            by_cases hc : c = a
            · subst hc
              simp [store_mem, hmem, countKey]
            · simp [store_mem, hc]

/-- Linking a newly allocated entry into the port-id index and raising the count by one
keeps the invariant, provided the entry is not an external port-level entry, the
external slot is left, and the internal slot is either left or taken by the new entry,
which then is of Internal kind with nicIndex 0. -/
theorem VportCountInv_insert (env : Env) (s s' : KernelState) (a b0 : Nat)
    (v' : OVS_VPORT_ENTRY) (hinv : VportCountInv env s)
    (hb : b0 < env.OVS_MAX_VPORT_ARRAY_SIZE) (hfa : s.mem a = none)
    (harr : s'.switchContext.portIdHashArray =
      InsertHeadList s.switchContext.portIdHashArray b0 a)
    (hnv : s'.switchContext.numVports = s.switchContext.numVports + 1)
    (hext : s'.switchContext.externalVport = s.switchContext.externalVport)
    (hint : s'.switchContext.internalVport = s.switchContext.internalVport ∨
      (s'.switchContext.internalVport = some a ∧
        v'.ovsType = OVS_VPORT_TYPE.OVS_VPORT_TYPE_INTERNAL ∧ v'.isExternal = false ∧
        v'.nicIndex = 0))
    (hoth : ∀ c, c ≠ a → s'.mem c = s.mem c) (hv' : s'.mem a = some v')
    (hkey : v'.isExternal = true → v'.nicIndex ≠ 0) : VportCountInv env s' := by
  have hold : ∀ b, b < env.OVS_MAX_VPORT_ARRAY_SIZE →
      a ∉ s.switchContext.portIdHashArray b := by
    intro b hb' hc
    obtain ⟨e, he, _⟩ := hinv.idx b hb' a hc
    rw [hfa] at he
    cases he
  have hl0 : linkCount env s a = 0 := linkCount_zero env s a hold
  have hla : linkCount env s' a = 1 := by
    rw [linkCount_insert env s s' b0 a a hb harr, hl0]
    simp
  have hlc : ∀ c, c ≠ a → linkCount env s' c = linkCount env s c := by
    intro c hc
    rw [linkCount_insert env s s' b0 a c hb harr]
    simp [hc]
  have halloc : ∀ c e, s.mem c = some e → c ≠ a := by
    intro c e he hca
    rw [hca, hfa] at he
    cases he
  refine ⟨?_, ?_, ?_, ?_, ?_⟩
  · rw [hnv, hinv.count, linkedInIndex_insert env s s' b0 a hb harr]
    push_cast
    rfl
  · intro b hb' c hc
    rw [harr] at hc
    by_cases hca : c = a
    · subst hca
      exact ⟨v', hv', hkey⟩
    · have hc1 : c ∈ s.switchContext.portIdHashArray b := by
        simp only [InsertHeadList] at hc
        by_cases hbb : b = b0
        · simp only [hbb, if_true, List.mem_cons] at hc
          rcases hc with h | h
          · exact absurd h hca
          · rw [hbb]; exact h
        · simpa only [hbb, if_false] using hc
      obtain ⟨e, he, hx⟩ := hinv.idx b hb' c hc1
      exact ⟨e, by rw [hoth c hca]; exact he, hx⟩
  · intro c
    by_cases hca : c = a
    · rw [hca, hla]
    · rw [hlc c hca]; exact hinv.once c
  · intro a0 h0
    rw [hext] at h0
    obtain ⟨e0, he0, ht, hx, hi⟩ := hinv.ext a0 h0
    exact ⟨e0, by rw [hoth a0 (halloc a0 e0 he0)]; exact he0, ht, hx, hi⟩
  · intro ai h0
    rcases hint with hsame | ⟨hnew, ht, hx, hi⟩
    · rw [hsame] at h0
      obtain ⟨e, he, ht, hx, hi, hl⟩ := hinv.int ai h0
      have hne := halloc ai e he
      exact ⟨e, by rw [hoth ai hne]; exact he, ht, hx, hi, by rw [hlc ai hne]; exact hl⟩
    · rw [hnew] at h0
      simp only [Option.some.injEq] at h0
      subst h0
      exact ⟨v', hv', ht, hx, hi, hla⟩

/-- Putting a newly allocated external port-level entry into the external slot, with the
port-id index, the count and the internal slot left as they were, keeps the invariant. -/
theorem VportCountInv_external_slot (env : Env) (s s' : KernelState) (a : Nat)
    (v' : OVS_VPORT_ENTRY) (hinv : VportCountInv env s) (hfa : s.mem a = none)
    (harr : s'.switchContext.portIdHashArray = s.switchContext.portIdHashArray)
    (hnv : s'.switchContext.numVports = s.switchContext.numVports)
    (hext : s'.switchContext.externalVport = some a)
    (hint : s'.switchContext.internalVport = s.switchContext.internalVport)
    (hoth : ∀ c, c ≠ a → s'.mem c = s.mem c) (hv' : s'.mem a = some v')
    (ht : v'.portType = NDIS_SWITCH_PORT_TYPE.NdisSwitchPortTypeExternal)
    (hx : v'.isExternal = true) (hi : v'.nicIndex = 0) : VportCountInv env s' := by
  have halloc : ∀ c e, s.mem c = some e → c ≠ a := by
    intro c e he hca
    rw [hca, hfa] at he
    cases he
  refine ⟨?_, ?_, ?_, ?_, ?_⟩
  · rw [hnv, linkedInIndex_congr env s s' harr]; exact hinv.count
  · intro b hb c hc
    rw [harr] at hc
    obtain ⟨e, he, hxe⟩ := hinv.idx b hb c hc
    exact ⟨e, by rw [hoth c (halloc c e he)]; exact he, hxe⟩
  · intro c
    rw [linkCount_congr env s s' c harr]; exact hinv.once c
  · intro a0 h0
    rw [hext] at h0
    simp only [Option.some.injEq] at h0
    subst h0
    exact ⟨v', hv', ht, hx, hi⟩
  · intro ai h0
    rw [hint] at h0
    obtain ⟨e, he, hte, hxe, hie, hl⟩ := hinv.int ai h0
    exact ⟨e, by rw [hoth ai (halloc ai e he)]; exact he, hte, hxe, hie,
      by rw [linkCount_congr env s s' ai harr]; exact hl⟩

theorem newPortEntry_isExternal (env : Env) (p : NDIS_SWITCH_PORT_PARAMETERS) :
    (newPortEntry env p).isExternal =
      decide (p.PortType = NDIS_SWITCH_PORT_TYPE.NdisSwitchPortTypeExternal) := by
  simp only [newPortEntry, freshVport, OvsInitVportWithPortParam]
  cases p.PortType <;> cases p.PortState <;> rfl

theorem newPortEntry_ovsType_internal (env : Env) (p : NDIS_SWITCH_PORT_PARAMETERS)
    (h : p.PortType = NDIS_SWITCH_PORT_TYPE.NdisSwitchPortTypeInternal) :
    (newPortEntry env p).ovsType = OVS_VPORT_TYPE.OVS_VPORT_TYPE_INTERNAL := by
  simp only [newPortEntry, freshVport, OvsInitVportWithPortParam, h]
  cases p.PortState <;> rfl

/-- The handler `HvCreatePort`, when it returns another status than success, leaves the switch
context and the entries. -/
theorem HvCreatePort_cases (env : Env) (s s' : KernelState)
    (portParam : NDIS_SWITCH_PORT_PARAMETERS) (alloc : Option Nat) (st : NDIS_STATUS)
    (h : HvCreatePort env s portParam alloc = some (st, s')) :
    st = NDIS_STATUS.NDIS_STATUS_SUCCESS ∨
      (s'.switchContext = s.switchContext ∧ s'.mem = s.mem) := by
  unfold HvCreatePort at h
  simp only [find_emit] at h
  cases hfind : OvsFindVportByPortIdAndNicIndex env s portParam.PortId 0 with
  | none => simp [hfind] at h
  | some r =>
    cases r with
    | some b =>
      simp only [hfind, Option.some.injEq, Prod.mk.injEq] at h
      obtain ⟨_, rfl⟩ := h
      exact Or.inr ⟨rfl, rfl⟩
    | none =>
      cases alloc with
      | none =>
        simp only [hfind, OvsAllocateVport, Option.some.injEq, Prod.mk.injEq] at h
        obtain ⟨_, rfl⟩ := h
        exact Or.inr ⟨rfl, rfl⟩
      | some a =>
        left
        simp only [hfind, OvsAllocateVport, store_mem_same, store_store] at h
        cases hc : OvsInitVportCommon env
            ((s.emit Effect.NdisAcquireRWLockWrite).store a
              (OvsInitVportWithPortParam (freshVport env) portParam)) a with
        | none => simp [hc] at h
        | some r =>
          obtain ⟨st1, s1⟩ := r
          simp only [hc, Option.some.injEq, Prod.mk.injEq] at h
          exact h.1.symm

/-- The handler `HvCreatePort` keeps the invariant when it returns, provided the block the
allocator gives (if any) was not allocated before. -/
theorem HvCreatePort_keeps_count (env : Env) (s : KernelState)
    (portParam : NDIS_SWITCH_PORT_PARAMETERS) (alloc : Option Nat)
    (r : NDIS_STATUS × KernelState)
    (hmask : env.OVS_VPORT_MASK < env.OVS_MAX_VPORT_ARRAY_SIZE)
    (hinv : VportCountInv env s) (hfresh : ∀ a, alloc = some a → s.mem a = none)
    (h : HvCreatePort env s portParam alloc = some r) : VportCountInv env r.2 := by
  obtain ⟨st, s'⟩ := r
  rcases HvCreatePort_cases env s s' portParam alloc st h with hst | ⟨hctx, hmem⟩
  · subst hst
    obtain ⟨a, ha, _, hoth, ⟨name, hname⟩, hctx⟩ :=
      HvCreatePort_success_spec env s s' portParam alloc h
    have hfa := hfresh a ha
    have hb := bucket_lt env hmask (env.OvsJhashWords portParam.PortId)
    by_cases hE : portParam.PortType = NDIS_SWITCH_PORT_TYPE.NdisSwitchPortTypeExternal
    · rw [if_pos hE] at hctx
      exact VportCountInv_external_slot env s s' a _ hinv hfa (by rw [hctx]) (by rw [hctx])
        (by rw [hctx]) (by rw [hctx]) hoth hname
        ((newPortEntry_portType env portParam).trans hE)
        (by
          show (newPortEntry env portParam).isExternal = true
          rw [newPortEntry_isExternal]; simp [hE])
        (newPortEntry_nicIndex env portParam)
    · rw [if_neg hE] at hctx
      have hxf : (newPortEntry env portParam).isExternal = false := by
        rw [newPortEntry_isExternal]; simp [hE]
      by_cases hI : portParam.PortType = NDIS_SWITCH_PORT_TYPE.NdisSwitchPortTypeInternal
      · rw [if_pos hI] at hctx
        exact VportCountInv_insert env s s' a _
          { newPortEntry env portParam with ovsName := name } hinv hb hfa (by rw [hctx])
          (by rw [hctx]) (by rw [hctx])
          (Or.inr ⟨by rw [hctx], newPortEntry_ovsType_internal env portParam hI, hxf,
            newPortEntry_nicIndex env portParam⟩)
          hoth hname
          (fun hx => by
            have : (newPortEntry env portParam).isExternal = true := hx
            rw [hxf] at this
            cases this)
      · rw [if_neg hI] at hctx
        exact VportCountInv_insert env s s' a _
          { newPortEntry env portParam with ovsName := name } hinv hb hfa (by rw [hctx])
          (by rw [hctx]) (by rw [hctx]) (Or.inl (by rw [hctx])) hoth hname
          (fun hx => by
            have : (newPortEntry env portParam).isExternal = true := hx
            rw [hxf] at this
            cases this)
  · exact VportCountInv_congr env s s' hctx (fun c => by rw [hmem]) hinv

/-- The function `OvsInitVportWithNicParam` on an allocated entry returns, leaves the switch context
and every other address, and in the entry keeps `isExternal`, the kind and the port type
and sets the nic index to that of the notification. -/
theorem OvsInitVportWithNicParam_key (s : KernelState) (a : Nat) (v : OVS_VPORT_ENTRY)
    (nicParam : NDIS_SWITCH_NIC_PARAMETERS) (h : s.mem a = some v) :
    ∃ s' v', OvsInitVportWithNicParam s a nicParam = some s' ∧
      s'.switchContext = s.switchContext ∧
      (∀ c, c ≠ a → s'.mem c = s.mem c) ∧
      s'.mem a = some v' ∧
      countKey v' = (v.isExternal, nicParam.NicIndex, v.ovsType, v.portType) := by
  simp only [OvsInitVportWithNicParam, h]
  cases hN : nicParam.NicState <;>
  by_cases hT : (nicParam.NicType = NDIS_SWITCH_NIC_TYPE.NdisSwitchNicTypeSynthetic ∨
      nicParam.NicType = NDIS_SWITCH_NIC_TYPE.NdisSwitchNicTypeEmulated) <;>
  simp only [hT, if_true, if_false] <;>
  exact ⟨_, _, rfl, by simp, fun c hc => by simp [store_mem, hc], store_mem_same _ _ _,
    rfl⟩

/-- The part of `HvCreateNic` from `OvsInitVportWithNicParam` on, for an allocated entry:
it returns, leaves the switch context and every other address, and in the entry keeps
`isExternal`, the kind and the port type and sets the nic index to that of the
notification. -/
theorem HvCreateNic_init_key (s : KernelState) (a : Nat) (v : OVS_VPORT_ENTRY)
    (nicParam : NDIS_SWITCH_NIC_PARAMETERS) (h : s.mem a = some v) :
    ∃ r, HvCreateNic_init s a nicParam = some r ∧
      r.2.switchContext = s.switchContext ∧
      (∀ c, c ≠ a → r.2.mem c = s.mem c) ∧
      ∃ v', r.2.mem a = some v' ∧
        countKey v' = (v.isExternal, nicParam.NicIndex, v.ovsType, v.portType) := by
  obtain ⟨s1, v', h1, hctx, hoth, hm, hv⟩ := OvsInitVportWithNicParam_key s a v nicParam h
  simp only [HvCreateNic_init, h1, hm]
  refine ⟨_, rfl, ?_, ?_, ?_⟩
  · rw [HvCreateNic_done_switchContext]; exact hctx
  · intro c hc
    rw [HvCreateNic_done_mem]; exact hoth c hc
  · rw [HvCreateNic_done_mem]; exact ⟨v', hm, hv⟩

/-- The handler `HvCreateNic` keeps the invariant when it returns, provided a notification
with a non-zero NIC index has NIC type External and the block the allocator gives (if
any) was not allocated before. -/
theorem HvCreateNic_keeps_count (env : Env) (s : KernelState)
    (nicParam : NDIS_SWITCH_NIC_PARAMETERS) (alloc : Option Nat)
    (r : NDIS_STATUS × KernelState)
    (hmask : env.OVS_VPORT_MASK < env.OVS_MAX_VPORT_ARRAY_SIZE)
    (hinv : VportCountInv env s)
    (hrule : nicParam.NicIndex ≠ 0 →
      nicParam.NicType = NDIS_SWITCH_NIC_TYPE.NdisSwitchNicTypeExternal)
    (hfresh : ∀ a, alloc = some a → s.mem a = none)
    (h : HvCreateNic env s nicParam alloc = some r) : VportCountInv env r.2 := by
  cases hact : s.switchContext.isActivated with
  | false =>
    cases hfail : s.switchContext.isActivateFailed with
    | false => simp [HvCreateNic, OvsWaitActivate, hact, hfail] at h
    | true =>
      simp only [HvCreateNic, OvsWaitActivate, hact, hfail, Bool.not_false,
        Bool.not_true, Bool.and_false, Bool.false_eq_true, if_false, if_true,
        Option.some.injEq] at h
      subst h
      exact hinv
  | true =>
    have hdone : ∀ st, VportCountInv env
        (HvCreateNic_done (s.emit Effect.NdisAcquireRWLockWrite) st 0 0).2 := fun st =>
      VportCountInv_congr env s _ (by rw [HvCreateNic_done_switchContext]; rfl)
        (fun c => by rw [HvCreateNic_done_mem]; rfl) hinv
    cases hfind : OvsFindVportByPortIdAndNicIndex env s nicParam.PortId 0 with
    | none =>
      simp only [HvCreateNic, OvsWaitActivate, hact, Bool.not_true, Bool.false_and,
        Bool.false_eq_true, if_false, find_emit, hfind] at h
      cases h
    | some found =>
      cases found with
      | none =>
        rw [HvCreateNic_notfound env s nicParam alloc hact hfind] at h
        simp only [Option.some.injEq] at h
        subst h
        exact VportCountInv_congr env s _ rfl (fun _ => rfl) hinv
      | some v =>
        by_cases hphys : nicParam.NicType = NDIS_SWITCH_NIC_TYPE.NdisSwitchNicTypeExternal ∧
            nicParam.NicIndex ≠ 0
        · cases alloc with
          | none =>
            have hrun : HvCreateNic env s nicParam none =
                some (HvCreateNic_done (s.emit Effect.NdisAcquireRWLockWrite)
                  NDIS_STATUS.NDIS_STATUS_RESOURCES 0 0) := by
              simp [HvCreateNic, OvsWaitActivate, hact, find_emit, hfind, hphys,
                OvsAllocateVport]
            rw [hrun] at h
            simp only [Option.some.injEq] at h
            subst h
            exact hdone _
          | some a =>
            have hfa := hfresh a rfl
            cases hx : s.switchContext.externalVport with
            | none =>
              exfalso
              simp [HvCreateNic, OvsWaitActivate, hact, find_emit, hfind, hphys,
                OvsAllocateVport, hx] at h
            | some a0 =>
              obtain ⟨e0, hm0, ht0, _, _⟩ := hinv.ext a0 hx
              obtain ⟨r', hrun, hctx, hoth, v', hv', _, _, hvidx⟩ :=
                HvCreateNic_phys_spec env s nicParam a v a0 e0 hact hfind hphys hx hm0 ht0
                  hfa
              have hr : r' = r := by
                rw [hrun] at h
                exact Option.some.inj h
              subst hr
              exact VportCountInv_insert env s r'.2 a _ v' hinv
                (bucket_lt env hmask (env.OvsJhashWords e0.portId)) hfa (by rw [hctx])
                (by rw [hctx]) (by rw [hctx]) (Or.inl (by rw [hctx])) hoth hv'
                (fun _ => by rw [hvidx]; exact hphys.2)
        · have hidx0 : nicParam.NicIndex = 0 := by
            by_contra hne
            exact hphys ⟨hrule hne, hne⟩
          rw [HvCreateNic_generic_eq env s nicParam alloc v hact hfind hphys] at h
          obtain ⟨e, he, hi, _⟩ :=
            find_zero_of_count_inv env s hmask hinv nicParam.PortId v hfind
          obtain ⟨r', hrun, hctx, hoth, v', hv', hk⟩ :=
            HvCreateNic_init_key (s.emit Effect.NdisAcquireRWLockWrite) v e nicParam he
          have hr : r' = r := by
            rw [hrun] at h
            exact Option.some.inj h
          subst hr
          refine VportCountInv_congr env s r'.2 hctx ?_ hinv
          intro c
          by_cases hc : c = v
          · subst hc
            rw [hv', he]
            simp only [Option.map_some', Option.some.injEq]
            rw [hk, hidx0]
            simp only [countKey, hi]
          · rw [hoth c hc]
            rfl

/-- One call keeps the invariant when it returns, provided it keeps the rule on the NIC
index and the block the allocator gives (if any) was not allocated before. -/
theorem stepRegistryOp_keeps (env : Env) (s s1 : KernelState) (op : RegistryOp)
    (hmask : env.OVS_VPORT_MASK < env.OVS_MAX_VPORT_ARRAY_SIZE)
    (hinv : VportCountInv env s) (hrule : op.nicIndexRule)
    (hfresh : ∀ a, op.alloc = some a → s.mem a = none)
    (h : stepRegistryOp env s op = some s1) : VportCountInv env s1 := by
  cases op with
  | createPort portParam alloc =>
    simp only [stepRegistryOp] at h
    cases hr : HvCreatePort env s portParam alloc with
    | none => simp [hr] at h
    | some r =>
      rw [hr] at h
      simp only [Option.map_some', Option.some.injEq] at h
      subst h
      exact HvCreatePort_keeps_count env s portParam alloc r hmask hinv hfresh hr
  | createNic nicParam alloc =>
    simp only [stepRegistryOp] at h
    cases hr : HvCreateNic env s nicParam alloc with
    | none => simp [hr] at h
    | some r =>
      rw [hr] at h
      simp only [Option.map_some', Option.some.injEq] at h
      subst h
      exact HvCreateNic_keeps_count env s nicParam alloc r hmask hinv hrule hfresh hr
  | deleteNic nicParam =>
    simp only [stepRegistryOp] at h
    obtain ⟨hctx, hkey⟩ := HvDeleteNic_keeps_keys env s s1 nicParam h
    exact VportCountInv_congr env s s1 hctx hkey hinv
  | deletePort portParam =>
    simp only [stepRegistryOp] at h
    exact HvDeletePort_keeps_count env s s1 portParam hmask hinv h

/-- Every sequence of calls that keeps the rule on the NIC index, whose allocations are
fresh and whose calls all return keeps the invariant. -/
theorem runRegistryOps_keeps (env : Env)
    (hmask : env.OVS_VPORT_MASK < env.OVS_MAX_VPORT_ARRAY_SIZE) (ops : List RegistryOp) :
    ∀ s s', VportCountInv env s → (∀ op ∈ ops, op.nicIndexRule) →
      allocsFresh env s ops = true → runRegistryOps env s ops = some s' →
      VportCountInv env s' := by
  induction ops with
  | nil =>
    intro s s' hinv _ _ hrun
    simp only [runRegistryOps, Option.some.injEq] at hrun
    subst hrun
    exact hinv
  | cons op rest ih =>
    intro s s' hinv hops hfresh hrun
    cases hstep : stepRegistryOp env s op with
    | none => simp [runRegistryOps, hstep] at hrun
    | some s1 =>
      simp only [runRegistryOps, hstep] at hrun
      simp only [allocsFresh, hstep, Bool.and_eq_true] at hfresh
      have hfa : ∀ a, op.alloc = some a → s.mem a = none := by
        intro a ha
        have h1 := hfresh.1
        rw [ha] at h1
        simpa using h1
      have hinv1 := stepRegistryOp_keeps env s s1 op hmask hinv
        (hops op (List.mem_cons_self _ _)) hfa hstep
      exact ih s1 s' hinv1 (fun o ho => hops o (List.mem_cons_of_mem _ ho)) hfresh.2 hrun

/-! ## Claims about the count of vports -/

/-- Where the count of vports is kept: starting from the empty store, after every
sequence of `HvCreatePort`, `HvCreateNic`, `HvDeleteNic` and `HvDeletePort` calls in
which every `HvCreateNic` call with a non-zero NIC index has NIC type External, in which
the allocator never hands out a block that is in use, and whose calls all return,
`switchContext.numVports` equals the number of entries linked into the port-id index.
The bucket mask is taken to be below the number of buckets. -/
theorem numVports_counts_linked_entries (env : Env) (ops : List RegistryOp)
    (s : KernelState)
    (hmask : env.OVS_VPORT_MASK < env.OVS_MAX_VPORT_ARRAY_SIZE)
    (hops : ∀ op ∈ ops, op.nicIndexRule)
    (hfresh : allocsFresh env emptyState ops = true)
    (hrun : runRegistryOps env emptyState ops = some s) :
    s.switchContext.numVports = (linkedInIndex env s : Int) :=
  (runRegistryOps_keeps env hmask ops emptyState s (VportCountInv_emptyState env) hops
    hfresh hrun).count

/-- A worked instance of the kept count: create the external port 20, the physical NIC
(20, 1), the synthetic port 10 and its NIC (10, 0), then delete the NIC (10, 0), port 10
and port 20; the run returns with the physical-NIC entry still linked and `numVports`
= 1. -/
theorem numVports_counts_linked_entries_witness :
    ∃ s, runRegistryOps sampleEnv emptyState sampleRegistryOps = some s ∧
      s.switchContext.numVports = 1 ∧
      s.switchContext.numVports = (linkedInIndex sampleEnv s : Int) := by
  have hnum : (runRegistryOps sampleEnv emptyState sampleRegistryOps).map
      (fun s => s.switchContext.numVports) = some 1 := by decide
  cases hrun : runRegistryOps sampleEnv emptyState sampleRegistryOps with
  | none =>
    rw [hrun] at hnum
    cases hnum
  | some s =>
    rw [hrun] at hnum
    refine ⟨s, rfl, by simpa using hnum, ?_⟩
    exact numVports_counts_linked_entries sampleEnv sampleRegistryOps s (by decide)
      (by
        intro op hop
        simp only [sampleRegistryOps, List.mem_cons, List.mem_singleton, List.not_mem_nil,
          or_false] at hop
        rcases hop with rfl | rfl | rfl | rfl | rfl | rfl | rfl <;>
          simp [RegistryOp.nicIndexRule, sampleNic])
      (by decide) hrun

end Vport
